import Mathlib

/-! # emond: energy monitor daemon

A shallow embedding of the metering engine of `emond` (`src/src/emond.c`) and of the
report dispatcher and its worker thread (`src/src/webapi.c`), with theorems about pulse
validation, power computation, the time difference, counter accounting, the midnight
reset, the hourly save, the configuration callback, the counter file, the single-slot
dispatcher over time and the request the worker builds.

Conventions of the embedding.

* C `unsigned int` is 32 bits: values are natural numbers reduced modulo `2 ^ 32` by
  `to_uint` wherever the C code stores or computes one.
* C `unsigned long` is `W` bits wide, `W` being a parameter of every function that
  computes with it (32 on the Raspberry Pi the daemon was written for, 64 on LP64).
* C `long` and `time_t` arithmetic on timestamps is exact integer arithmetic.
* The static locals of `gpio_handler` and `timer_handler` and the file-scope variables
  of `emond.c` and `webapi.c` are the fields of `State`.
* What a handler reads from its environment (pin level, clocks, return codes of system
  calls) is an explicit argument; what it sends out (syslog lines, LCD lines, calls of
  `emoncms_send` and `write_flash`) is returned as a list of `Effect`s.
* The C library functions the code calls on strings (`atoi`, `fgets`, `snprintf`, the
  `%u`, `%lu` and `%d` conversions) are modelled on lists of characters; a file system is
  a function from path names to the result of `fopen`.
-/

namespace Emond

/-! ## Machine integers -/

/-- Conversion to C `unsigned int` (32 bits). -/
def to_uint (n : Nat) : Nat := n % 2 ^ 32

/-- Conversion of a non-negative value to C `unsigned long` of `W` bits. -/
def to_ulong (W n : Nat) : Nat := n % 2 ^ W

/-- Conversion of a signed value to C `unsigned long` of `W` bits. -/
def int_to_ulong (W : Nat) (z : Int) : Nat := (z % (2 ^ W : Int)).toNat

/-- Addition in `unsigned long`. -/
def ulong_add (W a b : Nat) : Nat := (a + b) % 2 ^ W

/-- Subtraction in `unsigned long`. -/
def ulong_sub (W a b : Nat) : Nat := (a % 2 ^ W + (2 ^ W - b % 2 ^ W)) % 2 ^ W

/-- Multiplication in `unsigned long`. -/
def ulong_mul (W a b : Nat) : Nat := (a * b) % 2 ^ W

/-! ## Constants of `emond.c` -/

/-- File name of the persisted counters: `#define NV_FILENAME "emond.dat"`. -/
def NV_FILENAME : String := "emond.dat"

/-- Minimal pulse period for glitch detection: `#define MIN_PULSE_PERIOD_MS 200`. -/
def MIN_PULSE_PERIOD_MS : Nat := 200

/-- Tolerance for pulse verification in percent: `#define PULSE_TOLERANCE 5`. -/
def PULSE_TOLERANCE : Nat := 5

/-- Pin level `LOW` of wiringPi. -/
def LOW : Int := 0

/-! ## Data model -/

/-- C `struct timespec`. -/
structure Timespec where
  tv_sec : Int
  tv_nsec : Int
deriving DecidableEq, Repr

/-- The fields of C `struct tm` that the daemon reads. -/
structure Tm where
  tm_hour : Int
  tm_min : Int
  tm_mday : Int
deriving DecidableEq, Repr

/-- The `config_t` record of `emond.c`; a `const char*` is `none` when `NULL`. -/
structure Config where
  pulse_input_pin : Nat
  wh_per_pulse : Nat
  pulse_length : Nat
  max_power : Nat
  flash_dir : Option String
  lcdproc_port : Nat
  api_base_uri : Option String
  api_key : Option String
  api_update_rate : Nat
  node_number : Nat
deriving DecidableEq, Repr

/-- The `emon_data_t` record handed to `emoncms_send`. The header shipped next to
`src/src/webapi.c` is the older one; the fields `api_base_uri` and `api_update_rate`
are taken from their uses in `emoncms_send_thread` and in `main`. -/
structure EmonData where
  inst_power : Nat
  energy_day : Nat
  energy_month : Nat
  api_base_uri : Option String
  api_key : Option String
  api_update_rate : Nat
  node_number : Nat
deriving DecidableEq, Repr

/-- The syslog lines of `gpio_handler` and `timer_handler` (with `DEBUG` undefined). -/
inductive LogMsg where
  | start_out_of_sequence
  | end_out_of_sequence
  | using_reference (pulse_length : Nat)
  | first_pulse (pulse_length : Nat)
  | power_out_of_range (power : Nat)
  | invalid_pulse (pulse_length : Nat)
  | timer_restart_failed
  | reset_daily (current : Nat)
  | reset_monthly (current : Nat)
deriving DecidableEq, Repr

/-- What a handler sends out of the core. `emoncms_send` carries the payload as it is at
the call and the return code of the call; `write_flash` carries its two arguments and the
two counters it is about to write. -/
inductive Effect where
  | syslog (m : LogMsg)
  | lcd_print (line : Int) (value : Nat)
  | emoncms_send (data : EmonData) (rc : Int)
  | write_flash (path filename : String) (daily monthly : Nat)
deriving DecidableEq, Repr

/-- The mutable state of the process: file-scope variables of `emond.c`
(`config`, `emon_data`, the two counters), the static locals of `gpio_handler`
(`first`, `pulse_started`, `prev_ts`, `pulse_start_ts`) and of `timer_handler`
(`reset_done`, `save_done`), and `ready_to_send` of `webapi.c`. -/
structure State where
  config : Config
  emon_data : EmonData
  pulse_count_daily : Nat
  pulse_count_monthly : Nat
  first : Int
  pulse_started : Int
  prev_ts : Timespec
  pulse_start_ts : Timespec
  reset_done : Int
  save_done : Int
  ready_to_send : Nat
deriving DecidableEq, Repr

/-- Result of one handler run: the state it leaves, what it sent out, and whether it
stopped at a null pointer dereference (`strlen (NULL)`); in that case `state` and
`effects` are those reached before the dereference. -/
structure Outcome where
  state : State
  effects : List Effect
  fault : Bool
deriving DecidableEq, Repr

/-! ## `webapi.c`: the dispatcher entry point -/

/-- Result of `emoncms_send`: return code, new value of `ready_to_send`, and whether a
worker thread was started. -/
structure SendResult where
  rc : Int
  ready_to_send : Nat
  thread_started : Bool
deriving DecidableEq, Repr

/-- `emoncms_send` of `webapi.c`. `pthread_create_rc` is what `pthread_create` returns
if it is called. -/
def emoncms_send (pthread_create_rc : Int) (ready_to_send : Nat) : SendResult :=
  if ready_to_send ≠ 0 then
    if pthread_create_rc ≠ 0 then
      { rc := -1, ready_to_send := 0, thread_started := false }
    else
      { rc := 0, ready_to_send := 0, thread_started := true }
  else
    { rc := -2, ready_to_send := ready_to_send, thread_started := false }

/-! ## `emond.c`: time difference -/

/-- `time_diff_ms` of `emond.c`: the difference of two timestamps in milliseconds, as
an `unsigned long`. -/
def time_diff_ms (W : Nat) (now_ts prev_ts : Timespec) : Nat :=
  if now_ts.tv_nsec > prev_ts.tv_nsec then
    let diff_msec := int_to_ulong W ((now_ts.tv_nsec - prev_ts.tv_nsec).tdiv 1000000)
    let diff_sec := int_to_ulong W (now_ts.tv_sec - prev_ts.tv_sec)
    ulong_add W (ulong_mul W diff_sec 1000) diff_msec
  else
    let diff_msec :=
      int_to_ulong W ((1000000000 - prev_ts.tv_nsec + now_ts.tv_nsec).tdiv 1000000)
    let diff_sec := int_to_ulong W (now_ts.tv_sec - prev_ts.tv_sec - 1)
    ulong_add W (ulong_mul W diff_sec 1000) diff_msec

/-! ## `emond.c`: the pulse handler -/

/-- What `gpio_handler` reads from outside: the pin level returned by `digitalRead`,
the time returned by `clock_gettime`, and the return code of `pthread_create` should
`emoncms_send` reach it. -/
structure GpioEnv where
  pin : Int
  clock : Timespec
  pthread_create_rc : Int
deriving DecidableEq, Repr

/-- The tolerance `(config.pulse_length*PULSE_TOLERANCE)/100`: computed in
`unsigned int`, stored in an `unsigned long`. -/
def pulse_delta (W pulse_length_ref : Nat) : Nat :=
  to_ulong W (to_uint (pulse_length_ref * PULSE_TOLERANCE) / 100)

/-- The width check of `gpio_handler`:
`pulse_length > (config.pulse_length-pulse_delta) &&
 pulse_length < (config.pulse_length+pulse_delta)`, in `unsigned long`. -/
def width_valid (W pulse_length_ref delta pulse_length : Nat) : Bool :=
  decide (pulse_length > ulong_sub W pulse_length_ref delta) &&
  decide (pulse_length < ulong_add W pulse_length_ref delta)

/-- The instantaneous power `(unsigned int)(config.wh_per_pulse*3600000.0/t_diff)`.
The quotient is formed in `double` and truncated by the cast; it is modelled by the
integer quotient, which the truncated `double` quotient equals as long as numerator and
denominator stay below `2 ^ 53`. The cast is defined by C only for a quotient below
`2 ^ 32`; beyond, the value is reduced modulo `2 ^ 32` here. -/
def inst_power (wh_per_pulse t_diff : Nat) : Nat :=
  to_uint (wh_per_pulse * 3600000 / t_diff)

/-- The energy `pulse_count*config.wh_per_pulse`: computed in `unsigned long`, passed
or stored as `unsigned int`. -/
def energy (W pulse_count wh_per_pulse : Nat) : Nat :=
  to_uint (ulong_mul W pulse_count wh_per_pulse)

/-- `gpio_handler` of `emond.c`. -/
def gpio_handler (W : Nat) (env : GpioEnv) (s : State) : Outcome :=
  if env.pin = LOW then
    -- Pulse started
    if s.pulse_started = 0 then
      { state := { s with pulse_started := 1, pulse_start_ts := env.clock },
        effects := [], fault := false }
    else
      { state := s, effects := [Effect.syslog LogMsg.start_out_of_sequence],
        fault := false }
  else
    -- Pulse ended
    if s.pulse_started = 1 then
      let pulse_end_ts := env.clock
      let pulse_length := time_diff_ms W pulse_end_ts s.pulse_start_ts
      -- reference taken from the first pulse when none is configured
      let calibrate : Bool := decide (s.first ≠ 0) && decide (s.config.pulse_length = 0)
      let config : Config :=
        if calibrate then { s.config with pulse_length := to_uint pulse_length }
        else s.config
      let log0 : List Effect :=
        if calibrate then [Effect.syslog (LogMsg.using_reference pulse_length)] else []
      let delta := pulse_delta W config.pulse_length
      let s1 : State := { s with pulse_started := 0, config := config }
      if width_valid W config.pulse_length delta pulse_length then
        let now_ts := pulse_end_ts
        if s1.first ≠ 0 then
          let daily := ulong_add W s1.pulse_count_daily 1
          let monthly := ulong_add W s1.pulse_count_monthly 1
          { state := { s1 with first := 0, pulse_count_daily := daily,
                               pulse_count_monthly := monthly, prev_ts := now_ts },
            effects := log0 ++
              [Effect.syslog (LogMsg.first_pulse pulse_length),
               Effect.lcd_print 1 0,
               Effect.lcd_print 2 (energy W daily s1.config.wh_per_pulse),
               Effect.lcd_print 3 (energy W monthly s1.config.wh_per_pulse)],
            fault := false }
        else
          let t_diff := time_diff_ms W now_ts s1.prev_ts
          if t_diff > MIN_PULSE_PERIOD_MS then
            let power := inst_power s1.config.wh_per_pulse t_diff
            if power < s1.config.max_power then
              let daily := ulong_add W s1.pulse_count_daily 1
              let monthly := ulong_add W s1.pulse_count_monthly 1
              let data : EmonData :=
                { s1.emon_data with
                    inst_power := power,
                    energy_day := energy W daily s1.config.wh_per_pulse,
                    energy_month := energy W monthly s1.config.wh_per_pulse }
              let r := emoncms_send env.pthread_create_rc s1.ready_to_send
              { state := { s1 with pulse_count_daily := daily,
                                   pulse_count_monthly := monthly,
                                   emon_data := data,
                                   ready_to_send := r.ready_to_send,
                                   prev_ts := now_ts },
                effects := log0 ++
                  [Effect.lcd_print 1 power,
                   Effect.lcd_print 2 (energy W daily s1.config.wh_per_pulse),
                   Effect.lcd_print 3 (energy W monthly s1.config.wh_per_pulse),
                   Effect.emoncms_send data r.rc],
                fault := false }
            else
              { state := { s1 with prev_ts := now_ts },
                effects := log0 ++ [Effect.syslog (LogMsg.power_out_of_range power)],
                fault := false }
          else
            { state := { s1 with prev_ts := now_ts }, effects := log0, fault := false }
      else
        { state := s1,
          effects := log0 ++ [Effect.syslog (LogMsg.invalid_pulse pulse_length)],
          fault := false }
    else
      { state := s, effects := [Effect.syslog LogMsg.end_out_of_sequence],
        fault := false }

/-! ## `emond.c`: the timer handler -/

/-- `is_full_hour`: 1 if the local time is xx:00, 0 otherwise. -/
def is_full_hour (now_tm : Tm) : Int :=
  if now_tm.tm_min = 0 then 1 else 0

/-- `is_midnight`: 1 if the local time is 00:00, 0 otherwise. -/
def is_midnight (now_tm : Tm) : Int :=
  if now_tm.tm_hour = 0 ∧ now_tm.tm_min = 0 then 1 else 0

/-- `is_first_dom`: 1 if the local day of the month is 1, 0 otherwise. -/
def is_first_dom (now_tm : Tm) : Int :=
  if now_tm.tm_mday = 1 then 1 else 0

/-- What `timer_handler` reads from outside: the return code of `setitimer`, and the
local time seen by each of `is_midnight`, `is_first_dom` and `is_full_hour`, which read
the clock one after the other. -/
structure TimerEnv where
  setitimer_rc : Int
  midnight_tm : Tm
  first_dom_tm : Tm
  full_hour_tm : Tm
deriving DecidableEq, Repr

/-- The midnight block of `timer_handler`: the state it leaves and what it logs. -/
def midnight_block (env : TimerEnv) (s : State) : State × List Effect :=
  if is_midnight env.midnight_tm ≠ 0 then
    if s.reset_done = 0 then
      let s1 : State := { s with pulse_count_daily := 0, reset_done := 1 }
      if is_first_dom env.first_dom_tm ≠ 0 then
        ({ s1 with pulse_count_monthly := 0 },
         [Effect.syslog (LogMsg.reset_daily s.pulse_count_daily),
          Effect.syslog (LogMsg.reset_monthly s.pulse_count_monthly)])
      else
        (s1, [Effect.syslog (LogMsg.reset_daily s.pulse_count_daily)])
    else
      (s, [])
  else
    ({ s with reset_done := 0 }, [])

/-- `timer_handler` of `emond.c`. -/
def timer_handler (env : TimerEnv) (s : State) : Outcome :=
  -- Restart the timer
  if env.setitimer_rc < 0 then
    { state := s, effects := [Effect.syslog LogMsg.timer_restart_failed], fault := false }
  else
    -- Check if it is midnight
    let (s1, e1) := midnight_block env s
    -- Check if it is the full hour
    if is_full_hour env.full_hour_tm ≠ 0 then
      if s1.save_done = 0 then
        match s1.config.flash_dir with
        | none => { state := s1, effects := e1, fault := true }
        | some dir =>
          let e2 : List Effect :=
            if dir.length > 0 then
              [Effect.write_flash dir NV_FILENAME s1.pulse_count_daily
                 s1.pulse_count_monthly]
            else []
          { state := { s1 with save_done := 1 }, effects := e1 ++ e2, fault := false }
      else
        { state := s1, effects := e1, fault := false }
    else
      { state := { s1 with save_done := 0 }, effects := e1, fault := false }

/-! ## Event sequences -/

/-- The two asynchronous events the core handles. -/
inductive Event where
  | edge (env : GpioEnv)
  | tick (env : TimerEnv)
deriving DecidableEq, Repr

/-- One event handled in state `s`. -/
def step (W : Nat) (ev : Event) (s : State) : Outcome :=
  match ev with
  | Event.edge env => gpio_handler W env s
  | Event.tick env => timer_handler env s

/-- A sequence of events handled one after the other; the process stops at the first
fault, and the effects are collected in order. -/
def run (W : Nat) : List Event → State → Outcome
  | [], s => { state := s, effects := [], fault := false }
  | ev :: evs, s =>
    let o := step W ev s
    if o.fault then o
    else
      let o2 := run W evs o.state
      { state := o2.state, effects := o.effects ++ o2.effects, fault := o2.fault }

/-! ## Reading the effects -/

/-- The effect is a call of `emoncms_send`. -/
def Effect.is_emoncms_send : Effect → Bool
  | Effect.emoncms_send _ _ => true
  | _ => false

/-- The effect is a call of `write_flash`. -/
def Effect.is_write_flash : Effect → Bool
  | Effect.write_flash _ _ _ _ => true
  | _ => false

/-- The effect is the notice "Resetting daily energy counter". -/
def Effect.is_reset_daily : Effect → Bool
  | Effect.syslog (LogMsg.reset_daily _) => true
  | _ => false

/-- Number of calls of `emoncms_send` among the effects. -/
def send_calls (es : List Effect) : Nat := es.countP Effect.is_emoncms_send

/-- Number of calls of `write_flash` among the effects. -/
def write_flash_calls (es : List Effect) : Nat := es.countP Effect.is_write_flash

/-- Number of resets of the daily counter among the effects. -/
def daily_resets (es : List Effect) : Nat := es.countP Effect.is_reset_daily

/-- The reference width the width check of `gpio_handler` uses for a pulse of measured
width `pulse_length` completed in state `s`: the width itself when it is the first pulse
and none is configured, `config.pulse_length` otherwise. -/
def effective_reference (s : State) (pulse_length : Nat) : Nat :=
  if s.first ≠ 0 ∧ s.config.pulse_length = 0 then to_uint pulse_length
  else s.config.pulse_length

/-- The pulse completed by the rising edge `env` in state `s` is rejected by
`gpio_handler`: it fails the width check against the reference in force, or it is not
the first pulse and either ends at most `MIN_PULSE_PERIOD_MS` after the previous one or
has a power that is not below `max_power`. -/
def pulse_rejected (W : Nat) (env : GpioEnv) (s : State) : Bool :=
  !width_valid W
      (effective_reference s (time_diff_ms W env.clock s.pulse_start_ts))
      (pulse_delta W (effective_reference s (time_diff_ms W env.clock s.pulse_start_ts)))
      (time_diff_ms W env.clock s.pulse_start_ts) ||
  (decide (s.first = 0) &&
    (decide (time_diff_ms W env.clock s.prev_ts ≤ MIN_PULSE_PERIOD_MS) ||
     decide (s.config.max_power
       ≤ inst_power s.config.wh_per_pulse (time_diff_ms W env.clock s.prev_ts))))

/-! ## Sequences of counted pulses -/

/-- The pulse completed by the rising edge `env` in state `s` passes the width filter,
the interval filter and the power filter of `gpio_handler`. -/
def passes_filters (W : Nat) (env : GpioEnv) (s : State) : Bool :=
  width_valid W s.config.pulse_length (pulse_delta W s.config.pulse_length)
    (time_diff_ms W env.clock s.pulse_start_ts) &&
  decide (MIN_PULSE_PERIOD_MS < time_diff_ms W env.clock s.prev_ts) &&
  decide (inst_power s.config.wh_per_pulse (time_diff_ms W env.clock s.prev_ts)
    < s.config.max_power)

/-- The events of a sequence of pulses, each given by the environment at its falling
edge and at its rising edge. -/
def pulse_events : List (GpioEnv × GpioEnv) → List Event
  | [] => []
  | p :: ps => Event.edge p.1 :: Event.edge p.2 :: pulse_events ps

/-- Every pulse of the sequence, handled from state `s` on, is a falling edge followed
by a rising edge that passes the three filters. -/
def all_counted (W : Nat) : List (GpioEnv × GpioEnv) → State → Bool
  | [], _ => true
  | p :: ps, s =>
    decide (p.1.pin = LOW) && decide (p.2.pin ≠ LOW) &&
    passes_filters W p.2 (gpio_handler W p.1 s).state &&
    all_counted W ps (gpio_handler W p.2 (gpio_handler W p.1 s).state).state

/-- The handling of the rising edge of pulse `p`, after the pulses `pre` and the falling
edge of `p` have been handled from state `s` on. -/
def rising_outcome (W : Nat) (pre : List (GpioEnv × GpioEnv)) (p : GpioEnv × GpioEnv)
    (s : State) : Outcome :=
  gpio_handler W p.2 (run W (pulse_events pre ++ [Event.edge p.1]) s).state

/-! ## Counter wraparound -/

/-- The edge event `env` handled in state `s` wraps a counter around: a counter is
smaller after the event than before, which an increment of an `unsigned long` brings
about only at its maximum. -/
def edge_wraps (W : Nat) (env : GpioEnv) (s : State) : Bool :=
  decide ((gpio_handler W env s).state.pulse_count_daily < s.pulse_count_daily) ||
  decide ((gpio_handler W env s).state.pulse_count_monthly < s.pulse_count_monthly)

/-- No edge event of the run of `evs` from state `s` wraps a counter around. The run
ends at a tick that faults. -/
def no_wrap (W : Nat) : List Event → State → Bool
  | [], _ => true
  | Event.edge env :: evs, s =>
    !edge_wraps W env s && no_wrap W evs (gpio_handler W env s).state
  | Event.tick env :: evs, s =>
    (timer_handler env s).fault || no_wrap W evs (timer_handler env s).state

/-! ## Runs of timer ticks -/

/-- A tick that re-arms the timer and finds the clock in the midnight minute
(`is_midnight` reads hour 0, minute 0). -/
def midnight_tick (env : TimerEnv) : Bool :=
  decide (0 ≤ env.setitimer_rc) && decide (env.midnight_tm.tm_hour = 0) &&
  decide (env.midnight_tm.tm_min = 0)

/-- An event of a run within the midnight minute: a pulse edge, or a midnight tick. -/
def in_midnight_minute : Event → Bool
  | Event.edge _ => true
  | Event.tick env => midnight_tick env

/-- An event outside the midnight minute: a pulse edge, or a tick for which
`is_midnight` answers 0. -/
def outside_midnight_minute : Event → Bool
  | Event.edge _ => true
  | Event.tick env => decide (is_midnight env.midnight_tm = 0)

/-- A tick that re-arms the timer and finds the clock in minute zero of an hour
(`is_full_hour` reads minute 0). -/
def full_hour_tick (env : TimerEnv) : Bool :=
  decide (0 ≤ env.setitimer_rc) && decide (env.full_hour_tm.tm_min = 0)

/-- An event of a run within minute zero of an hour: a pulse edge, or a full-hour
tick. -/
def in_minute_zero : Event → Bool
  | Event.edge _ => true
  | Event.tick env => full_hour_tick env

/-- An event outside minute zero: a pulse edge, or a tick for which `is_full_hour`
answers 0. -/
def outside_minute_zero : Event → Bool
  | Event.edge _ => true
  | Event.tick env => decide (is_full_hour env.full_hour_tm = 0)

/-! ## C library: `atoi`, `fgets`, decimal output -/

/-- Conversion of a signed value to C `int` (32 bits, two's complement). -/
def to_int (z : Int) : Int := (z + 2 ^ 31) % 2 ^ 32 - 2 ^ 31

/-- Conversion of a signed value to C `unsigned int` (32 bits). -/
def int_to_uint (z : Int) : Nat := (z % (2 ^ 32 : Int)).toNat

/-- C `isspace` in the "C" locale. -/
def is_space (c : Char) : Bool :=
  c = ' ' || c = '\t' || c = '\n' || c = '\x0b' || c = '\x0c' || c = '\r'

/-- The number spelt by the leading decimal digits of a string, continuing from `acc`. -/
def digits_value : List Char → Nat → Nat
  | [], acc => acc
  | c :: cs, acc => if c.isDigit then digits_value cs (acc * 10 + (c.toNat - 48)) else acc

/-- C `strtol (s, NULL, 10)` for a `long` of `W` bits: white space is skipped, an optional
sign is read, then decimal digits as far as they go (0 if there are none); a value
outside the range of `long` is replaced by the nearest bound. -/
def strtol (W : Nat) (s : List Char) : Int :=
  let s1 := s.dropWhile is_space
  if s1.head? = some '-' then
    max (-(2 ^ (W - 1) : Int)) (-(digits_value s1.tail 0 : Int))
  else if s1.head? = some '+' then
    min ((2 ^ (W - 1) : Int) - 1) (digits_value s1.tail 0 : Int)
  else
    min ((2 ^ (W - 1) : Int) - 1) (digits_value s1 0 : Int)

/-- C `atoi`, as the GNU C library computes it: `(int) strtol (s, NULL, 10)`. ISO C
defines the result only when the number read fits an `int`; there it is that number. -/
def atoi (W : Nat) (s : List Char) : Int := to_int (strtol W s)

/-- What `fgets` takes from a stream when its buffer has room for `n` more characters:
characters up to and including the first newline, at most `n`; and the rest of the
stream. -/
def fgets_take : Nat → List Char → List Char × List Char
  | 0, cs => ([], cs)
  | _, [] => ([], [])
  | n + 1, c :: cs =>
    if c = '\n' then ([c], cs)
    else ((c :: (fgets_take n cs).1), (fgets_take n cs).2)

/-- C `fgets (buf, size, f)` on the unread part of a file: `none` (`NULL`) at end of
file, otherwise the buffer and what is left unread. Read errors are not modelled. -/
def fgets (size : Nat) (stream : List Char) : Option (List Char × List Char) :=
  if stream = [] then none else some (fgets_take (size - 1) stream)

/-- The output of `printf` for `%lu` and `%u`: the decimal digits of the value. -/
def fmt_unsigned (n : Nat) : List Char := Nat.toDigits 10 n

/-! ## `emond.c`: configuration callback -/

/-- `config_cb` of `emond.c`: the return code and the configuration it leaves. The
`MATCH` macro compares section and name with `strcmp`; integers are read with `atoi`
and stored in `unsigned int` fields; strings are copied with `strdup`, taken to
succeed. -/
def config_cb (W : Nat) (pconfig : Config) (section_ name value : String) : Int × Config :=
  if section_ = "counter" ∧ name = "pulse_input_pin" then
    (0, { pconfig with pulse_input_pin := int_to_uint (atoi W value.data) })
  else if section_ = "counter" ∧ name = "wh_per_pulse" then
    (0, { pconfig with wh_per_pulse := int_to_uint (atoi W value.data) })
  else if section_ = "counter" ∧ name = "pulse_length" then
    (0, { pconfig with pulse_length := int_to_uint (atoi W value.data) })
  else if section_ = "counter" ∧ name = "max_power" then
    (0, { pconfig with max_power := int_to_uint (atoi W value.data) })
  else if section_ = "storage" ∧ name = "flash_dir" then
    (0, { pconfig with flash_dir := some value })
  else if section_ = "lcd" ∧ name = "lcdproc_port" then
    (0, { pconfig with lcdproc_port := int_to_uint (atoi W value.data) })
  else if section_ = "webapi" ∧ name = "api_base_uri" then
    (0, { pconfig with api_base_uri := some value })
  else if section_ = "webapi" ∧ name = "api_key" then
    (0, { pconfig with api_key := some value })
  else if section_ = "webapi" ∧ name = "api_update_rate" then
    (0, { pconfig with api_update_rate := int_to_uint (atoi W value.data) })
  else if section_ = "webapi" ∧ name = "node_number" then
    (0, { pconfig with node_number := int_to_uint (atoi W value.data) })
  else
    (-1, pconfig)

/-- The ten section/name pairs the specification lists for the configuration file. -/
def spec_config_keys : List (String × String) :=
  [("counter", "pulse_input_pin"), ("counter", "wh_per_pulse"), ("counter", "pulse_length"),
   ("counter", "max_power"), ("storage", "flash_dir"), ("lcd", "lcdproc_port"),
   ("webapi", "api_base_uri"), ("webapi", "api_key"), ("webapi", "api_update_rate"),
   ("webapi", "node_number")]

/-! ## `emond.c`: persistence of the counters -/

/-- Size of the line buffer of `read_flash`: `#define BUFSIZE 16`. -/
def BUFSIZE : Nat := 16

/-- What `fopen (file, "r")` finds: it fails with an `errno`, or opens a file with the
given content. -/
inductive FopenRead where
  | failed (errno : Int)
  | opened (content : List Char)
deriving DecidableEq, Repr

/-- The files the process can see, by name. -/
abbrev FileSys := String → FopenRead

/-- The name `sprintf (file, "%s/%s", path, filename)` builds in `char file[40]`: `none`
when it does not fit the buffer with its terminating zero. -/
def flash_file (path filename : String) : Option String :=
  if (path ++ "/" ++ filename).utf8ByteSize < 40 then some (path ++ "/" ++ filename)
  else none

/-- `read_flash` of `emond.c`: the return code and the state it leaves, `none` when the
file name overruns its buffer. The syslog lines are left out. -/
def read_flash (W : Nat) (fs : FileSys) (path filename : String) (s : State) :
    Option (Int × State) :=
  match flash_file path filename with
  | none => none
  | some file =>
    match fs file with
    | FopenRead.opened content =>
      -- Read daily counter
      match fgets BUFSIZE content with
      | some (buf, rest) =>
        let s1 : State := { s with pulse_count_daily := int_to_ulong W (atoi W buf) }
        -- Read monthly counter
        match fgets BUFSIZE rest with
        | some (buf2, _) =>
          some (0, { s1 with pulse_count_monthly := int_to_ulong W (atoi W buf2) })
        | none => some (-2, s1)
      | none => some (-1, s)
    | FopenRead.failed errno =>
      if errno = 2 then some (0, s) else some (-3, s)

/-- What `write_flash` meets: whether `fopen (file, "w")` succeeds and whether each of
the two `fprintf` calls returns a positive count. -/
structure WriteEnv where
  fopen_ok : Bool
  fprintf_daily_ok : Bool
  fprintf_monthly_ok : Bool
deriving DecidableEq, Repr

/-- `write_flash` of `emond.c`: the return code and the files it leaves, `none` when the
file name overruns its buffer. Opening for writing empties the file; each `fprintf`
that succeeds appends one line `%lu\n`. The syslog lines are left out. -/
def write_flash (env : WriteEnv) (fs : FileSys) (path filename : String) (s : State) :
    Option (Int × FileSys) :=
  match flash_file path filename with
  | none => none
  | some file =>
    if env.fopen_ok then
      if env.fprintf_daily_ok then
        if env.fprintf_monthly_ok then
          some (0, Function.update fs file
            (FopenRead.opened (fmt_unsigned s.pulse_count_daily ++ ['\n'] ++
              fmt_unsigned s.pulse_count_monthly ++ ['\n'])))
        else
          some (-2, Function.update fs file
            (FopenRead.opened (fmt_unsigned s.pulse_count_daily ++ ['\n'])))
      else
        some (-1, Function.update fs file (FopenRead.opened []))
    else
      some (-3, fs)

/-! ## `webapi.c`: the worker thread -/

/-- Default base URI: `#define EMONCMS_API_BASE_URI "http://emoncms.org"`. -/
def EMONCMS_API_BASE_URI : String := "http://emoncms.org"

/-- Path of the input API: `#define EMONCMS_API_INPUT_URI "input/post.json"`. -/
def EMONCMS_API_INPUT_URI : String := "input/post.json"

/-- The response that signals success: `#define EMONCMS_API_RESPONSE_OK "ok"`. -/
def EMONCMS_API_RESPONSE_OK : String := "ok"

/-- Default node number: `#define EMONCMS_NODE_NUMBER 1`. -/
def EMONCMS_NODE_NUMBER : Nat := 1

/-- The output of `printf` for `%d`: a minus sign for a negative value, then the decimal
digits. -/
def fmt_signed (z : Int) : List Char :=
  if z < 0 then '-' :: fmt_unsigned z.natAbs else fmt_unsigned z.toNat

/-- What `snprintf (buf, size, ...)` leaves in `buf` of an output `out`: its first
`size - 1` characters. Strings are taken to be ASCII, one character a byte. -/
def snprintf (size : Nat) (out : List Char) : List Char := out.take (size - 1)

/-- The pieces `power:%u,`, `energy_day:%u,` and `energy_month:%u,` that the worker
appends to `params` for the fields that are not zero, each formatted in `json[64]`. -/
def json_fields (data : EmonData) : List Char :=
  (if data.inst_power ≠ 0 then
    snprintf 64 ("power:".data ++ fmt_unsigned data.inst_power ++ [','])
   else []) ++
  (if data.energy_day ≠ 0 then
    snprintf 64 ("energy_day:".data ++ fmt_unsigned data.energy_day ++ [','])
   else []) ++
  (if data.energy_month ≠ 0 then
    snprintf 64 ("energy_month:".data ++ fmt_unsigned data.energy_month ++ [','])
   else [])

/-- The head of the query string, `snprintf (params, sizeof(params),
"?apikey=%s&node=%d&json=", ...)`. -/
def params_head (api_key : List Char) (node_number : Nat) : List Char :=
  snprintf 128 ("?apikey=".data ++ api_key ++ "&node=".data ++
    fmt_signed (to_int node_number) ++ "&json=".data)

/-- The content of `params` before its last character is deleted: the head, the opening
brace and the pieces of the fields. -/
def params_open (api_key : List Char) (node_number : Nat) (data : EmonData) : List Char :=
  params_head api_key node_number ++ ['\x7b'] ++ json_fields data

/-- The query string the worker builds in `params`: the last character of `params_open`
is deleted (`params[strlen(params)-1] = 0`) and the closing brace appended. -/
def request_params (api_key : List Char) (node_number : Nat) (data : EmonData) : List Char :=
  (params_open api_key node_number data).dropLast ++ ['\x7d']

/-- The head of the URL, `snprintf (urlbuf, sizeof(urlbuf), "%s/%s", ...)`. -/
def url_head (api_base_uri : List Char) : List Char :=
  snprintf 128 (api_base_uri ++ ['/'] ++ EMONCMS_API_INPUT_URI.data)

/-- What the worker meets: the clock at its start, the return code of
`curl_easy_perform`, the C string in `response` when that call returns (empty if the
write callback was never called), and the clock after the request. -/
structure WorkerEnv where
  start : Int
  curl_rc : Int
  response : List Char
  now : Int
deriving DecidableEq, Repr

/-- What a run of the worker leaves: the record behind its argument, the URL handed to
curl when a request was made, the result of the transport call when there was one, the
argument of `sleep` when it was called, `ready_to_send`, and whether the run stopped at
a `strcat` that overruns `params[128]` or `urlbuf[128]`. -/
structure WorkerOutcome where
  data : EmonData
  request : Option (List Char)
  transport : Option (Int × List Char)
  slept : Option Nat
  ready_to_send : Nat
  fault : Bool
deriving DecidableEq, Repr

/-- The end of the worker: wait for what is left of `api_update_rate`, then allow a new
request. `api_update_rate` is an `unsigned int` and the elapsed time a `time_t`: they
are compared as `long` when that is wider than 32 bits and as `unsigned long`
otherwise; the delay goes to `sleep` as an `unsigned int`. -/
def worker_wait (W : Nat) (env : WorkerEnv) (data : EmonData) (request : Option (List Char))
    (transport : Option (Int × List Char)) : WorkerOutcome :=
  let elapsed : Int := env.now - env.start
  let wait : Bool :=
    if 32 < W then decide ((data.api_update_rate : Int) > elapsed)
    else decide (to_ulong W data.api_update_rate > int_to_ulong W elapsed)
  { data := data, request := request, transport := transport,
    slept := if wait then some (int_to_uint ((data.api_update_rate : Int) - elapsed)) else none,
    ready_to_send := 1, fault := false }

/-- The parameter checks of the worker: the default base URI when none is configured,
the default node number when it is 0; both are written into the record. -/
def worker_defaults (data : EmonData) : EmonData :=
  { data with
    api_base_uri := some (data.api_base_uri.getD EMONCMS_API_BASE_URI),
    node_number := if data.node_number = 0 then EMONCMS_NODE_NUMBER else data.node_number }

/-- The URL the worker builds in `urlbuf`: `strcat (urlbuf, params)`. -/
def request_url (api_key : List Char) (data : EmonData) : List Char :=
  url_head (data.api_base_uri.getD EMONCMS_API_BASE_URI).data ++
    request_params api_key data.node_number data

/-- A `strcat` of the worker writes past `params[128]` or `urlbuf[128]`: the string it
builds is longer than 127 characters. -/
def request_overrun (api_key : List Char) (data : EmonData) : Bool :=
  decide (127 < (params_open api_key data.node_number data).length) ||
  decide (127 < (request_url api_key data).length)

/-- The handling of the response: the three payload fields are cleared when
`curl_easy_perform` returned 0 and the response is not empty and equal to
`EMONCMS_API_RESPONSE_OK`. -/
def worker_response (env : WorkerEnv) (data : EmonData) : EmonData :=
  if env.curl_rc = 0 then
    if env.response.length ≠ 0 then
      if env.response = EMONCMS_API_RESPONSE_OK.data then
        { data with inst_power := 0, energy_day := 0, energy_month := 0 }
      else data
    else data
  else data

/-- `emoncms_send_thread` of `webapi.c`, run on the record `data` its argument points
to. The syslog lines are left out. -/
def emoncms_send_thread (W : Nat) (env : WorkerEnv) (data : EmonData) : WorkerOutcome :=
  match data.api_key with
  | none =>
    -- Cannot continue without API key
    worker_wait W env data none none
  | some api_key =>
    if request_overrun api_key.data (worker_defaults data) then
      { data := worker_defaults data, request := none, transport := none, slept := none,
        ready_to_send := 0, fault := true }
    else
      worker_wait W env (worker_response env (worker_defaults data))
        (some (request_url api_key.data (worker_defaults data)))
        (some (env.curl_rc, env.response))

/-- The fields of the JSON object as the specification has them: `name:value` for each
field that is not zero, in the order power, energy_day, energy_month. -/
def spec_fields (data : EmonData) : List (List Char) :=
  (if data.inst_power ≠ 0 then ["power:".data ++ fmt_unsigned data.inst_power] else []) ++
  (if data.energy_day ≠ 0 then ["energy_day:".data ++ fmt_unsigned data.energy_day]
   else []) ++
  (if data.energy_month ≠ 0 then ["energy_month:".data ++ fmt_unsigned data.energy_month]
   else [])

/-- The JSON object as the specification has it: the fields between braces, separated
by single commas, with no trailing comma. -/
def spec_json (data : EmonData) : List Char :=
  ['\x7b'] ++ List.intercalate [','] (spec_fields data) ++ ['\x7d']

/-- The query string as the specification has it, for API key `api_key` and the node
number as `%d` prints it. -/
def spec_query (api_key : List Char) (node_number : Nat) (data : EmonData) : List Char :=
  "?apikey=".data ++ api_key ++ "&node=".data ++ fmt_signed (to_int node_number) ++
    "&json=".data ++ spec_json data

/-! ## `webapi.c`: the dispatcher over time -/

/-- The dispatcher between two events: `ready_to_send`, and the number of worker threads
that were started and have not yet reached their last statement. -/
structure Dispatcher where
  ready_to_send : Nat
  workers : Nat
deriving DecidableEq, Repr

/-- What happens to the dispatcher: `emoncms_send` is called (`pthread_create` would
return the given code), or a running worker reaches its last statement,
`ready_to_send = 1`. -/
inductive DispatchEvent where
  | send (pthread_create_rc : Int)
  | worker_end
deriving DecidableEq, Repr

/-- One event of the dispatcher: the state it leaves and the result of the call, if the
event is one. A call that starts a thread adds a worker; `worker_end` happens only to a
worker that runs, and is skipped when there is none. -/
def dispatch_step (ev : DispatchEvent) (d : Dispatcher) : Dispatcher × List SendResult :=
  match ev with
  | DispatchEvent.send rc =>
    ({ ready_to_send := (emoncms_send rc d.ready_to_send).ready_to_send,
       workers :=
         if (emoncms_send rc d.ready_to_send).thread_started then d.workers + 1
         else d.workers },
     [emoncms_send rc d.ready_to_send])
  | DispatchEvent.worker_end =>
    if d.workers = 0 then (d, [])
    else ({ ready_to_send := 1, workers := d.workers - 1 }, [])

/-- A sequence of dispatcher events: the state at its end and the results of the calls
of `emoncms_send`, in order. -/
def dispatch_run : List DispatchEvent → Dispatcher → Dispatcher × List SendResult
  | [], d => (d, [])
  | ev :: evs, d =>
    ((dispatch_run evs (dispatch_step ev d).1).1,
     (dispatch_step ev d).2 ++ (dispatch_run evs (dispatch_step ev d).1).2)

/-- The dispatcher at process start: `static unsigned int ready_to_send=1`, no worker. -/
def dispatcher_start : Dispatcher := { ready_to_send := 1, workers := 0 }

/-! ## Sample inputs

The scenario of the specification: 1 Wh per pulse, reference width 100 ms, at most
10000 W, and a storage directory. -/

/-- The configuration of the example scenario. -/
def sample_config : Config :=
  { pulse_input_pin := 17, wh_per_pulse := 1, pulse_length := 100, max_power := 10000,
    flash_dir := some "/media/flash", lcdproc_port := 13666, api_base_uri := none,
    api_key := some "0123456789abcdef", api_update_rate := 30, node_number := 1 }

/-- The payload record as `main` fills it in from `sample_config`. -/
def sample_data : EmonData :=
  { inst_power := 0, energy_day := 0, energy_month := 0, api_base_uri := none,
    api_key := some "0123456789abcdef", api_update_rate := 30, node_number := 1 }

/-- The state in which `main` leaves the process when no counters were loaded: static
initialisers, counters at zero. -/
def sample_state : State :=
  { config := sample_config, emon_data := sample_data,
    pulse_count_daily := 0, pulse_count_monthly := 0,
    first := 1, pulse_started := 0, prev_ts := ⟨0, 0⟩, pulse_start_ts := ⟨0, 0⟩,
    reset_done := 0, save_done := 0, ready_to_send := 1 }

/-- A falling edge (pin reads `LOW`) at the given time. -/
def falling (sec nsec : Int) : GpioEnv :=
  { pin := 0, clock := ⟨sec, nsec⟩, pthread_create_rc := 0 }

/-- A rising edge (pin reads `HIGH`) at the given time. -/
def rising (sec nsec : Int) : GpioEnv :=
  { pin := 1, clock := ⟨sec, nsec⟩, pthread_create_rc := 0 }

/-- A state in the middle of a pulse that started at 10 s, with reference width `ref`,
after an earlier pulse that ended at `prev_ts`. -/
def mid_pulse_state (ref : Nat) (first : Int) (prev_ts : Timespec) : State :=
  { sample_state with
    config := { sample_config with pulse_length := ref }
    first := first, pulse_started := 1, pulse_start_ts := ⟨10, 0⟩, prev_ts := prev_ts }

/-- The process right after start-up with no reference width configured
(`pulse_length = 0`): the first pulse is to provide it. -/
def autolearn_state : State :=
  { sample_state with config := { sample_config with pulse_length := 0 } }

/-- A state between pulses, seven pulses into the day, the last one ended at 9.1 s. -/
def counted_state : State :=
  { sample_state with
    first := 0, prev_ts := ⟨9, 100000000⟩,
    pulse_count_daily := 7, pulse_count_monthly := 40 }

/-- Two pulses of 100 ms, ending at 10.1 s and at 11.1 s. -/
def two_pulses : List (GpioEnv × GpioEnv) :=
  [(falling 10 0, rising 10 100000000), (falling 11 0, rising 11 100000000)]

/-- A tick whose re-arm succeeds, at the given local time and day of the month, read
alike by the three clock predicates. -/
def tick_at (hour min mday : Int) : TimerEnv :=
  { setitimer_rc := 0,
    midnight_tm := ⟨hour, min, mday⟩,
    first_dom_tm := ⟨hour, min, mday⟩,
    full_hour_tm := ⟨hour, min, mday⟩ }

/-- What follows the first tick of a midnight minute: a pulse of 100 ms and a second
tick of the same minute. -/
def midnight_rest : List Event :=
  [Event.edge (falling 10 0), Event.edge (rising 10 100000000),
   Event.tick (tick_at 0 0 15)]

/-- A configuration whose storage directory is the empty string. -/
def empty_dir_state : State :=
  { sample_state with config := { sample_config with flash_dir := some "" } }

/-- What follows the first tick of minute zero of 01:00: a pulse of 100 ms and a second
tick of the same minute. -/
def full_hour_rest : List Event :=
  [Event.edge (falling 10 0), Event.edge (rising 10 100000000),
   Event.tick (tick_at 1 0 15)]

/-- Every call `write_flash` makes succeeds. -/
def write_ok : WriteEnv :=
  { fopen_ok := true, fprintf_daily_ok := true, fprintf_monthly_ok := true }

/-- No file exists yet: every `fopen` for reading fails with `ENOENT` (2). -/
def no_files : FileSys := fun _ => FopenRead.failed 2

/-- A state whose daily counter is `2 ^ 31`. -/
def big_count_state : State :=
  { sample_state with pulse_count_daily := 2147483648 }

/-- A counters file with two lines that are not numbers. -/
def garbled_files : FileSys :=
  fun _ => FopenRead.opened ['a', 'b', 'c', '\n', 'd', 'e', 'f', '\n']

/-- A worker run whose request takes 3 s and is answered with `ok`. -/
def worker_ok : WorkerEnv :=
  { start := 1000, curl_rc := 0, response := ['o', 'k'], now := 1003 }

/-- The payload of the second pulse of a day and fifth of a month, at 3600 W. -/
def pulse_data : EmonData :=
  { sample_data with inst_power := 3600, energy_day := 2, energy_month := 5 }

/-- The process as `main` leaves it when the configuration file names no storage
directory: `config.flash_dir` is still the null pointer of the `memset`. -/
def no_dir_state : State :=
  { sample_state with config := { sample_config with flash_dir := none } }

/-- A counters file of one line, the number 42 written with fifteen digits. -/
def long_line_files : FileSys :=
  fun _ => FopenRead.opened "000000000000042\n".data

/-- A counters file of one line, `7`. -/
def one_line_files : FileSys :=
  fun _ => FopenRead.opened ['7', '\n']

/-- A `write_flash` whose second `fprintf` fails. -/
def write_daily_only : WriteEnv :=
  { fopen_ok := true, fprintf_daily_ok := true, fprintf_monthly_ok := false }

/-- A state whose daily counter is `10 ^ 14`, a number of fifteen digits. -/
def huge_count_state : State :=
  { counted_state with pulse_count_daily := 100000000000000 }

/-- The payload of a pulse at 3600 W, with 2000 Wh that day and 50000 Wh that month,
for an API key of 32 characters and the default base URI. -/
def long_key_data : EmonData :=
  { sample_data with
    api_key := some "0123456789abcdef0123456789abcdef",
    inst_power := 3600, energy_day := 2000, energy_month := 50000 }

/-- The longest request: an API key of 32 characters, a node number that `%d` prints
with a sign and ten digits, and three fields of ten digits. -/
def longest_data : EmonData :=
  { sample_data with
    api_key := some "0123456789abcdef0123456789abcdef",
    node_number := 2147483648,
    inst_power := 4294967295, energy_day := 4294967295, energy_month := 4294967295 }

/-! # Theorems -/

/-! ## Machine integers and the shape of the pulse handler -/

theorem two_pow_32_le_two_pow {W : Nat} (hW : 32 ≤ W) : 2 ^ 32 ≤ 2 ^ W :=
  Nat.pow_le_pow_right (by decide) hW

theorem to_uint_of_lt {n : Nat} (h : n < 2 ^ 32) : to_uint n = n :=
  Nat.mod_eq_of_lt h

theorem to_ulong_of_lt {W n : Nat} (h : n < 2 ^ W) : to_ulong W n = n :=
  Nat.mod_eq_of_lt h

theorem ulong_add_of_lt {W a b : Nat} (h : a + b < 2 ^ W) : ulong_add W a b = a + b :=
  Nat.mod_eq_of_lt h

theorem ulong_sub_of_le {W a b : Nat} (hb : b ≤ a) (ha : a < 2 ^ W) :
    ulong_sub W a b = a - b := by
  unfold ulong_sub
  have hb2 : b < 2 ^ W := lt_of_le_of_lt hb ha
  rw [Nat.mod_eq_of_lt ha, Nat.mod_eq_of_lt hb2]
  have h1 : a + (2 ^ W - b) = (a - b) + 2 ^ W := by omega
  rw [h1, Nat.add_mod_right]
  exact Nat.mod_eq_of_lt (by omega)

theorem ulong_add_lt (W a b : Nat) : ulong_add W a b < 2 ^ W :=
  Nat.mod_lt _ (Nat.pos_pow_of_pos W (by decide))

theorem time_diff_ms_lt (W : Nat) (now_ts prev_ts : Timespec) :
    time_diff_ms W now_ts prev_ts < 2 ^ W := by
  unfold time_diff_ms
  split <;> exact ulong_add_lt _ _ _

theorem pulse_delta_eq {W L : Nat} (hW : 32 ≤ W) (h5 : L * 5 < 2 ^ 32) :
    pulse_delta W L = L * 5 / 100 := by
  unfold pulse_delta PULSE_TOLERANCE
  rw [to_uint_of_lt h5]
  apply to_ulong_of_lt
  have := two_pow_32_le_two_pow hW
  have : L * 5 / 100 ≤ L * 5 := Nat.div_le_self _ _
  omega

theorem width_valid_iff_window {W L w : Nat} (hW : 32 ≤ W) (h5 : L * 5 < 2 ^ 32) :
    width_valid W L (pulse_delta W L) w = true ↔
      L - L * 5 / 100 < w ∧ w < L + L * 5 / 100 := by
  have hM := two_pow_32_le_two_pow hW
  rw [pulse_delta_eq hW h5]
  have hd : L * 5 / 100 ≤ L := by omega
  have hL : L < 2 ^ W := by omega
  unfold width_valid
  rw [ulong_sub_of_le hd hL, ulong_add_of_lt (by omega)]
  simp

theorem gpio_handler_rising_nonfirst (W : Nat) (env : GpioEnv) (s : State)
    (hpin : env.pin ≠ LOW) (hstarted : s.pulse_started = 1) (hfirst : s.first = 0) :
    gpio_handler W env s =
      if width_valid W s.config.pulse_length (pulse_delta W s.config.pulse_length)
          (time_diff_ms W env.clock s.pulse_start_ts) then
        if time_diff_ms W env.clock s.prev_ts > MIN_PULSE_PERIOD_MS then
          if inst_power s.config.wh_per_pulse (time_diff_ms W env.clock s.prev_ts)
              < s.config.max_power then
            { state :=
                { s with
                  pulse_started := 0
                  pulse_count_daily := ulong_add W s.pulse_count_daily 1
                  pulse_count_monthly := ulong_add W s.pulse_count_monthly 1
                  emon_data :=
                    { s.emon_data with
                      inst_power := inst_power s.config.wh_per_pulse
                        (time_diff_ms W env.clock s.prev_ts)
                      energy_day := energy W (ulong_add W s.pulse_count_daily 1)
                        s.config.wh_per_pulse
                      energy_month := energy W (ulong_add W s.pulse_count_monthly 1)
                        s.config.wh_per_pulse }
                  ready_to_send :=
                    (emoncms_send env.pthread_create_rc s.ready_to_send).ready_to_send
                  prev_ts := env.clock },
              effects :=
                [Effect.lcd_print 1 (inst_power s.config.wh_per_pulse
                   (time_diff_ms W env.clock s.prev_ts)),
                 Effect.lcd_print 2 (energy W (ulong_add W s.pulse_count_daily 1)
                   s.config.wh_per_pulse),
                 Effect.lcd_print 3 (energy W (ulong_add W s.pulse_count_monthly 1)
                   s.config.wh_per_pulse),
                 Effect.emoncms_send
                   { s.emon_data with
                     inst_power := inst_power s.config.wh_per_pulse
                       (time_diff_ms W env.clock s.prev_ts)
                     energy_day := energy W (ulong_add W s.pulse_count_daily 1)
                       s.config.wh_per_pulse
                     energy_month := energy W (ulong_add W s.pulse_count_monthly 1)
                       s.config.wh_per_pulse }
                   (emoncms_send env.pthread_create_rc s.ready_to_send).rc],
              fault := false }
          else
            { state := { s with pulse_started := 0, prev_ts := env.clock },
              effects := [Effect.syslog (LogMsg.power_out_of_range
                (inst_power s.config.wh_per_pulse (time_diff_ms W env.clock s.prev_ts)))],
              fault := false }
        else
          { state := { s with pulse_started := 0, prev_ts := env.clock },
            effects := [], fault := false }
      else
        { state := { s with pulse_started := 0 },
          effects := [Effect.syslog (LogMsg.invalid_pulse
            (time_diff_ms W env.clock s.pulse_start_ts))],
          fault := false } := by
  simp only [gpio_handler, hpin, hstarted, hfirst]
  simp

/-! ## Pulse validation -/

/-- C1 (amended): for a configured reference width `L` of at least 20 ms (with `5 * L`
below `2 ^ 32`) and the tolerance `T = PULSE_TOLERANCE = 5`, a completed pulse of
measured width `w` passes the width check of `gpio_handler` (no "invalid pulse" line is
logged) if and only if `L - L * T / 100 < w < L + L * T / 100`, the tolerance
`L * T / 100` being truncated to whole milliseconds; when `L` is a multiple of 20 this
is the window `L * (1 - T/100) < w < L * (1 + T/100)` over the rationals; and a pulse
of width exactly `L` passes. -/
theorem gpio_handler_width_window (W : Nat) (env : GpioEnv) (s : State)
    (hW : 32 ≤ W) (hpin : env.pin ≠ LOW) (hstarted : s.pulse_started = 1)
    (hL : 20 ≤ s.config.pulse_length) (h5 : s.config.pulse_length * 5 < 2 ^ 32) :
    ((Effect.syslog (LogMsg.invalid_pulse (time_diff_ms W env.clock s.pulse_start_ts))
          ∉ (gpio_handler W env s).effects) ↔
        (s.config.pulse_length - s.config.pulse_length * PULSE_TOLERANCE / 100
            < time_diff_ms W env.clock s.pulse_start_ts ∧
          time_diff_ms W env.clock s.pulse_start_ts
            < s.config.pulse_length + s.config.pulse_length * PULSE_TOLERANCE / 100)) ∧
    (20 ∣ s.config.pulse_length →
      ((Effect.syslog (LogMsg.invalid_pulse (time_diff_ms W env.clock s.pulse_start_ts))
          ∉ (gpio_handler W env s).effects) ↔
        ((s.config.pulse_length : ℚ) * (1 - (PULSE_TOLERANCE : ℚ) / 100)
            < (time_diff_ms W env.clock s.pulse_start_ts : ℚ) ∧
          (time_diff_ms W env.clock s.pulse_start_ts : ℚ)
            < (s.config.pulse_length : ℚ) * (1 + (PULSE_TOLERANCE : ℚ) / 100)))) ∧
    (time_diff_ms W env.clock s.pulse_start_ts = s.config.pulse_length →
      Effect.syslog (LogMsg.invalid_pulse (time_diff_ms W env.clock s.pulse_start_ts))
        ∉ (gpio_handler W env s).effects) := by
  have hne : s.config.pulse_length ≠ 0 := by omega
  have key : (Effect.syslog (LogMsg.invalid_pulse
        (time_diff_ms W env.clock s.pulse_start_ts)) ∉ (gpio_handler W env s).effects) ↔
      width_valid W s.config.pulse_length (pulse_delta W s.config.pulse_length)
        (time_diff_ms W env.clock s.pulse_start_ts) = true := by
    simp only [gpio_handler, hpin, hstarted, hne]
    by_cases hv : width_valid W s.config.pulse_length (pulse_delta W s.config.pulse_length)
        (time_diff_ms W env.clock s.pulse_start_ts) = true
    · simp [hv]
      split_ifs <;> simp
    · simp [hv]
  have win := width_valid_iff_window (W := W) (w := time_diff_ms W env.clock s.pulse_start_ts)
    hW h5
  simp only [PULSE_TOLERANCE]
  refine ⟨key.trans win, ?_, ?_⟩
  · rintro ⟨k, hk⟩
    rw [key, win, hk]
    have e1 : 20 * k * 5 / 100 = k := by omega
    have e2 : 20 * k - k = 19 * k := by omega
    have e3 : 20 * k + k = 21 * k := by omega
    rw [e1, e2, e3]
    have q1 : ((20 * k : ℕ) : ℚ) * (1 - ((5 : ℕ) : ℚ) / 100) = ((19 * k : ℕ) : ℚ) := by
      push_cast; ring
    have q2 : ((20 * k : ℕ) : ℚ) * (1 + ((5 : ℕ) : ℚ) / 100) = ((21 * k : ℕ) : ℚ) := by
      push_cast; ring
    rw [q1, q2, Nat.cast_lt, Nat.cast_lt]
  · intro hw
    rw [key, win, hw]
    omega

/-- Witness of C1 at the example scenario: reference 100 ms, a pulse of 100 ms. -/
theorem gpio_handler_width_window_witness :
    (32 ≤ 64 ∧ (rising 10 100000000).pin ≠ LOW ∧
      (mid_pulse_state 100 1 ⟨0, 0⟩).pulse_started = 1 ∧
      20 ≤ (mid_pulse_state 100 1 ⟨0, 0⟩).config.pulse_length ∧
      (mid_pulse_state 100 1 ⟨0, 0⟩).config.pulse_length * 5 < 2 ^ 32) ∧
    Effect.syslog (LogMsg.invalid_pulse 100)
      ∉ (gpio_handler 64 (rising 10 100000000) (mid_pulse_state 100 1 ⟨0, 0⟩)).effects :=
  ⟨by decide,
   (gpio_handler_width_window 64 (rising 10 100000000) (mid_pulse_state 100 1 ⟨0, 0⟩)
      (by decide) (by decide) (by decide) (by decide) (by decide)).2.2 (by decide)⟩

/-- C1 (counterexample): with reference width 30 ms a pulse of measured width 29 ms lies
inside the rational window `30 * (1 - 5/100) < 29 < 30 * (1 + 5/100)`, and
`gpio_handler` rejects it as invalid. -/
theorem width_window_not_rational :
    (mid_pulse_state 30 0 ⟨5, 0⟩).config.pulse_length = 30 ∧
    time_diff_ms 64 (rising 10 29000000).clock (mid_pulse_state 30 0 ⟨5, 0⟩).pulse_start_ts
      = 29 ∧
    ((30 : ℚ) * (1 - (PULSE_TOLERANCE : ℚ) / 100) < 29 ∧
      (29 : ℚ) < 30 * (1 + (PULSE_TOLERANCE : ℚ) / 100)) ∧
    gpio_handler 64 (rising 10 29000000) (mid_pulse_state 30 0 ⟨5, 0⟩) =
      { state := { mid_pulse_state 30 0 ⟨5, 0⟩ with pulse_started := 0 },
        effects := [Effect.syslog (LogMsg.invalid_pulse 29)],
        fault := false } := by
  refine ⟨by decide, by decide, ?_, by decide⟩
  simp only [PULSE_TOLERANCE]
  norm_num

/-- C2 (code bug): with no reference width configured, a first pulse of 10 ms is taken
as reference and then rejected by the width check: no counter is incremented and
`first` stays set. The window of a reference width below 20 ms is empty, so no later
pulse is accepted either. A first pulse of at least 20 ms (with `5 * w` below `2 ^ 32`)
is accepted as the claim says: its width becomes the reference, both counters are
incremented and `first` is cleared. -/
theorem first_pulse_short_rejected :
    run 64 [Event.edge (falling 10 0), Event.edge (rising 10 10000000)] autolearn_state =
      { state :=
          { autolearn_state with
            config := { autolearn_state.config with pulse_length := 10 }
            pulse_start_ts := ⟨10, 0⟩ },
        effects := [Effect.syslog (LogMsg.using_reference 10),
                    Effect.syslog (LogMsg.invalid_pulse 10)],
        fault := false } ∧
    (∀ W L w : Nat, L < 20 → width_valid W L (pulse_delta W L) w = false) ∧
    (∀ (W : Nat) (env : GpioEnv) (s : State), 32 ≤ W → env.pin ≠ LOW →
      s.pulse_started = 1 → s.first ≠ 0 → s.config.pulse_length = 0 →
      20 ≤ time_diff_ms W env.clock s.pulse_start_ts →
      time_diff_ms W env.clock s.pulse_start_ts * 5 < 2 ^ 32 →
      (gpio_handler W env s).state.config.pulse_length
        = time_diff_ms W env.clock s.pulse_start_ts ∧
      (gpio_handler W env s).state.first = 0 ∧
      (gpio_handler W env s).state.pulse_count_daily
        = (s.pulse_count_daily + 1) % 2 ^ W ∧
      (gpio_handler W env s).state.pulse_count_monthly
        = (s.pulse_count_monthly + 1) % 2 ^ W) := by
  refine ⟨by decide, ?_, ?_⟩
  · intro W L w hL
    have h1 : pulse_delta W L = 0 := by
      unfold pulse_delta PULSE_TOLERANCE
      rw [to_uint_of_lt (by omega)]
      have : L * 5 / 100 = 0 := by omega
      rw [this]
      simp [to_ulong]
    rw [h1]
    unfold width_valid ulong_sub ulong_add
    have hM : 0 < 2 ^ W := Nat.pos_pow_of_pos W (by decide)
    simp only [Nat.zero_mod, Nat.sub_zero, Nat.add_mod_right, Nat.mod_mod, Nat.add_zero]
    simp
    omega
  · intro W env s hW hpin hstarted hfirst hzero h20 h5
    have hu : to_uint (time_diff_ms W env.clock s.pulse_start_ts)
        = time_diff_ms W env.clock s.pulse_start_ts := to_uint_of_lt (by omega)
    have hv : width_valid W (time_diff_ms W env.clock s.pulse_start_ts)
        (pulse_delta W (time_diff_ms W env.clock s.pulse_start_ts))
        (time_diff_ms W env.clock s.pulse_start_ts) = true := by
      rw [width_valid_iff_window hW h5]
      omega
    simp only [gpio_handler, hpin, hstarted, hfirst, hzero, hu]
    simp [hv, hfirst, ulong_add]

/-- C3: a width-valid pulse that is not the first one (`first = 0`) and whose end lies
at most `MIN_PULSE_PERIOD_MS = 200` ms after the stored previous-pulse timestamp leaves
both counters unchanged and does not call `emoncms_send`; the handler only ends the
pulse and moves the previous-pulse timestamp. -/
theorem glitch_pulse_not_counted (W : Nat) (env : GpioEnv) (s : State)
    (hpin : env.pin ≠ LOW) (hstarted : s.pulse_started = 1) (hfirst : s.first = 0)
    (hvalid : width_valid W s.config.pulse_length (pulse_delta W s.config.pulse_length)
      (time_diff_ms W env.clock s.pulse_start_ts) = true)
    (hdt : time_diff_ms W env.clock s.prev_ts ≤ MIN_PULSE_PERIOD_MS) :
    (gpio_handler W env s).state.pulse_count_daily = s.pulse_count_daily ∧
    (gpio_handler W env s).state.pulse_count_monthly = s.pulse_count_monthly ∧
    (∀ data rc, Effect.emoncms_send data rc ∉ (gpio_handler W env s).effects) ∧
    gpio_handler W env s =
      { state := { s with pulse_started := 0, prev_ts := env.clock },
        effects := [], fault := false } := by
  have hdt2 : ¬ time_diff_ms W env.clock s.prev_ts > MIN_PULSE_PERIOD_MS := by omega
  rw [gpio_handler_rising_nonfirst W env s hpin hstarted hfirst]
  simp [hvalid, hdt2]

/-- Witness of C3: reference 100 ms, a pulse of 100 ms ending 100 ms after the previous
one. -/
theorem glitch_pulse_not_counted_witness :
    time_diff_ms 64 (rising 10 100000000).clock (mid_pulse_state 100 0 ⟨10, 0⟩).prev_ts
      = 100 ∧
    (gpio_handler 64 (rising 10 100000000) (mid_pulse_state 100 0 ⟨10, 0⟩)).state.pulse_count_daily
      = (mid_pulse_state 100 0 ⟨10, 0⟩).pulse_count_daily :=
  ⟨by decide,
   (glitch_pulse_not_counted 64 (rising 10 100000000) (mid_pulse_state 100 0 ⟨10, 0⟩)
      (by decide) (by decide) (by decide) (by decide) (by decide)).1⟩

/-! ## Power computation and the power filter -/

/-- The power computed by the handler is the floor of the rational quotient, reduced to
`unsigned int`. -/
theorem inst_power_eq_floor (wh t_diff : Nat) :
    inst_power wh t_diff = to_uint ⌊((wh * 3600000 : ℕ) : ℚ) / (t_diff : ℚ)⌋₊ := by
  rw [Nat.floor_div_eq_div]
  rfl

/-- C4: for a non-first width-valid pulse with `t_diff > 200` ms the power computed by
`gpio_handler` is `floor (wh_per_pulse * 3600000 / t_diff)` as an `unsigned int`: the
floor itself whenever it is below `2 ^ 32`, the range in which the cast is defined.
When the pulse is counted this value is shown on line 1 of the display, stored in
`emon_data.inst_power` and handed to `emoncms_send`; when it is not below `max_power`
it is the value of the warning. With `wh_per_pulse = 1` and `t_diff = 1000` it is
3600. -/
theorem counted_pulse_power (W : Nat) (env : GpioEnv) (s : State)
    (hpin : env.pin ≠ LOW) (hstarted : s.pulse_started = 1) (hfirst : s.first = 0)
    (hvalid : width_valid W s.config.pulse_length (pulse_delta W s.config.pulse_length)
      (time_diff_ms W env.clock s.pulse_start_ts) = true)
    (hdt : MIN_PULSE_PERIOD_MS < time_diff_ms W env.clock s.prev_ts) :
    inst_power s.config.wh_per_pulse (time_diff_ms W env.clock s.prev_ts) =
      to_uint ⌊((s.config.wh_per_pulse * 3600000 : ℕ) : ℚ)
        / (time_diff_ms W env.clock s.prev_ts : ℚ)⌋₊ ∧
    (⌊((s.config.wh_per_pulse * 3600000 : ℕ) : ℚ)
          / (time_diff_ms W env.clock s.prev_ts : ℚ)⌋₊ < 2 ^ 32 →
      inst_power s.config.wh_per_pulse (time_diff_ms W env.clock s.prev_ts) =
        ⌊((s.config.wh_per_pulse * 3600000 : ℕ) : ℚ)
          / (time_diff_ms W env.clock s.prev_ts : ℚ)⌋₊) ∧
    (inst_power s.config.wh_per_pulse (time_diff_ms W env.clock s.prev_ts)
        < s.config.max_power →
      Effect.lcd_print 1 (inst_power s.config.wh_per_pulse
          (time_diff_ms W env.clock s.prev_ts)) ∈ (gpio_handler W env s).effects ∧
      (gpio_handler W env s).state.emon_data.inst_power =
        inst_power s.config.wh_per_pulse (time_diff_ms W env.clock s.prev_ts) ∧
      Effect.emoncms_send (gpio_handler W env s).state.emon_data
          (emoncms_send env.pthread_create_rc s.ready_to_send).rc
        ∈ (gpio_handler W env s).effects) ∧
    (¬ inst_power s.config.wh_per_pulse (time_diff_ms W env.clock s.prev_ts)
        < s.config.max_power →
      (gpio_handler W env s).effects =
        [Effect.syslog (LogMsg.power_out_of_range
          (inst_power s.config.wh_per_pulse (time_diff_ms W env.clock s.prev_ts)))]) ∧
    inst_power 1 1000 = 3600 := by
  rw [gpio_handler_rising_nonfirst W env s hpin hstarted hfirst]
  refine ⟨inst_power_eq_floor _ _,
    fun h => (inst_power_eq_floor _ _).trans (to_uint_of_lt h), ?_, ?_, by decide⟩
  · intro hp
    simp [hvalid, hdt, hp]
  · intro hp
    simp [hvalid, hdt, hp]

/-- Witness of C4: the example scenario, a pulse ending 1000 ms after the previous
one. -/
theorem counted_pulse_power_witness :
    MIN_PULSE_PERIOD_MS
      < time_diff_ms 64 (rising 10 100000000).clock
          (mid_pulse_state 100 0 ⟨9, 100000000⟩).prev_ts ∧
    (gpio_handler 64 (rising 10 100000000)
      (mid_pulse_state 100 0 ⟨9, 100000000⟩)).state.emon_data.inst_power = 3600 :=
  ⟨by decide,
   (((counted_pulse_power 64 (rising 10 100000000)
      (mid_pulse_state 100 0 ⟨9, 100000000⟩)
      (by decide) (by decide) (by decide) (by decide) (by decide)).2.2.1
        (by decide)).2.1).trans (by decide)⟩

/-- C5: for a non-first width-valid pulse with `t_diff > 200` ms: when the computed
power is at least `max_power`, both counters are unchanged and `emoncms_send` is not
called; when it is below `max_power`, both counters are incremented by 1 (the C
increment of an `unsigned long`, which is `+ 1` short of the wrap) and `emoncms_send`
is called exactly once. -/
theorem power_filter (W : Nat) (env : GpioEnv) (s : State)
    (hpin : env.pin ≠ LOW) (hstarted : s.pulse_started = 1) (hfirst : s.first = 0)
    (hvalid : width_valid W s.config.pulse_length (pulse_delta W s.config.pulse_length)
      (time_diff_ms W env.clock s.pulse_start_ts) = true)
    (hdt : MIN_PULSE_PERIOD_MS < time_diff_ms W env.clock s.prev_ts) :
    (s.config.max_power
        ≤ inst_power s.config.wh_per_pulse (time_diff_ms W env.clock s.prev_ts) →
      (gpio_handler W env s).state.pulse_count_daily = s.pulse_count_daily ∧
      (gpio_handler W env s).state.pulse_count_monthly = s.pulse_count_monthly ∧
      send_calls (gpio_handler W env s).effects = 0) ∧
    (inst_power s.config.wh_per_pulse (time_diff_ms W env.clock s.prev_ts)
        < s.config.max_power →
      (gpio_handler W env s).state.pulse_count_daily
        = (s.pulse_count_daily + 1) % 2 ^ W ∧
      (gpio_handler W env s).state.pulse_count_monthly
        = (s.pulse_count_monthly + 1) % 2 ^ W ∧
      (s.pulse_count_daily + 1 < 2 ^ W →
        (gpio_handler W env s).state.pulse_count_daily = s.pulse_count_daily + 1) ∧
      (s.pulse_count_monthly + 1 < 2 ^ W →
        (gpio_handler W env s).state.pulse_count_monthly = s.pulse_count_monthly + 1) ∧
      send_calls (gpio_handler W env s).effects = 1) := by
  rw [gpio_handler_rising_nonfirst W env s hpin hstarted hfirst]
  constructor
  · intro hp
    have hp2 : ¬ inst_power s.config.wh_per_pulse (time_diff_ms W env.clock s.prev_ts)
        < s.config.max_power := by omega
    simp [hvalid, hdt, hp2, send_calls, Effect.is_emoncms_send]
  · intro hp
    simp only [hvalid, hdt, hp, if_true, gt_iff_lt]
    refine ⟨rfl, rfl, fun h => Nat.mod_eq_of_lt h, fun h => Nat.mod_eq_of_lt h, ?_⟩
    simp [send_calls, Effect.is_emoncms_send]

/-- Witness of C5: the example scenario, a pulse ending 1000 ms after the previous one
is counted. -/
theorem power_filter_witness :
    inst_power (mid_pulse_state 100 0 ⟨9, 100000000⟩).config.wh_per_pulse
        (time_diff_ms 64 (rising 10 100000000).clock
          (mid_pulse_state 100 0 ⟨9, 100000000⟩).prev_ts)
      < (mid_pulse_state 100 0 ⟨9, 100000000⟩).config.max_power ∧
    send_calls (gpio_handler 64 (rising 10 100000000)
      (mid_pulse_state 100 0 ⟨9, 100000000⟩)).effects = 1 :=
  ⟨by decide,
   ((power_filter 64 (rising 10 100000000) (mid_pulse_state 100 0 ⟨9, 100000000⟩)
      (by decide) (by decide) (by decide) (by decide) (by decide)).2 (by decide)).2.2.2.2⟩

/-! ## Sequences of events -/

theorem gpio_handler_fault (W : Nat) (env : GpioEnv) (s : State) :
    (gpio_handler W env s).fault = false := by
  simp only [gpio_handler]
  split_ifs <;> rfl

theorem run_edge_cons (W : Nat) (env : GpioEnv) (evs : List Event) (s : State) :
    run W (Event.edge env :: evs) s =
      { state := (run W evs (gpio_handler W env s).state).state,
        effects := (gpio_handler W env s).effects
          ++ (run W evs (gpio_handler W env s).state).effects,
        fault := (run W evs (gpio_handler W env s).state).fault } := by
  simp [run, step, gpio_handler_fault]

theorem run_edges_append_state (W : Nat) (ps : List (GpioEnv × GpioEnv)) (evs : List Event)
    (s : State) :
    (run W (pulse_events ps ++ evs) s).state
      = (run W evs (run W (pulse_events ps) s).state).state := by
  induction ps generalizing s with
  | nil => simp [pulse_events, run]
  | cons p ps ih =>
    simp only [pulse_events, List.cons_append, run_edge_cons]
    exact ih _

/-- One counted pulse: what the falling edge and the rising edge leave behind. -/
theorem counted_pulse_step (W : Nat) (p : GpioEnv × GpioEnv) (s : State)
    (hfirst : s.first = 0) (hidle : s.pulse_started = 0)
    (hfall : p.1.pin = LOW) (hrise : p.2.pin ≠ LOW)
    (hpass : passes_filters W p.2 (gpio_handler W p.1 s).state = true) :
    (gpio_handler W p.2 (gpio_handler W p.1 s).state).state.first = 0 ∧
    (gpio_handler W p.2 (gpio_handler W p.1 s).state).state.pulse_started = 0 ∧
    (gpio_handler W p.2 (gpio_handler W p.1 s).state).state.config = s.config ∧
    (gpio_handler W p.2 (gpio_handler W p.1 s).state).state.pulse_count_daily
      = (s.pulse_count_daily + 1) % 2 ^ W ∧
    (gpio_handler W p.2 (gpio_handler W p.1 s).state).state.pulse_count_monthly
      = (s.pulse_count_monthly + 1) % 2 ^ W ∧
    (gpio_handler W p.2 (gpio_handler W p.1 s).state).state.emon_data.energy_day
      = energy W ((s.pulse_count_daily + 1) % 2 ^ W) s.config.wh_per_pulse ∧
    (gpio_handler W p.2 (gpio_handler W p.1 s).state).state.emon_data.energy_month
      = energy W ((s.pulse_count_monthly + 1) % 2 ^ W) s.config.wh_per_pulse ∧
    Effect.lcd_print 2 (energy W ((s.pulse_count_daily + 1) % 2 ^ W) s.config.wh_per_pulse)
      ∈ (gpio_handler W p.2 (gpio_handler W p.1 s).state).effects ∧
    Effect.lcd_print 3 (energy W ((s.pulse_count_monthly + 1) % 2 ^ W) s.config.wh_per_pulse)
      ∈ (gpio_handler W p.2 (gpio_handler W p.1 s).state).effects := by
  have hf : (gpio_handler W p.1 s).state =
      { s with pulse_started := 1, pulse_start_ts := p.1.clock } := by
    simp [gpio_handler, hfall, hidle]
  rw [hf] at hpass ⊢
  simp only [passes_filters, Bool.and_eq_true, decide_eq_true_eq] at hpass
  obtain ⟨⟨hv, hdt⟩, hp⟩ := hpass
  rw [gpio_handler_rising_nonfirst W p.2
    { s with pulse_started := 1, pulse_start_ts := p.1.clock } hrise rfl hfirst]
  simp only [hv, hdt, hp, if_true, gt_iff_lt]
  simp [hfirst, ulong_add]

/-! ## Accounting over counted pulses -/

/-- Invariants along a sequence of counted pulses. -/
theorem counted_prefix (W : Nat) (pre rest : List (GpioEnv × GpioEnv)) (s : State)
    (hfirst : s.first = 0) (hidle : s.pulse_started = 0)
    (hd : s.pulse_count_daily < 2 ^ W) (hm : s.pulse_count_monthly < 2 ^ W)
    (hall : all_counted W (pre ++ rest) s = true) :
    (run W (pulse_events pre) s).state.first = 0 ∧
    (run W (pulse_events pre) s).state.pulse_started = 0 ∧
    (run W (pulse_events pre) s).state.config = s.config ∧
    (run W (pulse_events pre) s).state.pulse_count_daily
      = (s.pulse_count_daily + pre.length) % 2 ^ W ∧
    (run W (pulse_events pre) s).state.pulse_count_monthly
      = (s.pulse_count_monthly + pre.length) % 2 ^ W ∧
    all_counted W rest (run W (pulse_events pre) s).state = true := by
  have hM : 0 < 2 ^ W := Nat.pos_pow_of_pos W (by decide)
  induction pre generalizing s with
  | nil =>
    simp only [pulse_events, run, List.length_nil, Nat.add_zero, List.nil_append] at hall ⊢
    exact ⟨hfirst, hidle, trivial, (Nat.mod_eq_of_lt hd).symm, (Nat.mod_eq_of_lt hm).symm, hall⟩
  | cons p pre ih =>
    simp only [List.cons_append, all_counted, Bool.and_eq_true, decide_eq_true_eq] at hall
    obtain ⟨⟨⟨hfall, hrise⟩, hpass⟩, hrest⟩ := hall
    obtain ⟨h1, h2, h3, h4, h5, -⟩ := counted_pulse_step W p s hfirst hidle hfall hrise hpass
    obtain ⟨i1, i2, i3, i4, i5, i6⟩ :=
      ih _ h1 h2 (h4 ▸ Nat.mod_lt _ hM) (h5 ▸ Nat.mod_lt _ hM) hrest
    simp only [pulse_events, run_edge_cons, List.length_cons]
    refine ⟨i1, i2, i3.trans h3, ?_, ?_, i6⟩
    · rw [i4, h4, Nat.mod_add_mod]; congr 1; omega
    · rw [i5, h5, Nat.mod_add_mod]; congr 1; omega

/-- The energy expression is the exact product as long as that fits in 32 bits. -/
theorem energy_eq_mul {W c wh : Nat} (hW : 32 ≤ W) (h : c * wh < 2 ^ 32) :
    energy W c wh = c * wh := by
  have hM := two_pow_32_le_two_pow hW
  unfold energy ulong_mul
  rw [Nat.mod_eq_of_lt (by omega)]
  exact to_uint_of_lt h

/-- C6: starting from any counter state, after `N` consecutive pulses that each pass the
width, interval and power filters (edge events only, so no timer reset in between) both
counters have increased by `N` (in `unsigned long` arithmetic, that is by exactly `N`
short of the wrap), and at each of these pulses the daily and monthly energy shown on
lines 2 and 3 of the display and stored in `emon_data` are the new counter value times
`wh_per_pulse` (the C product as an `unsigned int`, the exact product when it is
below `2 ^ 32`). -/
theorem counted_pulses_accounting (W : Nat) (ps : List (GpioEnv × GpioEnv)) (s : State)
    (hfirst : s.first = 0) (hidle : s.pulse_started = 0)
    (hd : s.pulse_count_daily < 2 ^ W) (hm : s.pulse_count_monthly < 2 ^ W)
    (hall : all_counted W ps s = true) :
    (run W (pulse_events ps) s).state.pulse_count_daily
      = (s.pulse_count_daily + ps.length) % 2 ^ W ∧
    (run W (pulse_events ps) s).state.pulse_count_monthly
      = (s.pulse_count_monthly + ps.length) % 2 ^ W ∧
    (s.pulse_count_daily + ps.length < 2 ^ W →
      (run W (pulse_events ps) s).state.pulse_count_daily
        = s.pulse_count_daily + ps.length) ∧
    (s.pulse_count_monthly + ps.length < 2 ^ W →
      (run W (pulse_events ps) s).state.pulse_count_monthly
        = s.pulse_count_monthly + ps.length) ∧
    (∀ pre p post, ps = pre ++ p :: post →
      Effect.lcd_print 2
          (energy W (rising_outcome W pre p s).state.pulse_count_daily s.config.wh_per_pulse)
        ∈ (rising_outcome W pre p s).effects ∧
      Effect.lcd_print 3
          (energy W (rising_outcome W pre p s).state.pulse_count_monthly
            s.config.wh_per_pulse)
        ∈ (rising_outcome W pre p s).effects ∧
      (rising_outcome W pre p s).state.emon_data.energy_day
        = energy W (rising_outcome W pre p s).state.pulse_count_daily
            s.config.wh_per_pulse ∧
      (rising_outcome W pre p s).state.emon_data.energy_month
        = energy W (rising_outcome W pre p s).state.pulse_count_monthly
            s.config.wh_per_pulse ∧
      (32 ≤ W →
        (rising_outcome W pre p s).state.pulse_count_daily * s.config.wh_per_pulse
          < 2 ^ 32 →
        (rising_outcome W pre p s).state.emon_data.energy_day
          = (rising_outcome W pre p s).state.pulse_count_daily * s.config.wh_per_pulse) ∧
      (32 ≤ W →
        (rising_outcome W pre p s).state.pulse_count_monthly * s.config.wh_per_pulse
          < 2 ^ 32 →
        (rising_outcome W pre p s).state.emon_data.energy_month
          = (rising_outcome W pre p s).state.pulse_count_monthly
              * s.config.wh_per_pulse)) := by
  have hall0 : all_counted W (ps ++ []) s = true := by simpa using hall
  obtain ⟨-, -, -, c4, c5, -⟩ := counted_prefix W ps [] s hfirst hidle hd hm hall0
  refine ⟨c4, c5, fun h => c4.trans (Nat.mod_eq_of_lt h),
    fun h => c5.trans (Nat.mod_eq_of_lt h), ?_⟩
  intro pre p post hps
  subst hps
  obtain ⟨i1, i2, i3, -, -, i6⟩ := counted_prefix W pre (p :: post) s hfirst hidle hd hm hall
  simp only [all_counted, Bool.and_eq_true, decide_eq_true_eq] at i6
  obtain ⟨⟨⟨hfall, hrise⟩, hpass⟩, -⟩ := i6
  obtain ⟨-, -, -, h4, h5, h6, h7, h8, h9⟩ :=
    counted_pulse_step W p _ i1 i2 hfall hrise hpass
  have hro : rising_outcome W pre p s
      = gpio_handler W p.2 (gpio_handler W p.1 (run W (pulse_events pre) s).state).state := by
    unfold rising_outcome
    rw [run_edges_append_state, run_edge_cons]
    rfl
  rw [hro, h4, h5, h6, h7, ← i3]
  exact ⟨h8, h9, rfl, rfl, fun hW h => energy_eq_mul hW h, fun hW h => energy_eq_mul hW h⟩

/-- Witness of C6: two pulses of 100 ms, one second apart, after an earlier pulse. -/
theorem counted_pulses_accounting_witness :
    all_counted 64 two_pulses counted_state = true ∧
    (run 64 (pulse_events two_pulses) counted_state).state.pulse_count_daily
      = counted_state.pulse_count_daily + two_pulses.length :=
  ⟨by decide,
   (counted_pulses_accounting 64 two_pulses counted_state
      (by decide) (by decide) (by decide) (by decide) (by decide)).2.2.1 (by decide)⟩

/-! ## Runs -/

theorem run_cons (W : Nat) (ev : Event) (evs : List Event) (s : State) :
    run W (ev :: evs) s =
      if (step W ev s).fault then step W ev s
      else
        { state := (run W evs (step W ev s).state).state,
          effects := (step W ev s).effects ++ (run W evs (step W ev s).state).effects,
          fault := (run W evs (step W ev s).state).fault } := rfl

theorem run_append (W : Nat) (a b : List Event) (s : State) :
    run W (a ++ b) s =
      if (run W a s).fault then run W a s
      else
        { state := (run W b (run W a s).state).state,
          effects := (run W a s).effects ++ (run W b (run W a s).state).effects,
          fault := (run W b (run W a s).state).fault } := by
  induction a generalizing s with
  | nil => simp [run]
  | cons ev a ih =>
    rw [List.cons_append, run_cons, run_cons]
    by_cases hf : (step W ev s).fault = true
    · simp [hf]
    · simp only [hf, if_false, Bool.false_eq_true]
      rw [ih]
      by_cases hf2 : (run W a (step W ev s).state).fault = true
      · simp [hf2]
      · simp [hf2, List.append_assoc]

/-- A property of states kept by every step of a run holds at its end, also when the run
stops at a fault. -/
theorem run_invariant (W : Nat) (P : State → Prop) (Q : Event → Bool)
    (hstep : ∀ ev s, Q ev = true → P s → P (step W ev s).state)
    (evs : List Event) (s : State) (hQ : evs.all Q = true) (hP : P s) :
    P (run W evs s).state := by
  induction evs generalizing s with
  | nil => exact hP
  | cons ev evs ih =>
    simp only [List.all_cons, Bool.and_eq_true] at hQ
    rw [run_cons]
    by_cases hf : (step W ev s).fault = true
    · simp only [hf, if_true]
      exact hstep ev s hQ.1 hP
    · simp only [hf, if_false, Bool.false_eq_true]
      exact ih _ hQ.2 (hstep ev s hQ.1 hP)

/-- Effects of a kind that no step of a run emits are absent from the whole run. -/
theorem run_countP_zero (W : Nat) (P : State → Prop) (Q : Event → Bool) (f : Effect → Bool)
    (hstep : ∀ ev s, Q ev = true → P s → P (step W ev s).state)
    (hzero : ∀ ev s, Q ev = true → P s → (step W ev s).effects.countP f = 0)
    (evs : List Event) (s : State) (hQ : evs.all Q = true) (hP : P s) :
    (run W evs s).effects.countP f = 0 := by
  induction evs generalizing s with
  | nil => rfl
  | cons ev evs ih =>
    simp only [List.all_cons, Bool.and_eq_true] at hQ
    rw [run_cons]
    by_cases hf : (step W ev s).fault = true
    · simp only [hf, if_true]
      exact hzero ev s hQ.1 hP
    · simp only [hf, if_false, Bool.false_eq_true, List.countP_append]
      rw [hzero ev s hQ.1 hP, ih _ hQ.2 (hstep ev s hQ.1 hP)]

/-- A run none of whose steps faults does not fault. -/
theorem run_no_fault (W : Nat) (P : State → Prop) (Q : Event → Bool)
    (hstep : ∀ ev s, Q ev = true → P s → P (step W ev s).state)
    (hok : ∀ ev s, Q ev = true → P s → (step W ev s).fault = false)
    (evs : List Event) (s : State) (hQ : evs.all Q = true) (hP : P s) :
    (run W evs s).fault = false := by
  induction evs generalizing s with
  | nil => rfl
  | cons ev evs ih =>
    simp only [List.all_cons, Bool.and_eq_true] at hQ
    rw [run_cons]
    simp only [hok ev s hQ.1 hP, if_false, Bool.false_eq_true]
    exact ih _ hQ.2 (hstep ev s hQ.1 hP)

/-! ## What the pulse handler leaves alone -/

theorem gpio_handler_timer_fields (W : Nat) (env : GpioEnv) (s : State) :
    (gpio_handler W env s).state.reset_done = s.reset_done ∧
    (gpio_handler W env s).state.save_done = s.save_done ∧
    (gpio_handler W env s).state.config.flash_dir = s.config.flash_dir := by
  simp only [gpio_handler]
  split_ifs <;> simp

theorem gpio_handler_no_timer_effects (W : Nat) (env : GpioEnv) (s : State) :
    daily_resets (gpio_handler W env s).effects = 0 ∧
    write_flash_calls (gpio_handler W env s).effects = 0 := by
  simp only [gpio_handler, daily_resets, write_flash_calls]
  split_ifs <;> simp [Effect.is_reset_daily, Effect.is_write_flash]

/-! ## The timer handler -/

/-- The save block of `timer_handler` touches neither the counters nor `reset_done`,
and logs nothing: after a successful re-arm these are as the midnight block leaves
them. -/
theorem timer_handler_of_midnight_block (env : TimerEnv) (s : State)
    (hrc : 0 ≤ env.setitimer_rc) :
    (timer_handler env s).state.pulse_count_daily
      = (midnight_block env s).1.pulse_count_daily ∧
    (timer_handler env s).state.pulse_count_monthly
      = (midnight_block env s).1.pulse_count_monthly ∧
    (timer_handler env s).state.reset_done = (midnight_block env s).1.reset_done ∧
    daily_resets (timer_handler env s).effects = daily_resets (midnight_block env s).2 ∧
    (∀ m, Effect.syslog m ∈ (timer_handler env s).effects
      ↔ Effect.syslog m ∈ (midnight_block env s).2) := by
  have h : ¬ env.setitimer_rc < 0 := by omega
  simp only [timer_handler, h, if_false]
  split_ifs
  · split <;> simp [daily_resets, List.countP_append, Effect.is_reset_daily]
  · simp
  · simp

/-- C7: a timer tick whose re-arm succeeds and which finds the clock in the midnight
minute (hour 0, minute 0) while `reset_done` is clear sets `pulse_count_daily` to 0 and
sets `reset_done`; it sets `pulse_count_monthly` to 0 when the day of the month is 1 and
leaves it unchanged otherwise, and the monthly reset is logged exactly in the first
case. -/
theorem midnight_tick_resets (env : TimerEnv) (s : State)
    (hrc : 0 ≤ env.setitimer_rc)
    (hhour : env.midnight_tm.tm_hour = 0) (hmin : env.midnight_tm.tm_min = 0)
    (hclear : s.reset_done = 0) :
    (timer_handler env s).state.pulse_count_daily = 0 ∧
    (timer_handler env s).state.reset_done = 1 ∧
    (env.first_dom_tm.tm_mday = 1 → (timer_handler env s).state.pulse_count_monthly = 0) ∧
    (env.first_dom_tm.tm_mday ≠ 1 →
      (timer_handler env s).state.pulse_count_monthly = s.pulse_count_monthly) ∧
    (Effect.syslog (LogMsg.reset_monthly s.pulse_count_monthly)
        ∈ (timer_handler env s).effects ↔ env.first_dom_tm.tm_mday = 1) ∧
    daily_resets (timer_handler env s).effects = 1 := by
  obtain ⟨h1, h2, h3, h4, h5⟩ := timer_handler_of_midnight_block env s hrc
  rw [h1, h2, h3, h4, h5]
  by_cases hd : env.first_dom_tm.tm_mday = 1
  · simp [midnight_block, is_midnight, is_first_dom, hhour, hmin, hclear, hd, daily_resets,
      Effect.is_reset_daily]
  · simp [midnight_block, is_midnight, is_first_dom, hhour, hmin, hclear, hd, daily_resets,
      Effect.is_reset_daily]

/-- Witness of C7: the first tick of the first day of a month, with 7 pulses counted
that day and 40 that month. -/
theorem midnight_tick_resets_witness :
    (counted_state.reset_done = 0 ∧ (tick_at 0 0 1).midnight_tm.tm_hour = 0) ∧
    (timer_handler (tick_at 0 0 1) counted_state).state.pulse_count_daily = 0 ∧
    (timer_handler (tick_at 0 0 1) counted_state).state.pulse_count_monthly = 0 :=
  ⟨by decide,
   (midnight_tick_resets (tick_at 0 0 1) counted_state
      (by decide) (by decide) (by decide) (by decide)).1,
   (midnight_tick_resets (tick_at 0 0 1) counted_state
      (by decide) (by decide) (by decide) (by decide)).2.2.1 (by decide)⟩

/-- The midnight block run in the midnight minute with `reset_done` clear zeroes the
daily counter, sets `reset_done` and logs one daily reset. -/
theorem midnight_block_first (env : TimerEnv) (s : State)
    (hhour : env.midnight_tm.tm_hour = 0) (hmin : env.midnight_tm.tm_min = 0)
    (hclear : s.reset_done = 0) :
    (midnight_block env s).1.pulse_count_daily = 0 ∧
    (midnight_block env s).1.reset_done = 1 ∧
    daily_resets (midnight_block env s).2 = 1 := by
  by_cases hd : env.first_dom_tm.tm_mday = 1
  · simp [midnight_block, is_midnight, is_first_dom, hhour, hmin, hclear, hd, daily_resets,
      Effect.is_reset_daily]
  · simp [midnight_block, is_midnight, is_first_dom, hhour, hmin, hclear, hd, daily_resets,
      Effect.is_reset_daily]

/-- A midnight tick that finds `reset_done` clear: the part of the reset that a run of
ticks builds on. -/
theorem first_midnight_tick (env : TimerEnv) (s : State)
    (ht : midnight_tick env = true) (hclear : s.reset_done = 0) :
    (timer_handler env s).state.pulse_count_daily = 0 ∧
    (timer_handler env s).state.reset_done = 1 ∧
    daily_resets (timer_handler env s).effects = 1 := by
  simp only [midnight_tick, Bool.and_eq_true, decide_eq_true_eq] at ht
  obtain ⟨⟨hrc, hhour⟩, hmin⟩ := ht
  obtain ⟨h1, -, h3, h4, -⟩ := timer_handler_of_midnight_block env s hrc
  rw [h1, h3, h4]
  exact midnight_block_first env s hhour hmin hclear

/-- A midnight tick that finds `reset_done` set resets nothing. -/
theorem later_midnight_tick (env : TimerEnv) (s : State)
    (ht : midnight_tick env = true) (hdone : s.reset_done ≠ 0) :
    (timer_handler env s).state.pulse_count_daily = s.pulse_count_daily ∧
    (timer_handler env s).state.pulse_count_monthly = s.pulse_count_monthly ∧
    (timer_handler env s).state.reset_done = s.reset_done ∧
    daily_resets (timer_handler env s).effects = 0 := by
  simp only [midnight_tick, Bool.and_eq_true, decide_eq_true_eq] at ht
  obtain ⟨⟨hrc, hhour⟩, hmin⟩ := ht
  obtain ⟨h1, h2, h3, h4, -⟩ := timer_handler_of_midnight_block env s hrc
  rw [h1, h2, h3, h4]
  simp [midnight_block, is_midnight, hhour, hmin, hdone, daily_resets]

/-- Within the midnight minute, once `reset_done` is set it stays set. -/
theorem midnight_minute_step (W : Nat) (ev : Event) (s : State)
    (hev : in_midnight_minute ev = true) (hdone : s.reset_done ≠ 0) :
    (step W ev s).state.reset_done ≠ 0 ∧ daily_resets (step W ev s).effects = 0 := by
  cases ev with
  | edge env =>
    simp only [step]
    rw [(gpio_handler_timer_fields W env s).1]
    exact ⟨hdone, (gpio_handler_no_timer_effects W env s).1⟩
  | tick env =>
    simp only [step]
    obtain ⟨-, -, h3, h4⟩ := later_midnight_tick env s hev hdone
    rw [h3]
    exact ⟨hdone, h4⟩

/-- Outside the midnight minute `reset_done` stays clear. -/
theorem outside_midnight_step (W : Nat) (ev : Event) (s : State)
    (hev : outside_midnight_minute ev = true) (hclear : s.reset_done = 0) :
    (step W ev s).state.reset_done = 0 := by
  cases ev with
  | edge env =>
    simp only [step]
    rw [(gpio_handler_timer_fields W env s).1]
    exact hclear
  | tick env =>
    simp only [outside_midnight_minute, decide_eq_true_eq] at hev
    simp only [step]
    by_cases hrc : env.setitimer_rc < 0
    · simp [timer_handler, hrc, hclear]
    · rw [(timer_handler_of_midnight_block env s (by omega)).2.2.1]
      simp [midnight_block, hev]

/-- C8: in a run of events that starts with a midnight tick finding `reset_done` clear
and goes on with pulse edges and further ticks of the same midnight minute (ticks that
re-arm the timer and for which `is_midnight` answers 1), the counters are reset exactly
once, by the first tick: it zeroes `pulse_count_daily`, every later tick of the run
leaves both counters as it finds them and logs no reset, and the whole run logs one
daily reset. The first tick outside the midnight minute clears `reset_done`, it stays
clear until the next midnight tick, and that tick resets again. -/
theorem midnight_run_resets_once (W : Nat) (s : State) (t : TimerEnv) (rest : List Event)
    (t_out : TimerEnv) (day : List Event) (t_next : TimerEnv)
    (hclear : s.reset_done = 0)
    (ht : midnight_tick t = true)
    (hrest : rest.all in_midnight_minute = true)
    (hout_rc : 0 ≤ t_out.setitimer_rc) (hout : is_midnight t_out.midnight_tm = 0)
    (hday : day.all outside_midnight_minute = true)
    (hnext : midnight_tick t_next = true) :
    (timer_handler t s).state.pulse_count_daily = 0 ∧
    daily_resets (timer_handler t s).effects = 1 ∧
    daily_resets (run W (Event.tick t :: rest) s).effects = 1 ∧
    (∀ pre t2 post, rest = pre ++ Event.tick t2 :: post →
      (timer_handler t2 (run W (Event.tick t :: pre) s).state).state.pulse_count_daily
        = (run W (Event.tick t :: pre) s).state.pulse_count_daily ∧
      (timer_handler t2 (run W (Event.tick t :: pre) s).state).state.pulse_count_monthly
        = (run W (Event.tick t :: pre) s).state.pulse_count_monthly ∧
      daily_resets (timer_handler t2 (run W (Event.tick t :: pre) s).state).effects = 0) ∧
    (timer_handler t_out (run W (Event.tick t :: rest) s).state).state.reset_done = 0 ∧
    ((run W (Event.tick t :: rest ++ Event.tick t_out :: day) s).fault = false →
      (timer_handler t_next
          (run W (Event.tick t :: rest ++ Event.tick t_out :: day) s).state).state.pulse_count_daily
        = 0 ∧
      daily_resets (timer_handler t_next
          (run W (Event.tick t :: rest ++ Event.tick t_out :: day) s).state).effects = 1) := by
  obtain ⟨f1, f2, f6⟩ := first_midnight_tick t s ht hclear
  have hdone1 : (step W (Event.tick t) s).state.reset_done ≠ 0 := by
    simp only [step]; rw [f2]; decide
  -- the state stays marked as reset along the run
  have inv : ∀ evs : List Event, evs.all in_midnight_minute = true →
      (run W (Event.tick t :: evs) s).state.reset_done ≠ 0 ∧
      daily_resets (run W (Event.tick t :: evs) s).effects = 1 := by
    intro evs hevs
    rw [run_cons]
    by_cases hf : (step W (Event.tick t) s).fault = true
    · simp only [hf, if_true]
      exact ⟨hdone1, f6⟩
    · simp only [hf, if_false, Bool.false_eq_true, daily_resets, List.countP_append]
      refine ⟨run_invariant W (fun s => s.reset_done ≠ 0) in_midnight_minute
        (fun ev s h1 h2 => (midnight_minute_step W ev s h1 h2).1) evs _ hevs hdone1, ?_⟩
      rw [run_countP_zero W (fun s => s.reset_done ≠ 0) in_midnight_minute
        Effect.is_reset_daily (fun ev s h1 h2 => (midnight_minute_step W ev s h1 h2).1)
        (fun ev s h1 h2 => (midnight_minute_step W ev s h1 h2).2) evs _ hevs hdone1]
      exact f6
  refine ⟨f1, f6, (inv rest hrest).2, ?_, ?_, ?_⟩
  · intro pre t2 post hsplit
    subst hsplit
    simp only [List.all_append, List.all_cons, Bool.and_eq_true] at hrest
    obtain ⟨g1, g2, -, g4⟩ :=
      later_midnight_tick t2 _ (by simpa [in_midnight_minute] using hrest.2.1)
        (inv pre hrest.1).1
    exact ⟨g1, g2, g4⟩
  · rw [(timer_handler_of_midnight_block t_out _ hout_rc).2.2.1]
    simp [midnight_block, hout]
  · intro hnf
    have happ : Event.tick t :: rest ++ Event.tick t_out :: day
        = (Event.tick t :: rest) ++ ([Event.tick t_out] ++ day) := by simp
    rw [happ, run_append] at hnf ⊢
    by_cases hf : (run W (Event.tick t :: rest) s).fault = true
    · simp [hf] at hnf
    · simp only [hf, if_false, Bool.false_eq_true] at hnf ⊢
      have hc : (run W ([Event.tick t_out] ++ day)
          (run W (Event.tick t :: rest) s).state).state.reset_done = 0 := by
        rw [run_append]
        have h1 : (run W [Event.tick t_out] (run W (Event.tick t :: rest) s).state).state.reset_done
            = 0 := by
          rw [run_cons]
          split_ifs
          · simp only [step]
            rw [(timer_handler_of_midnight_block t_out _ hout_rc).2.2.1]
            simp [midnight_block, hout]
          · simp only [run, step]
            rw [(timer_handler_of_midnight_block t_out _ hout_rc).2.2.1]
            simp [midnight_block, hout]
        split_ifs
        · exact h1
        · exact run_invariant W (fun s => s.reset_done = 0) outside_midnight_minute
            (fun ev s h1 h2 => outside_midnight_step W ev s h1 h2) day _ hday h1
      obtain ⟨n1, -, n6⟩ := first_midnight_tick t_next _ hnext hc
      exact ⟨n1, n6⟩

/-- Witness of C8: two ticks and a pulse in the midnight minute of the 15th, a tick at
00:01, a tick at noon, and the midnight tick of the 16th. -/
theorem midnight_run_resets_once_witness :
    (counted_state.reset_done = 0 ∧ midnight_tick (tick_at 0 0 15) = true ∧
      midnight_rest.all in_midnight_minute = true) ∧
    daily_resets (run 64 (Event.tick (tick_at 0 0 15) :: midnight_rest) counted_state).effects
      = 1 :=
  ⟨by decide,
   (midnight_run_resets_once 64 counted_state (tick_at 0 0 15) midnight_rest
      (tick_at 0 1 15) [Event.tick (tick_at 12 0 15)] (tick_at 0 0 16)
      (by decide) (by decide) (by decide) (by decide) (by decide) (by decide)
      (by decide)).2.2.1⟩

/-! ## The hourly save -/

/-- The midnight block touches neither `save_done` nor the configuration and calls
nothing. -/
theorem midnight_block_save_fields (env : TimerEnv) (s : State) :
    (midnight_block env s).1.save_done = s.save_done ∧
    (midnight_block env s).1.config = s.config ∧
    write_flash_calls (midnight_block env s).2 = 0 := by
  simp only [midnight_block, write_flash_calls]
  split_ifs <;> simp [Effect.is_write_flash]

/-- The timer handler never changes the configuration. -/
theorem timer_handler_config (env : TimerEnv) (s : State) :
    (timer_handler env s).state.config = s.config := by
  obtain ⟨-, h2, -⟩ := midnight_block_save_fields env s
  simp only [timer_handler]
  split_ifs
  · rfl
  · split <;> simp [h2]
  · simp [h2]
  · simp [h2]

/-- A full-hour tick that finds `save_done` clear and a non-empty storage directory
calls `write_flash` once, with the counters as the midnight block left them. -/
theorem first_full_hour_tick (env : TimerEnv) (s : State) (dir : String)
    (ht : full_hour_tick env = true) (hclear : s.save_done = 0)
    (hdir : s.config.flash_dir = some dir) (hne : 0 < dir.length) :
    (timer_handler env s).effects =
      (midnight_block env s).2 ++
        [Effect.write_flash dir NV_FILENAME (timer_handler env s).state.pulse_count_daily
          (timer_handler env s).state.pulse_count_monthly] ∧
    write_flash_calls (timer_handler env s).effects = 1 ∧
    (timer_handler env s).state.save_done = 1 ∧
    (timer_handler env s).fault = false := by
  simp only [full_hour_tick, Bool.and_eq_true, decide_eq_true_eq] at ht
  obtain ⟨hrc, hmin⟩ := ht
  have h : ¬ env.setitimer_rc < 0 := by omega
  obtain ⟨h1, h2, h3⟩ := midnight_block_save_fields env s
  have h3' := h3
  simp only [write_flash_calls] at h3'
  simp only [timer_handler, h, if_false, is_full_hour, hmin, h1, hclear, h2, hdir]
  simp [hne, write_flash_calls, List.countP_append, h3', Effect.is_write_flash]

/-- A full-hour tick that finds `save_done` set saves nothing. -/
theorem later_full_hour_tick (env : TimerEnv) (s : State)
    (ht : full_hour_tick env = true) (hdone : s.save_done ≠ 0) :
    write_flash_calls (timer_handler env s).effects = 0 ∧
    (timer_handler env s).state.save_done = s.save_done ∧
    (timer_handler env s).fault = false := by
  simp only [full_hour_tick, Bool.and_eq_true, decide_eq_true_eq] at ht
  obtain ⟨hrc, hmin⟩ := ht
  have h : ¬ env.setitimer_rc < 0 := by omega
  obtain ⟨h1, h2, h3⟩ := midnight_block_save_fields env s
  simp only [timer_handler, h, if_false, is_full_hour, hmin, h1, hdone]
  simp [h3, h1]

/-- A tick outside minute zero saves nothing, and clears `save_done` if it re-arms. -/
theorem tick_outside_minute_zero (env : TimerEnv) (s : State)
    (hout : is_full_hour env.full_hour_tm = 0) :
    write_flash_calls (timer_handler env s).effects = 0 ∧
    (0 ≤ env.setitimer_rc → (timer_handler env s).state.save_done = 0) ∧
    (s.save_done = 0 → (timer_handler env s).state.save_done = 0) ∧
    (timer_handler env s).fault = false := by
  obtain ⟨h1, h2, h3⟩ := midnight_block_save_fields env s
  by_cases hrc : env.setitimer_rc < 0
  · simp only [timer_handler, hrc, if_true]
    exact ⟨by simp [write_flash_calls, Effect.is_write_flash], fun h => by omega,
      fun h => h, trivial⟩
  · simp only [timer_handler, hrc, if_false, hout]
    simp [h3]

/-- With a storage directory configured no handler faults. -/
theorem step_no_fault (W : Nat) (ev : Event) (s : State) (dir : String)
    (hdir : s.config.flash_dir = some dir) :
    (step W ev s).state.config.flash_dir = some dir ∧ (step W ev s).fault = false := by
  cases ev with
  | edge env =>
    simp only [step]
    rw [(gpio_handler_timer_fields W env s).2.2]
    exact ⟨hdir, gpio_handler_fault W env s⟩
  | tick env =>
    simp only [step]
    rw [timer_handler_config]
    refine ⟨hdir, ?_⟩
    obtain ⟨h1, h2, h3⟩ := midnight_block_save_fields env s
    simp only [timer_handler]
    split_ifs
    · rfl
    · simp [h2, hdir]
    · rfl
    · rfl

/-- Within minute zero, once `save_done` is set it stays set and nothing is saved. -/
theorem minute_zero_step (W : Nat) (dir : String) (ev : Event) (s : State)
    (hev : in_minute_zero ev = true)
    (hP : s.save_done ≠ 0 ∧ s.config.flash_dir = some dir) :
    ((step W ev s).state.save_done ≠ 0 ∧ (step W ev s).state.config.flash_dir = some dir) ∧
    write_flash_calls (step W ev s).effects = 0 := by
  refine ⟨⟨?_, (step_no_fault W ev s dir hP.2).1⟩, ?_⟩
  · cases ev with
    | edge env =>
      simp only [step]
      rw [(gpio_handler_timer_fields W env s).2.1]
      exact hP.1
    | tick env =>
      simp only [step]
      rw [(later_full_hour_tick env s hev hP.1).2.1]
      exact hP.1
  · cases ev with
    | edge env => exact (gpio_handler_no_timer_effects W env s).2
    | tick env => exact (later_full_hour_tick env s hev hP.1).1

/-- Outside minute zero `save_done` stays clear. -/
theorem outside_minute_zero_step (W : Nat) (dir : String) (ev : Event) (s : State)
    (hev : outside_minute_zero ev = true)
    (hP : s.save_done = 0 ∧ s.config.flash_dir = some dir) :
    (step W ev s).state.save_done = 0 ∧ (step W ev s).state.config.flash_dir = some dir := by
  refine ⟨?_, (step_no_fault W ev s dir hP.2).1⟩
  cases ev with
  | edge env =>
    simp only [step]
    rw [(gpio_handler_timer_fields W env s).2.1]
    exact hP.1
  | tick env =>
    simp only [outside_minute_zero, decide_eq_true_eq] at hev
    exact (tick_outside_minute_zero env s hev).2.2.1 hP.1

/-- C9 (amended): with a non-empty storage directory configured, in a run of events
that starts with a full-hour tick finding `save_done` clear and goes on with pulse edges
and further ticks of the same minute zero (ticks that re-arm the timer and for which
`is_full_hour` answers 1), `write_flash` is called exactly once, by the first tick, with
the counters of that moment; no later tick of the run calls it. The first tick outside
minute zero clears `save_done`, it stays clear until the next full-hour tick, and that
tick saves again. -/
theorem full_hour_run_saves_once (W : Nat) (s : State) (dir : String) (t : TimerEnv)
    (rest : List Event) (t_out : TimerEnv) (hour : List Event) (t_next : TimerEnv)
    (hdir : s.config.flash_dir = some dir) (hne : 0 < dir.length)
    (hclear : s.save_done = 0)
    (ht : full_hour_tick t = true)
    (hrest : rest.all in_minute_zero = true)
    (hout_rc : 0 ≤ t_out.setitimer_rc) (hout : is_full_hour t_out.full_hour_tm = 0)
    (hhour : hour.all outside_minute_zero = true)
    (hnext : full_hour_tick t_next = true) :
    write_flash_calls (timer_handler t s).effects = 1 ∧
    Effect.write_flash dir NV_FILENAME (timer_handler t s).state.pulse_count_daily
        (timer_handler t s).state.pulse_count_monthly ∈ (timer_handler t s).effects ∧
    write_flash_calls (run W (Event.tick t :: rest) s).effects = 1 ∧
    (∀ pre t2 post, rest = pre ++ Event.tick t2 :: post →
      write_flash_calls (timer_handler t2 (run W (Event.tick t :: pre) s).state).effects
        = 0) ∧
    (timer_handler t_out (run W (Event.tick t :: rest) s).state).state.save_done = 0 ∧
    write_flash_calls (timer_handler t_next
        (run W (Event.tick t :: rest ++ Event.tick t_out :: hour) s).state).effects = 1 := by
  obtain ⟨f1, f2, f3, f4⟩ := first_full_hour_tick t s dir ht hclear hdir hne
  have hP1 : (step W (Event.tick t) s).state.save_done ≠ 0 ∧
      (step W (Event.tick t) s).state.config.flash_dir = some dir := by
    refine ⟨?_, (step_no_fault W (Event.tick t) s dir hdir).1⟩
    simp only [step]; rw [f3]; decide
  have hnf1 : (step W (Event.tick t) s).fault = false := f4
  have inv : ∀ evs : List Event, evs.all in_minute_zero = true →
      ((run W (Event.tick t :: evs) s).state.save_done ≠ 0 ∧
        (run W (Event.tick t :: evs) s).state.config.flash_dir = some dir) ∧
      write_flash_calls (run W (Event.tick t :: evs) s).effects = 1 ∧
      (run W (Event.tick t :: evs) s).fault = false := by
    intro evs hevs
    rw [run_cons]
    simp only [hnf1, if_false, Bool.false_eq_true, write_flash_calls, List.countP_append]
    refine ⟨run_invariant W (fun s => s.save_done ≠ 0 ∧ s.config.flash_dir = some dir)
      in_minute_zero (fun ev s h1 h2 => (minute_zero_step W dir ev s h1 h2).1) evs _ hevs hP1,
      ?_, ?_⟩
    · rw [run_countP_zero W (fun s => s.save_done ≠ 0 ∧ s.config.flash_dir = some dir)
        in_minute_zero Effect.is_write_flash
        (fun ev s h1 h2 => (minute_zero_step W dir ev s h1 h2).1)
        (fun ev s h1 h2 => (minute_zero_step W dir ev s h1 h2).2) evs _ hevs hP1]
      exact f2
    · exact run_no_fault W (fun s => s.save_done ≠ 0 ∧ s.config.flash_dir = some dir)
        in_minute_zero (fun ev s h1 h2 => (minute_zero_step W dir ev s h1 h2).1)
        (fun ev s _ h2 => (step_no_fault W ev s dir h2.2).2) evs _ hevs hP1
  refine ⟨f2, ?_, (inv rest hrest).2.1, ?_, ?_, ?_⟩
  · rw [f1]; simp
  · intro pre t2 post hsplit
    subst hsplit
    simp only [List.all_append, List.all_cons, Bool.and_eq_true] at hrest
    exact (later_full_hour_tick t2 _ (by simpa [in_minute_zero] using hrest.2.1)
      (inv pre hrest.1).1.1).1
  · exact (tick_outside_minute_zero t_out _ hout).2.1 hout_rc
  · have happ : Event.tick t :: rest ++ Event.tick t_out :: hour
        = (Event.tick t :: rest) ++ (Event.tick t_out :: hour) := by simp
    obtain ⟨⟨-, i2⟩, -, i4⟩ := inv rest hrest
    rw [happ, run_append]
    simp only [i4, if_false, Bool.false_eq_true]
    have hs1 : (step W (Event.tick t_out) (run W (Event.tick t :: rest) s).state).state.save_done
          = 0 ∧
        (step W (Event.tick t_out)
          (run W (Event.tick t :: rest) s).state).state.config.flash_dir = some dir :=
      ⟨(tick_outside_minute_zero t_out _ hout).2.1 hout_rc,
       (step_no_fault W (Event.tick t_out) _ dir i2).1⟩
    have hc : (run W (Event.tick t_out :: hour) (run W (Event.tick t :: rest) s).state).state.save_done
          = 0 ∧
        (run W (Event.tick t_out :: hour)
          (run W (Event.tick t :: rest) s).state).state.config.flash_dir = some dir := by
      rw [run_cons]
      simp only [(step_no_fault W (Event.tick t_out) _ dir i2).2, if_false,
        Bool.false_eq_true]
      exact run_invariant W (fun s => s.save_done = 0 ∧ s.config.flash_dir = some dir)
        outside_minute_zero (fun ev s h1 h2 => outside_minute_zero_step W dir ev s h1 h2)
        hour _ hhour hs1
    exact (first_full_hour_tick t_next _ dir hnext hc.1 hc.2 hne).2.1

/-- Witness of C9 (amended): two ticks and a pulse in minute zero of 01:00, a tick at
01:01, and the tick of 02:00. -/
theorem full_hour_run_saves_once_witness :
    (counted_state.config.flash_dir = some "/media/flash" ∧
      counted_state.save_done = 0 ∧ full_hour_tick (tick_at 1 0 15) = true) ∧
    write_flash_calls (run 64 (Event.tick (tick_at 1 0 15) :: full_hour_rest)
      counted_state).effects = 1 :=
  ⟨by decide,
   (full_hour_run_saves_once 64 counted_state "/media/flash" (tick_at 1 0 15)
      full_hour_rest (tick_at 1 1 15) [] (tick_at 2 0 15)
      (by decide) (by decide) (by decide) (by decide) (by decide) (by decide) (by decide)
      (by decide) (by decide)).2.2.1⟩

/-- C9 (counterexample): with the empty string as storage directory, the first tick of
minute zero of an hour finds `save_done` clear, calls `write_flash` not at all and sets
`save_done`; the whole run within that minute contains no call of `write_flash`. -/
theorem empty_dir_never_saved :
    empty_dir_state.save_done = 0 ∧
    full_hour_tick (tick_at 1 0 15) = true ∧
    full_hour_rest.all in_minute_zero = true ∧
    write_flash_calls (timer_handler (tick_at 1 0 15) empty_dir_state).effects = 0 ∧
    (timer_handler (tick_at 1 0 15) empty_dir_state).state.save_done = 1 ∧
    (timer_handler (tick_at 1 0 15) empty_dir_state).fault = false ∧
    write_flash_calls (run 64 (Event.tick (tick_at 1 0 15) :: full_hour_rest)
      empty_dir_state).effects = 0 := by
  decide

/-! ## The dispatcher entry point -/

/-- C10 (amended): `emoncms_send` returns -2 (Busy), starting no worker and leaving
`ready_to_send` as it is, whenever `ready_to_send` is 0 (a report is in flight); when
`ready_to_send` is not 0 it clears it (Idle to InFlight) and returns 0 (Accepted) with a
worker started if `pthread_create` succeeds, and -1 with no worker started if
`pthread_create` fails. -/
theorem emoncms_send_cases (pthread_create_rc : Int) (ready_to_send : Nat) :
    (ready_to_send = 0 →
      emoncms_send pthread_create_rc ready_to_send =
        { rc := -2, ready_to_send := ready_to_send, thread_started := false }) ∧
    (ready_to_send ≠ 0 → pthread_create_rc = 0 →
      emoncms_send pthread_create_rc ready_to_send =
        { rc := 0, ready_to_send := 0, thread_started := true }) ∧
    (ready_to_send ≠ 0 → pthread_create_rc ≠ 0 →
      emoncms_send pthread_create_rc ready_to_send =
        { rc := -1, ready_to_send := 0, thread_started := false }) := by
  refine ⟨?_, ?_, ?_⟩
  · intro h
    simp [emoncms_send, h]
  · intro h hrc
    simp [emoncms_send, h, hrc]
  · intro h hrc
    simp [emoncms_send, h, hrc]

/-- C10 (counterexample): with no report in flight (`ready_to_send = 1`) and
`pthread_create` failing with `EAGAIN` (11), `emoncms_send` returns -1, not 0, and starts
no worker, while the slot is left InFlight. -/
theorem emoncms_send_not_accepted :
    emoncms_send 11 1 = { rc := -1, ready_to_send := 0, thread_started := false } ∧
    (emoncms_send 11 1).rc ≠ 0 := by
  decide

/-! ## Edge events and the counters -/

/-- C17: every edge event handled by `gpio_handler` either leaves both counters
unchanged or increments both by 1 (the C increment of an `unsigned long`); a falling
edge never changes either counter; and short of the wrap no counter decreases and
neither changes without the other. -/
theorem edge_counters_step (W : Nat) (env : GpioEnv) (s : State) :
    (((gpio_handler W env s).state.pulse_count_daily = s.pulse_count_daily ∧
        (gpio_handler W env s).state.pulse_count_monthly = s.pulse_count_monthly) ∨
      ((gpio_handler W env s).state.pulse_count_daily = (s.pulse_count_daily + 1) % 2 ^ W ∧
        (gpio_handler W env s).state.pulse_count_monthly
          = (s.pulse_count_monthly + 1) % 2 ^ W)) ∧
    (env.pin = LOW →
      (gpio_handler W env s).state.pulse_count_daily = s.pulse_count_daily ∧
      (gpio_handler W env s).state.pulse_count_monthly = s.pulse_count_monthly) ∧
    (s.pulse_count_daily + 1 < 2 ^ W → s.pulse_count_monthly + 1 < 2 ^ W →
      (((gpio_handler W env s).state.pulse_count_daily = s.pulse_count_daily ∧
          (gpio_handler W env s).state.pulse_count_monthly = s.pulse_count_monthly) ∨
        ((gpio_handler W env s).state.pulse_count_daily = s.pulse_count_daily + 1 ∧
          (gpio_handler W env s).state.pulse_count_monthly = s.pulse_count_monthly + 1)) ∧
      s.pulse_count_daily ≤ (gpio_handler W env s).state.pulse_count_daily ∧
      s.pulse_count_monthly ≤ (gpio_handler W env s).state.pulse_count_monthly ∧
      ((gpio_handler W env s).state.pulse_count_daily = s.pulse_count_daily ↔
        (gpio_handler W env s).state.pulse_count_monthly = s.pulse_count_monthly)) := by
  have key : ((gpio_handler W env s).state.pulse_count_daily = s.pulse_count_daily ∧
        (gpio_handler W env s).state.pulse_count_monthly = s.pulse_count_monthly) ∨
      ((gpio_handler W env s).state.pulse_count_daily = (s.pulse_count_daily + 1) % 2 ^ W ∧
        (gpio_handler W env s).state.pulse_count_monthly
          = (s.pulse_count_monthly + 1) % 2 ^ W) := by
    simp only [gpio_handler]
    split_ifs <;> simp [ulong_add]
  refine ⟨key, ?_, ?_⟩
  · intro hlow
    simp only [gpio_handler, hlow, if_true]
    split_ifs <;> simp
  · intro hd hm
    rw [Nat.mod_eq_of_lt hd, Nat.mod_eq_of_lt hm] at key
    refine ⟨key, ?_, ?_, ?_⟩ <;> rcases key with ⟨h1, h2⟩ | ⟨h1, h2⟩ <;> omega

/-- C19: out-of-sequence edges change no state: a falling edge that finds a pulse
started (`pulse_started` not 0, in particular 1) and a rising edge that finds none
(`pulse_started` not 1, in particular 0) leave the whole state as it is, so
`pulse_started`, `pulse_start_ts`, the counters, `prev_ts`, `first`, the reference width
and the report payload are unchanged; only a warning is logged. -/
theorem out_of_sequence_edge (W : Nat) (env : GpioEnv) (s : State) :
    (env.pin = LOW → s.pulse_started ≠ 0 →
      gpio_handler W env s =
        { state := s, effects := [Effect.syslog LogMsg.start_out_of_sequence],
          fault := false }) ∧
    (env.pin ≠ LOW → s.pulse_started ≠ 1 →
      gpio_handler W env s =
        { state := s, effects := [Effect.syslog LogMsg.end_out_of_sequence],
          fault := false }) ∧
    (env.pin = LOW → s.pulse_started = 1 →
      (gpio_handler W env s).state.pulse_started = 1 ∧
      (gpio_handler W env s).state.pulse_start_ts = s.pulse_start_ts ∧
      (gpio_handler W env s).state.pulse_count_daily = s.pulse_count_daily ∧
      (gpio_handler W env s).state.pulse_count_monthly = s.pulse_count_monthly ∧
      (gpio_handler W env s).state.prev_ts = s.prev_ts ∧
      (gpio_handler W env s).state.first = s.first ∧
      (gpio_handler W env s).state.config.pulse_length = s.config.pulse_length ∧
      (gpio_handler W env s).state.emon_data = s.emon_data) ∧
    (env.pin ≠ LOW → s.pulse_started = 0 →
      (gpio_handler W env s).state.pulse_started = 0 ∧
      (gpio_handler W env s).state.pulse_start_ts = s.pulse_start_ts ∧
      (gpio_handler W env s).state.pulse_count_daily = s.pulse_count_daily ∧
      (gpio_handler W env s).state.pulse_count_monthly = s.pulse_count_monthly ∧
      (gpio_handler W env s).state.prev_ts = s.prev_ts ∧
      (gpio_handler W env s).state.first = s.first ∧
      (gpio_handler W env s).state.config.pulse_length = s.config.pulse_length ∧
      (gpio_handler W env s).state.emon_data = s.emon_data) := by
  have h1 : env.pin = LOW → s.pulse_started ≠ 0 →
      gpio_handler W env s =
        { state := s, effects := [Effect.syslog LogMsg.start_out_of_sequence],
          fault := false } := by
    intro hlow hst
    simp [gpio_handler, hlow, hst]
  have h2 : env.pin ≠ LOW → s.pulse_started ≠ 1 →
      gpio_handler W env s =
        { state := s, effects := [Effect.syslog LogMsg.end_out_of_sequence],
          fault := false } := by
    intro hhigh hst
    simp [gpio_handler, hhigh, hst]
  refine ⟨h1, h2, ?_, ?_⟩
  · intro hlow hst
    rw [h1 hlow (by omega)]
    exact ⟨hst, rfl, rfl, rfl, rfl, rfl, rfl, rfl⟩
  · intro hhigh hst
    rw [h2 hhigh (by omega)]
    exact ⟨hst, rfl, rfl, rfl, rfl, rfl, rfl, rfl⟩

/-- C20: the first width-valid pulse (`first` set) bypasses the interval and power
filters: it increments both counters by 1, shows power 0 on line 1 and the energies of
the already incremented counters on lines 2 and 3, sets `prev_ts` to the end of the pulse
and clears `first`; it calls `emoncms_send` not at all and leaves the payload alone; and
the handler gives the same result whatever `prev_ts` held and the same effects and
counters whatever `max_power` is, so no interval and no power enter. -/
theorem first_pulse_counted (W : Nat) (env : GpioEnv) (s : State)
    (hpin : env.pin ≠ LOW) (hstarted : s.pulse_started = 1) (hfirst : s.first ≠ 0)
    (hvalid : width_valid W
      (effective_reference s (time_diff_ms W env.clock s.pulse_start_ts))
      (pulse_delta W (effective_reference s (time_diff_ms W env.clock s.pulse_start_ts)))
      (time_diff_ms W env.clock s.pulse_start_ts) = true) :
    (gpio_handler W env s).state.pulse_count_daily = (s.pulse_count_daily + 1) % 2 ^ W ∧
    (gpio_handler W env s).state.pulse_count_monthly
      = (s.pulse_count_monthly + 1) % 2 ^ W ∧
    (s.pulse_count_daily + 1 < 2 ^ W →
      (gpio_handler W env s).state.pulse_count_daily = s.pulse_count_daily + 1) ∧
    (s.pulse_count_monthly + 1 < 2 ^ W →
      (gpio_handler W env s).state.pulse_count_monthly = s.pulse_count_monthly + 1) ∧
    (gpio_handler W env s).effects.filter (fun e => !e matches Effect.syslog _) =
      [Effect.lcd_print 1 0,
       Effect.lcd_print 2 (energy W (gpio_handler W env s).state.pulse_count_daily
         s.config.wh_per_pulse),
       Effect.lcd_print 3 (energy W (gpio_handler W env s).state.pulse_count_monthly
         s.config.wh_per_pulse)] ∧
    (gpio_handler W env s).state.prev_ts = env.clock ∧
    (gpio_handler W env s).state.first = 0 ∧
    (gpio_handler W env s).state.emon_data = s.emon_data ∧
    (gpio_handler W env s).state.ready_to_send = s.ready_to_send ∧
    (∀ ts, gpio_handler W env { s with prev_ts := ts } = gpio_handler W env s) ∧
    (∀ mp,
      (gpio_handler W env { s with config := { s.config with max_power := mp } }).effects
        = (gpio_handler W env s).effects ∧
      (gpio_handler W env
          { s with config := { s.config with max_power := mp } }).state.pulse_count_daily
        = (gpio_handler W env s).state.pulse_count_daily ∧
      (gpio_handler W env
          { s with config := { s.config with max_power := mp } }).state.pulse_count_monthly
        = (gpio_handler W env s).state.pulse_count_monthly) := by
  by_cases hz : s.config.pulse_length = 0
  · simp only [effective_reference, hfirst, hz, ne_eq, not_false_eq_true, and_self,
      if_true] at hvalid
    simp only [gpio_handler, hpin, hstarted, hfirst, hz]
    simp [hvalid, hfirst, ulong_add]
    exact ⟨fun h => Nat.mod_eq_of_lt h, fun h => Nat.mod_eq_of_lt h⟩
  · simp only [effective_reference, hfirst, hz, ne_eq, not_false_eq_true, and_false,
      if_false] at hvalid
    simp only [gpio_handler, hpin, hstarted, hfirst, hz]
    simp [hvalid, hfirst, ulong_add]
    exact ⟨fun h => Nat.mod_eq_of_lt h, fun h => Nat.mod_eq_of_lt h⟩

/-- Witness of C20: the first pulse of the example scenario, 100 ms wide. -/
theorem first_pulse_counted_witness :
    ((mid_pulse_state 100 1 ⟨0, 0⟩).first ≠ 0 ∧
      (mid_pulse_state 100 1 ⟨0, 0⟩).pulse_count_daily + 1 < 2 ^ 64) ∧
    (gpio_handler 64 (rising 10 100000000) (mid_pulse_state 100 1 ⟨0, 0⟩)).state.pulse_count_daily
      = (mid_pulse_state 100 1 ⟨0, 0⟩).pulse_count_daily + 1 :=
  ⟨by decide,
   (first_pulse_counted 64 (rising 10 100000000) (mid_pulse_state 100 1 ⟨0, 0⟩)
      (by decide) (by decide) (by decide) (by decide)).2.2.1 (by decide)⟩

/-! ## The configuration callback -/

/-- C16: `config_cb` returns 0 and stores the parsed value (`atoi` of the text as an
`unsigned int`, or a copy of the text) in the field of the key, changing no other
field, for each of the ten recognised section/name pairs, and for no other pair: for
every other pair it returns -1 and leaves the configuration as it is. -/
theorem config_cb_keys (W : Nat) (c : Config) (v : String) :
    config_cb W c "counter" "pulse_input_pin" v
      = (0, { c with pulse_input_pin := int_to_uint (atoi W v.data) }) ∧
    config_cb W c "counter" "wh_per_pulse" v
      = (0, { c with wh_per_pulse := int_to_uint (atoi W v.data) }) ∧
    config_cb W c "counter" "pulse_length" v
      = (0, { c with pulse_length := int_to_uint (atoi W v.data) }) ∧
    config_cb W c "counter" "max_power" v
      = (0, { c with max_power := int_to_uint (atoi W v.data) }) ∧
    config_cb W c "storage" "flash_dir" v = (0, { c with flash_dir := some v }) ∧
    config_cb W c "lcd" "lcdproc_port" v
      = (0, { c with lcdproc_port := int_to_uint (atoi W v.data) }) ∧
    config_cb W c "webapi" "api_base_uri" v = (0, { c with api_base_uri := some v }) ∧
    config_cb W c "webapi" "api_key" v = (0, { c with api_key := some v }) ∧
    config_cb W c "webapi" "api_update_rate" v
      = (0, { c with api_update_rate := int_to_uint (atoi W v.data) }) ∧
    config_cb W c "webapi" "node_number" v
      = (0, { c with node_number := int_to_uint (atoi W v.data) }) ∧
    (∀ sec name, (sec, name) ∉ spec_config_keys → config_cb W c sec name v = (-1, c)) ∧
    (∀ sec name, (config_cb W c sec name v).1 = 0 ↔ (sec, name) ∈ spec_config_keys) := by
  have hno : ∀ sec name, (sec, name) ∉ spec_config_keys →
      config_cb W c sec name v = (-1, c) := by
    intro sec name h
    simp only [spec_config_keys, List.mem_cons, Prod.mk.injEq, List.mem_singleton,
      List.not_mem_nil, or_false, not_or] at h
    obtain ⟨h1, h2, h3, h4, h5, h6, h7, h8, h9, h10⟩ := h
    simp only [config_cb, h1, h2, h3, h4, h5, h6, h7, h8, h9, h10, if_false]
  refine ⟨?_, ?_, ?_, ?_, ?_, ?_, ?_, ?_, ?_, ?_, hno, ?_⟩
  · simp [config_cb]
  · simp [config_cb]
  · simp [config_cb]
  · simp [config_cb]
  · simp [config_cb]
  · simp [config_cb]
  · simp [config_cb]
  · simp [config_cb]
  · simp [config_cb]
  · simp [config_cb]
  · intro sec name
    constructor
    · intro h
      by_contra hn
      rw [hno sec name hn] at h
      simp at h
    · intro h
      simp only [spec_config_keys, List.mem_cons, Prod.mk.injEq, List.mem_singleton,
        List.not_mem_nil, or_false] at h
      rcases h with h | h | h | h | h | h | h | h | h | h <;>
        simp [config_cb, h.1, h.2]

/-! ## Decimal output read back by `atoi` -/

theorem toDigitsCore_append (b : Nat) (f n : Nat) (ds : List Char) :
    Nat.toDigitsCore b f n ds = Nat.toDigitsCore b f n [] ++ ds := by
  induction f generalizing n ds with
  | zero => simp [Nat.toDigitsCore]
  | succ f ih =>
    simp only [Nat.toDigitsCore]
    split_ifs
    · simp
    · rw [ih (n / b) (Nat.digitChar (n % b) :: ds), ih (n / b) [Nat.digitChar (n % b)]]
      simp

theorem toDigitsCore_fuel (b : Nat) (hb : 2 ≤ b) (f g n : Nat) (ds : List Char)
    (hf : n < f) (hg : n < g) :
    Nat.toDigitsCore b f n ds = Nat.toDigitsCore b g n ds := by
  induction f generalizing n g ds with
  | zero => omega
  | succ f ih =>
    cases g with
    | zero => omega
    | succ g =>
      simp only [Nat.toDigitsCore]
      split_ifs with h0
      · rfl
      · have hlt : n / b < n := by
          have hn : 0 < n := by
            rcases Nat.eq_zero_or_pos n with h | h
            · simp [h] at h0
            · exact h
          exact Nat.div_lt_self hn (by omega)
        exact ih g (n / b) _ (Nat.lt_of_lt_of_le hlt (Nat.lt_succ_iff.mp hf))
          (Nat.lt_of_lt_of_le hlt (Nat.lt_succ_iff.mp hg))

/-- The decimal digits of a number of two digits or more: those of the tens, then the
last digit. -/
theorem fmt_unsigned_step (n : Nat) (h : 10 ≤ n) :
    fmt_unsigned n = fmt_unsigned (n / 10) ++ [Nat.digitChar (n % 10)] := by
  unfold fmt_unsigned Nat.toDigits
  have h0 : n / 10 ≠ 0 := by omega
  rw [Nat.toDigitsCore]
  simp only [h0, if_false]
  rw [toDigitsCore_append]
  congr 1
  exact toDigitsCore_fuel 10 (by decide) _ _ _ _ (by omega) (by omega)

theorem fmt_unsigned_small (n : Nat) (h : n < 10) : fmt_unsigned n = [Nat.digitChar n] := by
  unfold fmt_unsigned Nat.toDigits
  rw [Nat.toDigitsCore]
  have h0 : n / 10 = 0 := by omega
  have h1 : n % 10 = n := by omega
  simp [h0, h1]

theorem digitChar_digit (k : Nat) (h : k < 10) :
    (Nat.digitChar k).isDigit = true ∧ (Nat.digitChar k).toNat - 48 = k := by
  interval_cases k <;> decide

/-- Reading a string of digits back, whatever follows it. -/
theorem digits_value_append (cs rest : List Char) (acc : Nat)
    (hcs : ∀ c ∈ cs, c.isDigit = true) :
    digits_value (cs ++ rest) acc
      = digits_value rest (cs.foldl (fun a c => a * 10 + (c.toNat - 48)) acc) := by
  induction cs generalizing acc with
  | nil => rfl
  | cons c cs ih =>
    have hc : c.isDigit = true := hcs c (by simp)
    simp only [List.cons_append, digits_value, hc, if_true, List.foldl_cons]
    exact ih _ (fun x hx => hcs x (by simp [hx]))

/-- The digits `printf` writes are digits, and they spell the number. -/
theorem fmt_unsigned_spec (n : Nat) :
    (∀ c ∈ fmt_unsigned n, c.isDigit = true) ∧
    (fmt_unsigned n).foldl (fun a c => a * 10 + (c.toNat - 48)) 0 = n ∧
    fmt_unsigned n ≠ [] := by
  induction n using Nat.strong_induction_on with
  | _ n ih =>
    by_cases h : n < 10
    · rw [fmt_unsigned_small n h]
      obtain ⟨h1, h2⟩ := digitChar_digit n h
      simp [h1, h2]
    · have h10 : 10 ≤ n := by omega
      rw [fmt_unsigned_step n h10]
      obtain ⟨i1, i2, -⟩ := ih (n / 10) (by omega)
      obtain ⟨h1, h2⟩ := digitChar_digit (n % 10) (by omega)
      refine ⟨?_, ?_, by simp⟩
      · intro c hc
        rcases List.mem_append.mp hc with hc | hc
        · exact i1 c hc
        · simp only [List.mem_singleton] at hc
          rw [hc]; exact h1
      · rw [List.foldl_append, i2]
        simp only [List.foldl_cons, List.foldl_nil, h2]
        omega

theorem digit_not_special (c : Char) (h : c.isDigit = true) :
    is_space c = false ∧ c ≠ '-' ∧ c ≠ '+' ∧ c ≠ '\n' := by
  refine ⟨?_, ?_, ?_, ?_⟩
  · unfold is_space
    simp only [Bool.or_eq_false_iff, decide_eq_false_iff_not]
    refine ⟨⟨⟨⟨⟨?_, ?_⟩, ?_⟩, ?_⟩, ?_⟩, ?_⟩ <;> (rintro rfl; exact absurd h (by decide))
  · rintro rfl; exact absurd h (by decide)
  · rintro rfl; exact absurd h (by decide)
  · rintro rfl; exact absurd h (by decide)

theorem to_int_of_small (n : Nat) (h : n < 2 ^ 31) : to_int (n : Int) = n := by
  unfold to_int
  have h1 : ((n : Int) + 2 ^ 31) % 2 ^ 32 = (n : Int) + 2 ^ 31 := by
    apply Int.emod_eq_of_lt <;> omega
  rw [h1]; omega

theorem int_to_ulong_of_nat (W n : Nat) (h : n < 2 ^ W) : int_to_ulong W (n : Int) = n := by
  unfold int_to_ulong
  have h1 : (n : Int) % (2 ^ W : Int) = (n : Int) := by
    apply Int.emod_eq_of_lt (by omega)
    exact_mod_cast h
  rw [h1]; simp

/-- `atoi` reads back a line that `printf` wrote for a value below `2 ^ 31`. -/
theorem atoi_fmt_unsigned (W n : Nat) (tl : List Char) (hW : 32 ≤ W) (h : n < 2 ^ 31) :
    atoi W (fmt_unsigned n ++ '\n' :: tl) = n := by
  obtain ⟨hdig, hval, hne⟩ := fmt_unsigned_spec n
  have hv : digits_value (fmt_unsigned n ++ '\n' :: tl) 0 = n := by
    rw [digits_value_append _ _ _ hdig, hval]
    simp [digits_value]
  cases hf : fmt_unsigned n with
  | nil => exact absurd hf hne
  | cons c cs =>
    have hc : c.isDigit = true := hdig c (by rw [hf]; simp)
    obtain ⟨h1, h2, h3, -⟩ := digit_not_special c hc
    rw [hf, List.cons_append] at hv
    have hM : (2 : Int) ^ 31 ≤ 2 ^ (W - 1) :=
      pow_le_pow_right₀ (by norm_num) (by omega)
    unfold atoi strtol
    simp only [List.cons_append, List.dropWhile_cons, h1, Bool.false_eq_true, if_false,
      List.head?_cons, Option.some.injEq, h2, h3, hv]
    have hmin : min ((2 : Int) ^ (W - 1) - 1) (n : Int) = n := by
      apply min_eq_right
      have : (n : Int) < 2 ^ 31 := by exact_mod_cast h
      omega
    rw [hmin]
    exact to_int_of_small n h

theorem fgets_take_line (k : Nat) (cs rest : List Char) (hk : cs.length < k)
    (hnl : ∀ c ∈ cs, c ≠ '\n') :
    fgets_take k (cs ++ '\n' :: rest) = (cs ++ ['\n'], rest) := by
  induction cs generalizing k with
  | nil =>
    cases k with
    | zero => simp at hk
    | succ k => simp [fgets_take]
  | cons c cs ih =>
    cases k with
    | zero => simp at hk
    | succ k =>
      have hc : c ≠ '\n' := hnl c (by simp)
      have hi := ih k (by simpa using hk) (fun x hx => hnl x (by simp [hx]))
      simp only [List.cons_append, fgets_take, hc, if_false]
      simp only [List.append_eq] at hi ⊢
      rw [hi]

theorem fmt_unsigned_length (n : Nat) (h : n < 2 ^ 31) : (fmt_unsigned n).length ≤ 10 := by
  unfold fmt_unsigned Nat.toDigits
  exact Nat.toDigitsCore_length 10 (by decide) _ n 10 (by omega) (by decide)

/-- `fgets` with the 16-byte buffer takes a whole line that `printf` wrote for a value
below `2 ^ 31`. -/
theorem fgets_fmt_unsigned (n : Nat) (rest : List Char) (h : n < 2 ^ 31) :
    fgets BUFSIZE (fmt_unsigned n ++ '\n' :: rest) = some (fmt_unsigned n ++ ['\n'], rest) := by
  obtain ⟨hdig, -, hne⟩ := fmt_unsigned_spec n
  have hlen := fmt_unsigned_length n h
  unfold fgets BUFSIZE
  have hne2 : fmt_unsigned n ++ '\n' :: rest ≠ [] := by simp
  simp only [hne2, if_false]
  rw [fgets_take_line 15 _ _ (by omega) (fun c hc => (digit_not_special c (hdig c hc)).2.2.2)]

/-- Reading a file of two lines that `printf` wrote for values below `2 ^ 31`. -/
theorem read_flash_two_lines (W : Nat) (fs : FileSys) (path filename file : String)
    (s : State) (d m : Nat) (rest : List Char)
    (hfile : flash_file path filename = some file)
    (hW : 32 ≤ W) (hd : d < 2 ^ 31) (hm : m < 2 ^ 31)
    (hfs : fs file
      = FopenRead.opened (fmt_unsigned d ++ ['\n'] ++ fmt_unsigned m ++ '\n' :: rest)) :
    read_flash W fs path filename s
      = some (0, { s with pulse_count_daily := d, pulse_count_monthly := m }) := by
  have hM := two_pow_32_le_two_pow hW
  have e1 : fmt_unsigned d ++ ['\n'] ++ fmt_unsigned m ++ '\n' :: rest
      = fmt_unsigned d ++ '\n' :: (fmt_unsigned m ++ '\n' :: rest) := by simp
  have a1 : atoi W (fmt_unsigned d ++ ['\n']) = d := atoi_fmt_unsigned W d [] hW hd
  have a2 : atoi W (fmt_unsigned m ++ ['\n']) = m := atoi_fmt_unsigned W m [] hW hm
  simp only [read_flash, hfile, hfs, e1, fgets_fmt_unsigned d _ hd,
    fgets_fmt_unsigned m _ hm, a1, a2, int_to_ulong_of_nat W d (by omega),
    int_to_ulong_of_nat W m (by omega)]

/-! ## Persistence of the counters -/

/-- C11 (code bug): `write_flash` prints the counters with `%lu`, `read_flash` reads them
back with `atoi`, so a counter of `2 ^ 31` or more does not survive: with the daily
counter at 2147483648 both calls return 0 and `read_flash` leaves 18446744071562067968
(unsigned long of 64 bits) or 2147483647 (32 bits) in `pulse_count_daily`; no `int` that
`atoi` could return converts to 2147483648 as a 64-bit `unsigned long`. For counters
below `2 ^ 31` the round trip holds as claimed, whatever the counters are when
`read_flash` is called. -/
theorem flash_round_trip_int_range :
    big_count_state.pulse_count_daily = 2147483648 ∧
    (write_flash write_ok no_files "/media/flash" NV_FILENAME big_count_state).map Prod.fst
      = some 0 ∧
    ((write_flash write_ok no_files "/media/flash" NV_FILENAME big_count_state).bind
        fun w => (read_flash 64 w.2 "/media/flash" NV_FILENAME sample_state).map
          fun r => (r.1, r.2.pulse_count_daily, r.2.pulse_count_monthly))
      = some (0, 18446744071562067968, 0) ∧
    ((write_flash write_ok no_files "/media/flash" NV_FILENAME big_count_state).bind
        fun w => (read_flash 32 w.2 "/media/flash" NV_FILENAME sample_state).map
          fun r => (r.1, r.2.pulse_count_daily, r.2.pulse_count_monthly))
      = some (0, 2147483647, 0) ∧
    (∀ v : Int, -(2 ^ 31) ≤ v → v < 2 ^ 31 → int_to_ulong 64 v ≠ 2147483648) ∧
    (∀ (W : Nat) (fs : FileSys) (path filename file : String) (s s2 : State),
      32 ≤ W → flash_file path filename = some file →
      s.pulse_count_daily < 2 ^ 31 → s.pulse_count_monthly < 2 ^ 31 →
      ∃ fs2, write_flash write_ok fs path filename s = some (0, fs2) ∧
        read_flash W fs2 path filename s2
          = some (0, { s2 with pulse_count_daily := s.pulse_count_daily,
                               pulse_count_monthly := s.pulse_count_monthly })) := by
  refine ⟨rfl, by decide, by decide, by decide, ?_, ?_⟩
  · intro v h1 h2
    unfold int_to_ulong
    omega
  · intro W fs path filename file s s2 hW hfile hd hm
    refine ⟨Function.update fs file
      (FopenRead.opened (fmt_unsigned s.pulse_count_daily ++ ['\n'] ++
        fmt_unsigned s.pulse_count_monthly ++ ['\n'])),
      by simp [write_flash, hfile, write_ok], ?_⟩
    exact read_flash_two_lines W _ path filename file s2 _ _ [] hfile hW hd hm
      (by simp [Function.update])

/-- C12 (amended): `read_flash` returns a negative code exactly when the counters file
cannot be opened for another reason than not existing (-3), or is empty (-1), or is
used up by the first `fgets`, as a single line of at most 15 characters is (-2). A file
that does not exist gives 0 and leaves both counters unchanged. Any longer file gives 0
with the counters set to what `atoi` reads from the first two pieces `fgets` takes: for
two decimal lines of values below `2 ^ 31`, those values; a line that is no decimal
integer is not reported. -/
theorem read_flash_codes (W : Nat) (fs : FileSys) (path filename file : String) (s : State)
    (hfile : flash_file path filename = some file) :
    (fs file = FopenRead.failed 2 → read_flash W fs path filename s = some (0, s)) ∧
    (∀ e, e ≠ 2 → fs file = FopenRead.failed e →
      read_flash W fs path filename s = some (-3, s)) ∧
    (fs file = FopenRead.opened [] → read_flash W fs path filename s = some (-1, s)) ∧
    (∀ content, fs file = FopenRead.opened content → content ≠ [] →
      (fgets_take 15 content).2 = [] →
      read_flash W fs path filename s
        = some (-2,
            { s with
              pulse_count_daily := int_to_ulong W (atoi W (fgets_take 15 content).1) })) ∧
    (∀ content, fs file = FopenRead.opened content → (fgets_take 15 content).2 ≠ [] →
      read_flash W fs path filename s
        = some (0, { s with
            pulse_count_daily := int_to_ulong W (atoi W (fgets_take 15 content).1),
            pulse_count_monthly :=
              int_to_ulong W (atoi W (fgets_take 15 (fgets_take 15 content).2).1) })) ∧
    (∀ line rest, line.length ≤ 14 → (∀ c ∈ line, c ≠ '\n') →
      (fgets_take 15 (line ++ '\n' :: rest)).1 = line ++ ['\n'] ∧
      (fgets_take 15 (line ++ '\n' :: rest)).2 = rest) ∧
    (∀ d m rest, 32 ≤ W → d < 2 ^ 31 → m < 2 ^ 31 →
      fs file = FopenRead.opened
        (fmt_unsigned d ++ ['\n'] ++ fmt_unsigned m ++ '\n' :: rest) →
      read_flash W fs path filename s
        = some (0, { s with pulse_count_daily := d, pulse_count_monthly := m })) ∧
    (∃ r, read_flash W fs path filename s = some r ∧
      (r.1 < 0 ↔
        (∃ e, e ≠ 2 ∧ fs file = FopenRead.failed e) ∨
        (∃ content, fs file = FopenRead.opened content ∧
          (fgets_take 15 content).2 = []))) := by
  have hA : fs file = FopenRead.failed 2 → read_flash W fs path filename s = some (0, s) := by
    intro h
    simp [read_flash, hfile, h]
  have hB : ∀ e, e ≠ 2 → fs file = FopenRead.failed e →
      read_flash W fs path filename s = some (-3, s) := by
    intro e he h
    simp [read_flash, hfile, h, he]
  have hC : fs file = FopenRead.opened [] →
      read_flash W fs path filename s = some (-1, s) := by
    intro h
    simp [read_flash, hfile, h, fgets]
  have hD : ∀ content, fs file = FopenRead.opened content → content ≠ [] →
      (fgets_take 15 content).2 = [] →
      read_flash W fs path filename s
        = some (-2,
            { s with
              pulse_count_daily := int_to_ulong W (atoi W (fgets_take 15 content).1) }) := by
    intro content h hne hrest
    simp [read_flash, hfile, h, fgets, hne, BUFSIZE, hrest]
  have hE : ∀ content, fs file = FopenRead.opened content →
      (fgets_take 15 content).2 ≠ [] →
      read_flash W fs path filename s
        = some (0, { s with
            pulse_count_daily := int_to_ulong W (atoi W (fgets_take 15 content).1),
            pulse_count_monthly :=
              int_to_ulong W (atoi W (fgets_take 15 (fgets_take 15 content).2).1) }) := by
    intro content h hrest
    have hne : content ≠ [] := by
      rintro rfl
      simp [fgets_take] at hrest
    simp [read_flash, hfile, h, fgets, hne, BUFSIZE, hrest]
  refine ⟨hA, hB, hC, hD, hE, ?_, ?_, ?_⟩
  · intro line rest hlen hnl
    rw [fgets_take_line 15 line rest (by omega) hnl]
    exact ⟨rfl, rfl⟩
  · intro d m rest hW hd hm h
    exact read_flash_two_lines W fs path filename file s d m rest hfile hW hd hm h
  · cases h : fs file with
    | failed e =>
      by_cases he : e = 2
      · subst he
        exact ⟨_, hA h, by simp⟩
      · exact ⟨_, hB e he h, by simp [he]⟩
    | opened content =>
      by_cases hrest : (fgets_take 15 content).2 = []
      · by_cases hne : content = []
        · subst hne
          exact ⟨_, hC h, by simp [fgets_take]⟩
        · exact ⟨_, hD content h hne hrest, by simp [hrest]⟩
      · exact ⟨_, hE content h hrest, by simp [hrest]⟩

/-- Witness of C12 (amended): no counters file exists yet. -/
theorem read_flash_codes_witness :
    flash_file "/media/flash" NV_FILENAME = some "/media/flash/emond.dat" ∧
    read_flash 64 no_files "/media/flash" NV_FILENAME counted_state = some (0, counted_state) :=
  ⟨by decide,
   (read_flash_codes 64 no_files "/media/flash" NV_FILENAME "/media/flash/emond.dat"
      counted_state (by decide)).1 (by decide)⟩

/-- C12 (counterexample): a counters file that exists and holds the two lines `abc` and
`def`, neither a decimal integer, is read without error: `read_flash` returns 0 and sets
both counters to 0. -/
theorem malformed_file_not_reported :
    garbled_files "/media/flash/emond.dat"
      = FopenRead.opened ['a', 'b', 'c', '\n', 'd', 'e', 'f', '\n'] ∧
    read_flash 64 garbled_files "/media/flash" NV_FILENAME counted_state
      = some (0, { counted_state with pulse_count_daily := 0, pulse_count_monthly := 0 }) := by
  decide

/-! ## The request of the worker -/

theorem fmt_unsigned_length_uint (n : Nat) (h : n < 2 ^ 32) :
    (fmt_unsigned n).length ≤ 10 := by
  unfold fmt_unsigned Nat.toDigits
  exact Nat.toDigitsCore_length 10 (by decide) _ n 10 (by omega) (by decide)

theorem snprintf_of_short (size : Nat) (out : List Char) (h : out.length ≤ size - 1) :
    snprintf size out = out := by
  unfold snprintf
  exact List.take_of_length_le h

theorem snprintf_length_le (size : Nat) (out : List Char) :
    (snprintf size out).length ≤ size - 1 := by
  unfold snprintf
  simp

/-- A buffer that `snprintf` filled with fewer than `size - 1` characters holds the
whole output. -/
theorem snprintf_of_length_lt (size : Nat) (out : List Char)
    (h : (snprintf size out).length < size - 1) : snprintf size out = out := by
  unfold snprintf at h ⊢
  rw [List.length_take] at h
  exact List.take_of_length_le (by omega)

/-- The pieces of the fields, for values that fit an `unsigned int`: each field of the
specification followed by a comma. -/
theorem json_fields_eq (data : EmonData) (hp : data.inst_power < 2 ^ 32)
    (hd : data.energy_day < 2 ^ 32) (hm : data.energy_month < 2 ^ 32) :
    json_fields data
      = (if data.inst_power ≠ 0 then "power:".data ++ fmt_unsigned data.inst_power ++ [',']
         else []) ++
        (if data.energy_day ≠ 0 then
          "energy_day:".data ++ fmt_unsigned data.energy_day ++ [','] else []) ++
        (if data.energy_month ≠ 0 then
          "energy_month:".data ++ fmt_unsigned data.energy_month ++ [','] else []) := by
  have l1 := fmt_unsigned_length_uint _ hp
  have l2 := fmt_unsigned_length_uint _ hd
  have l3 := fmt_unsigned_length_uint _ hm
  unfold json_fields
  rw [snprintf_of_short 64 ("power:".data ++ fmt_unsigned data.inst_power ++ [','])
      (by simp; omega),
    snprintf_of_short 64 ("energy_day:".data ++ fmt_unsigned data.energy_day ++ [','])
      (by simp; omega),
    snprintf_of_short 64 ("energy_month:".data ++ fmt_unsigned data.energy_month ++ [','])
      (by simp; omega)]

theorem close_object1 (h a : List Char) :
    (h ++ ['\x7b'] ++ (a ++ [','])).dropLast ++ ['\x7d']
      = h ++ (['\x7b'] ++ List.intercalate [','] [a] ++ ['\x7d']) := by
  have e : h ++ ['\x7b'] ++ (a ++ [',']) = (h ++ ['\x7b'] ++ a) ++ [','] := by simp
  rw [e, List.dropLast_concat]
  simp [List.intercalate, List.intersperse, List.flatten]

theorem close_object2 (h a b : List Char) :
    (h ++ ['\x7b'] ++ (a ++ [','] ++ (b ++ [',']))).dropLast ++ ['\x7d']
      = h ++ (['\x7b'] ++ List.intercalate [','] [a, b] ++ ['\x7d']) := by
  have e : h ++ ['\x7b'] ++ (a ++ [','] ++ (b ++ [',']))
      = (h ++ ['\x7b'] ++ a ++ [','] ++ b) ++ [','] := by simp
  rw [e, List.dropLast_concat]
  simp [List.intercalate, List.intersperse, List.flatten]

theorem close_object3 (h a b c : List Char) :
    (h ++ ['\x7b'] ++ (a ++ [','] ++ (b ++ [',']) ++ (c ++ [',']))).dropLast ++ ['\x7d']
      = h ++ (['\x7b'] ++ List.intercalate [','] [a, b, c] ++ ['\x7d']) := by
  have e : h ++ ['\x7b'] ++ (a ++ [','] ++ (b ++ [',']) ++ (c ++ [',']))
      = (h ++ ['\x7b'] ++ a ++ [','] ++ b ++ [','] ++ c) ++ [','] := by simp
  rw [e, List.dropLast_concat]
  simp [List.intercalate, List.intersperse, List.flatten]

/-- With a field that is not zero, deleting the last character of the opened object
deletes the trailing comma, and the object is that of the specification. -/
theorem json_object_eq (data : EmonData) (head : List Char) (hp : data.inst_power < 2 ^ 32)
    (hd : data.energy_day < 2 ^ 32) (hm : data.energy_month < 2 ^ 32)
    (hnz : data.inst_power ≠ 0 ∨ data.energy_day ≠ 0 ∨ data.energy_month ≠ 0) :
    (head ++ ['\x7b'] ++ json_fields data).dropLast ++ ['\x7d'] = head ++ spec_json data := by
  rw [json_fields_eq data hp hd hm]
  unfold spec_json spec_fields
  generalize "power:".data ++ fmt_unsigned data.inst_power = a
  generalize "energy_day:".data ++ fmt_unsigned data.energy_day = b
  generalize "energy_month:".data ++ fmt_unsigned data.energy_month = c
  by_cases h1 : data.inst_power = 0 <;> by_cases h2 : data.energy_day = 0 <;>
    by_cases h3 : data.energy_month = 0 <;>
    simp only [h1, h2, h3, ne_eq, not_true_eq_false, not_false_eq_true, if_true, if_false,
      List.append_nil, List.nil_append, List.singleton_append, List.cons_append]
  · simp [h1, h2, h3] at hnz
  · exact close_object1 head c
  · exact close_object1 head b
  · exact close_object2 head b c
  · exact close_object1 head a
  · exact close_object2 head a c
  · exact close_object2 head a b
  · exact close_object3 head a b c

/-- A run of the worker with an API key: it stops at a buffer overrun, or hands its URL
to curl, handles the response and waits. -/
theorem worker_with_key (W : Nat) (env : WorkerEnv) (data : EmonData) (key : String)
    (hkey : data.api_key = some key) :
    ((emoncms_send_thread W env data).fault = request_overrun key.data (worker_defaults data)) ∧
    ((emoncms_send_thread W env data).fault = false →
      emoncms_send_thread W env data =
        worker_wait W env (worker_response env (worker_defaults data))
          (some (request_url key.data (worker_defaults data)))
          (some (env.curl_rc, env.response))) := by
  simp only [emoncms_send_thread, hkey]
  by_cases hov : request_overrun key.data (worker_defaults data) = true
  · simp [hov]
  · simp only [Bool.not_eq_true] at hov
    simp [hov, worker_wait]

/-- C13 (code bug): for a payload whose three fields are all zero the worker deletes the
opening brace instead of a trailing comma: the query string ends in `json=` followed by
the closing brace alone, where the claim has an empty pair of braces. For a payload with
a field that is not zero (fields within `unsigned int`, no buffer overrun) the request
is the base URI, `/input/post.json` and the query string of the specification: API key,
node number (1 when none is configured), and the non-zero fields in order, separated by
single commas, with no trailing comma. -/
theorem request_query_string :
    (emoncms_send_thread 64 worker_ok sample_data).request
      = some ("http://emoncms.org/input/post.json".data ++
          "?apikey=0123456789abcdef&node=1&json=\x7d".data) ∧
    spec_query "0123456789abcdef".data 1 sample_data
      = "?apikey=0123456789abcdef&node=1&json=\x7b\x7d".data ∧
    (sample_data.inst_power = 0 ∧ sample_data.energy_day = 0 ∧
      sample_data.energy_month = 0) ∧
    (∀ (W : Nat) (env : WorkerEnv) (data : EmonData) (key : String),
      data.api_key = some key →
      data.inst_power < 2 ^ 32 → data.energy_day < 2 ^ 32 → data.energy_month < 2 ^ 32 →
      (data.inst_power ≠ 0 ∨ data.energy_day ≠ 0 ∨ data.energy_month ≠ 0) →
      (emoncms_send_thread W env data).fault = false →
      (emoncms_send_thread W env data).request
        = some ((data.api_base_uri.getD EMONCMS_API_BASE_URI).data ++ ['/'] ++
            EMONCMS_API_INPUT_URI.data ++
            spec_query key.data
              (if data.node_number = 0 then EMONCMS_NODE_NUMBER else data.node_number)
              data)) := by
  refine ⟨by decide, by decide, by decide, ?_⟩
  intro W env data key hkey hp hd hm hnz hfault
  obtain ⟨w1, w2⟩ := worker_with_key W env data key hkey
  rw [w2 hfault]
  rw [hfault] at w1
  have hov := w1.symm
  simp only [request_overrun, Bool.or_eq_false_iff, decide_eq_false_iff_not, not_lt] at hov
  obtain ⟨ho1, ho2⟩ := hov
  have hobj : ∀ head : List Char,
      (head ++ ['\x7b'] ++ json_fields (worker_defaults data)).dropLast ++ ['\x7d']
        = head ++ spec_json data :=
    fun head => json_object_eq (worker_defaults data) head hp hd hm hnz
  simp only [worker_wait, Option.some.injEq]
  simp only [request_url, request_params, params_open] at ho1 ho2 ⊢
  rw [hobj] at ho2 ⊢
  simp only [List.length_append, List.length_singleton] at ho1 ho2
  have hhead : params_head key.data (worker_defaults data).node_number
      = "?apikey=".data ++ key.data ++ "&node=".data ++
          fmt_signed (to_int (worker_defaults data).node_number) ++ "&json=".data := by
    unfold params_head
    apply snprintf_of_length_lt
    unfold params_head at ho1
    omega
  have hsj : 0 < (spec_json data).length := by simp [spec_json]
  have hurl : url_head ((worker_defaults data).api_base_uri.getD EMONCMS_API_BASE_URI).data
      = ((worker_defaults data).api_base_uri.getD EMONCMS_API_BASE_URI).data ++ ['/'] ++
          EMONCMS_API_INPUT_URI.data := by
    unfold url_head
    apply snprintf_of_length_lt
    unfold url_head at ho2
    omega
  rw [hhead, hurl]
  simp [spec_query, worker_defaults]

/-! ## The response and the waiting time of the worker -/

theorem worker_response_fields (env : WorkerEnv) (data : EmonData) :
    (env.curl_rc = 0 ∧ env.response = EMONCMS_API_RESPONSE_OK.data →
      worker_response env data
        = { data with inst_power := 0, energy_day := 0, energy_month := 0 }) ∧
    (¬ (env.curl_rc = 0 ∧ env.response = EMONCMS_API_RESPONSE_OK.data) →
      worker_response env data = data) := by
  constructor
  · rintro ⟨h1, h2⟩
    simp [worker_response, h1, h2, EMONCMS_API_RESPONSE_OK]
  · intro h
    unfold worker_response
    split_ifs with h1 h2 h3
    · exact absurd ⟨h1, h3⟩ h
    · rfl
    · rfl
    · rfl

/-- C14: `emoncms_send_thread` clears `inst_power`, `energy_day` and `energy_month`
when the transport call was made, returned 0 and left exactly `ok` in the response, and
in every other case leaves the three fields as they were: so with a transport error,
with an empty response, and with the responses `ok` plus newline and `OK`. The transport
call is made, with the outcome the environment gives, whenever an API key is
configured and the request fits its buffers, and not at all without API key. -/
theorem response_clears_payload (W : Nat) (env : WorkerEnv) (data : EmonData) :
    ((emoncms_send_thread W env data).transport = some (0, EMONCMS_API_RESPONSE_OK.data) →
      (emoncms_send_thread W env data).data.inst_power = 0 ∧
      (emoncms_send_thread W env data).data.energy_day = 0 ∧
      (emoncms_send_thread W env data).data.energy_month = 0) ∧
    ((emoncms_send_thread W env data).transport ≠ some (0, EMONCMS_API_RESPONSE_OK.data) →
      (emoncms_send_thread W env data).data.inst_power = data.inst_power ∧
      (emoncms_send_thread W env data).data.energy_day = data.energy_day ∧
      (emoncms_send_thread W env data).data.energy_month = data.energy_month) ∧
    (∀ key, data.api_key = some key → (emoncms_send_thread W env data).fault = false →
      (emoncms_send_thread W env data).transport = some (env.curl_rc, env.response)) ∧
    (data.api_key = none → (emoncms_send_thread W env data).transport = none) ∧
    EMONCMS_API_RESPONSE_OK.data = ['o', 'k'] ∧
    (emoncms_send_thread 64 { worker_ok with response := ['o', 'k', '\n'] } pulse_data).data
      = worker_defaults pulse_data ∧
    (emoncms_send_thread 64 { worker_ok with response := ['O', 'K'] } pulse_data).data
      = worker_defaults pulse_data ∧
    (emoncms_send_thread 64 { worker_ok with response := [] } pulse_data).data
      = worker_defaults pulse_data ∧
    (emoncms_send_thread 64 { worker_ok with curl_rc := 28 } pulse_data).data
      = worker_defaults pulse_data ∧
    (emoncms_send_thread 64 worker_ok pulse_data).data
      = { worker_defaults pulse_data with
          inst_power := 0, energy_day := 0, energy_month := 0 } := by
  refine ⟨?_, ?_, ?_, ?_, by decide, by decide, by decide, by decide, by decide, by decide⟩
  · intro ht
    cases hkey : data.api_key with
    | none => simp [emoncms_send_thread, hkey, worker_wait] at ht
    | some key =>
      obtain ⟨w1, w2⟩ := worker_with_key W env data key hkey
      by_cases hf : (emoncms_send_thread W env data).fault = false
      · rw [w2 hf] at ht ⊢
        simp only [worker_wait, Option.some.injEq, Prod.mk.injEq] at ht ⊢
        rw [(worker_response_fields env _).1 ht]
        exact ⟨rfl, rfl, rfl⟩
      · have hov : request_overrun key.data (worker_defaults data) = true := by
          rw [← w1]; simpa using hf
        simp [emoncms_send_thread, hkey, hov] at ht
  · intro ht
    cases hkey : data.api_key with
    | none => simp [emoncms_send_thread, hkey, worker_wait]
    | some key =>
      obtain ⟨w1, w2⟩ := worker_with_key W env data key hkey
      by_cases hf : (emoncms_send_thread W env data).fault = false
      · rw [w2 hf] at ht ⊢
        simp only [worker_wait, ne_eq, Option.some.injEq, Prod.mk.injEq] at ht ⊢
        rw [(worker_response_fields env _).2 ht]
        exact ⟨rfl, rfl, rfl⟩
      · have hov : request_overrun key.data (worker_defaults data) = true := by
          rw [← w1]; simpa using hf
        simp only [emoncms_send_thread, hkey, hov, if_true]
        exact ⟨rfl, rfl, rfl⟩
  · intro key hkey hf
    rw [(worker_with_key W env data key hkey).2 hf]
    rfl
  · intro hkey
    simp [emoncms_send_thread, hkey, worker_wait]

/-- C15: when the worker comes to its end `elapsed` whole seconds after its start, it
sleeps for exactly `api_update_rate - elapsed` seconds if `api_update_rate > elapsed`
and does not sleep otherwise, and then sets `ready_to_send` to 1: the seconds elapsed
and the seconds slept add up to at least `api_update_rate`. -/
theorem worker_sleep (W : Nat) (env : WorkerEnv) (data : EmonData) (elapsed : Nat)
    (hW : 32 ≤ W) (hnow : env.now = env.start + elapsed) (hel : elapsed < 2 ^ 31)
    (hrate : data.api_update_rate < 2 ^ 32)
    (hfault : (emoncms_send_thread W env data).fault = false) :
    (elapsed < data.api_update_rate →
      (emoncms_send_thread W env data).slept = some (data.api_update_rate - elapsed)) ∧
    (data.api_update_rate ≤ elapsed → (emoncms_send_thread W env data).slept = none) ∧
    (emoncms_send_thread W env data).ready_to_send = 1 ∧
    data.api_update_rate ≤ elapsed + ((emoncms_send_thread W env data).slept).getD 0 := by
  have hM := two_pow_32_le_two_pow hW
  have hwait : ∀ (d : EmonData) (r : Option (List Char)) (t : Option (Int × List Char)),
      d.api_update_rate = data.api_update_rate →
      (elapsed < data.api_update_rate →
        (worker_wait W env d r t).slept = some (data.api_update_rate - elapsed)) ∧
      (data.api_update_rate ≤ elapsed → (worker_wait W env d r t).slept = none) ∧
      (worker_wait W env d r t).ready_to_send = 1 := by
    intro d r t hd
    have he : env.now - env.start = (elapsed : Int) := by omega
    have hcmp : (if 32 < W then decide ((d.api_update_rate : Int) > env.now - env.start)
        else decide (to_ulong W d.api_update_rate > int_to_ulong W (env.now - env.start)))
        = decide (elapsed < data.api_update_rate) := by
      rw [he, hd]
      split_ifs
      · simp
      · rw [to_ulong_of_lt (by omega), int_to_ulong_of_nat W elapsed (by omega)]
    simp only [worker_wait, hcmp]
    refine ⟨?_, ?_, trivial⟩
    · intro h
      simp only [h, decide_True, if_true, Option.some.injEq, he, hd]
      unfold int_to_uint
      omega
    · intro h
      have h2 : ¬ elapsed < data.api_update_rate := by omega
      simp [h2]
  have key : (elapsed < data.api_update_rate →
        (emoncms_send_thread W env data).slept = some (data.api_update_rate - elapsed)) ∧
      (data.api_update_rate ≤ elapsed → (emoncms_send_thread W env data).slept = none) ∧
      (emoncms_send_thread W env data).ready_to_send = 1 := by
    cases hkey : data.api_key with
    | none =>
      simp only [emoncms_send_thread, hkey]
      exact hwait data none none rfl
    | some k =>
      rw [(worker_with_key W env data k hkey).2 hfault]
      apply hwait
      unfold worker_response worker_defaults
      split_ifs <;> rfl
  obtain ⟨k1, k2, k3⟩ := key
  refine ⟨k1, k2, k3, ?_⟩
  by_cases h : elapsed < data.api_update_rate
  · rw [k1 h]; simp; omega
  · omega

/-- Witness of C15: an update rate of 30 s and a request that took 3 s. -/
theorem worker_sleep_witness :
    (worker_ok.now = worker_ok.start + (3 : Nat) ∧
      (emoncms_send_thread 64 worker_ok pulse_data).fault = false) ∧
    (emoncms_send_thread 64 worker_ok pulse_data).slept = some (30 - 3) :=
  ⟨by decide,
   (worker_sleep 64 worker_ok pulse_data 3 (by decide) (by decide) (by decide) (by decide)
      (by decide)).1 (by decide)⟩

/-! ## The previous-pulse timestamp -/

theorem gpio_handler_falling_idle (W : Nat) (env : GpioEnv) (s : State)
    (hpin : env.pin = LOW) (hidle : s.pulse_started = 0) :
    gpio_handler W env s =
      { state := { s with pulse_started := 1, pulse_start_ts := env.clock },
        effects := [], fault := false } := by
  simp [gpio_handler, hpin, hidle]

theorem width_valid_pulse_state (W : Nat) (env : GpioEnv) (s : State)
    (hpin : env.pin ≠ LOW) (hstarted : s.pulse_started = 1)
    (hvalid : width_valid W
      (effective_reference s (time_diff_ms W env.clock s.pulse_start_ts))
      (pulse_delta W (effective_reference s (time_diff_ms W env.clock s.pulse_start_ts)))
      (time_diff_ms W env.clock s.pulse_start_ts) = true) :
    (gpio_handler W env s).state.prev_ts = env.clock ∧
    (gpio_handler W env s).state.first = 0 ∧
    (gpio_handler W env s).state.pulse_started = 0 := by
  by_cases hfirst : s.first = 0
  · simp only [effective_reference, hfirst, ne_eq, not_true_eq_false, false_and,
      if_false] at hvalid
    rw [gpio_handler_rising_nonfirst W env s hpin hstarted hfirst]
    simp only [hvalid, if_true]
    split_ifs <;> exact ⟨rfl, hfirst, rfl⟩
  · by_cases hz : s.config.pulse_length = 0
    · simp only [effective_reference, hfirst, hz, ne_eq, not_false_eq_true, and_self,
        if_true] at hvalid
      simp only [gpio_handler, hpin, hstarted, hfirst, hz]
      simp [hvalid, hfirst]
    · simp only [effective_reference, hfirst, hz, ne_eq, not_false_eq_true, and_false,
        if_false] at hvalid
      simp only [gpio_handler, hpin, hstarted, hfirst, hz]
      simp [hvalid, hfirst]

/-- C21: every width-valid pulse leaves its end timestamp in `prev_ts`, whether it is
counted (as first pulse or after the filters), dropped as a glitch or rejected for its
power; the interval of the next pulse is the time from that timestamp to the end of the
next pulse: it decides the glitch filter and enters the power. In the example scenario
a pulse ending 300 ms after the previous one has power 12000, is not counted, and moves
`prev_ts` to its end. -/
theorem width_valid_pulse_prev_ts (W : Nat) (env : GpioEnv) (s : State)
    (hpin : env.pin ≠ LOW) (hstarted : s.pulse_started = 1)
    (hvalid : width_valid W
      (effective_reference s (time_diff_ms W env.clock s.pulse_start_ts))
      (pulse_delta W (effective_reference s (time_diff_ms W env.clock s.pulse_start_ts)))
      (time_diff_ms W env.clock s.pulse_start_ts) = true) :
    (gpio_handler W env s).state.prev_ts = env.clock ∧
    (∀ f r : GpioEnv, f.pin = LOW → r.pin ≠ LOW →
      width_valid W (gpio_handler W env s).state.config.pulse_length
        (pulse_delta W (gpio_handler W env s).state.config.pulse_length)
        (time_diff_ms W r.clock f.clock) = true →
      (gpio_handler W f (gpio_handler W env s).state).state.prev_ts = env.clock ∧
      (time_diff_ms W r.clock env.clock ≤ MIN_PULSE_PERIOD_MS →
        (gpio_handler W r (gpio_handler W f (gpio_handler W env s).state).state).effects
          = []) ∧
      (MIN_PULSE_PERIOD_MS < time_diff_ms W r.clock env.clock →
        (gpio_handler W r (gpio_handler W f (gpio_handler W env s).state).state).effects.head?
          = some
            (if inst_power (gpio_handler W env s).state.config.wh_per_pulse
                  (time_diff_ms W r.clock env.clock)
                < (gpio_handler W env s).state.config.max_power then
              Effect.lcd_print 1
                (inst_power (gpio_handler W env s).state.config.wh_per_pulse
                  (time_diff_ms W r.clock env.clock))
            else
              Effect.syslog (LogMsg.power_out_of_range
                (inst_power (gpio_handler W env s).state.config.wh_per_pulse
                  (time_diff_ms W r.clock env.clock))))) ∧
      (gpio_handler W r (gpio_handler W f (gpio_handler W env s).state).state).state.prev_ts
        = r.clock) ∧
    (time_diff_ms 64 (rising 10 100000000).clock
        (mid_pulse_state 100 0 ⟨9, 800000000⟩).prev_ts = 300 ∧
      inst_power 1 300 = 12000 ∧
      gpio_handler 64 (rising 10 100000000) (mid_pulse_state 100 0 ⟨9, 800000000⟩) =
        { state := { mid_pulse_state 100 0 ⟨9, 800000000⟩ with
                     pulse_started := 0, prev_ts := ⟨10, 100000000⟩ },
          effects := [Effect.syslog (LogMsg.power_out_of_range 12000)],
          fault := false }) := by
  obtain ⟨hp, hf, hs⟩ := width_valid_pulse_state W env s hpin hstarted hvalid
  refine ⟨hp, ?_, by decide, by decide, by decide⟩
  intro f r hlow hhigh hv2
  generalize gpio_handler W env s = o at hp hf hs hv2 ⊢
  have h2 : (gpio_handler W f o.state).state
      = { o.state with pulse_started := 1, pulse_start_ts := f.clock } := by
    rw [gpio_handler_falling_idle W f o.state hlow hs]
  rw [h2, gpio_handler_rising_nonfirst W r
    { o.state with pulse_started := 1, pulse_start_ts := f.clock } hhigh rfl hf]
  simp only [hp, hv2, if_true]
  refine ⟨trivial, ?_, ?_, ?_⟩
  · intro hle
    have : ¬ time_diff_ms W r.clock env.clock > MIN_PULSE_PERIOD_MS := by omega
    simp [this]
  · intro hlt
    simp only [gt_iff_lt, hlt, if_true]
    split_ifs <;> rfl
  · split_ifs <;> rfl

/-- Witness of C21: the pulse of the example, ending 300 ms after the previous one. -/
theorem width_valid_pulse_prev_ts_witness :
    (mid_pulse_state 100 0 ⟨9, 800000000⟩).pulse_started = 1 ∧
    (gpio_handler 64 (rising 10 100000000)
      (mid_pulse_state 100 0 ⟨9, 800000000⟩)).state.prev_ts = ⟨10, 100000000⟩ :=
  ⟨by decide,
   (width_valid_pulse_prev_ts 64 (rising 10 100000000) (mid_pulse_state 100 0 ⟨9, 800000000⟩)
      (by decide) (by decide) (by decide)).1⟩

/-! ## Rejected pulses -/

theorem rejected_pulse_state (W : Nat) (env : GpioEnv) (s : State)
    (hpin : env.pin ≠ LOW) (hstarted : s.pulse_started = 1)
    (hrej : pulse_rejected W env s = true) :
    (gpio_handler W env s).state.pulse_count_daily = s.pulse_count_daily ∧
    (gpio_handler W env s).state.pulse_count_monthly = s.pulse_count_monthly ∧
    (gpio_handler W env s).state.first = s.first ∧
    (gpio_handler W env s).state.emon_data = s.emon_data ∧
    (gpio_handler W env s).state.ready_to_send = s.ready_to_send ∧
    (gpio_handler W env s).state.config
      = { s.config with
          pulse_length :=
            effective_reference s (time_diff_ms W env.clock s.pulse_start_ts) } ∧
    send_calls (gpio_handler W env s).effects = 0 := by
  by_cases hfirst : s.first = 0
  · simp only [pulse_rejected, effective_reference, hfirst, ne_eq, not_true_eq_false,
      false_and, if_false, decide_True, Bool.true_and, Bool.or_eq_true, Bool.not_eq_true',
      decide_eq_true_eq] at hrej
    simp only [effective_reference, hfirst, ne_eq, not_true_eq_false, false_and, if_false]
    rw [gpio_handler_rising_nonfirst W env s hpin hstarted hfirst]
    rcases hrej with hv | hg | hp
    · simp [hv, hfirst, send_calls, Effect.is_emoncms_send]
    · have hg2 : ¬ time_diff_ms W env.clock s.prev_ts > MIN_PULSE_PERIOD_MS := by omega
      simp only [hg2, if_false]
      split_ifs <;> simp [hfirst, send_calls, Effect.is_emoncms_send]
    · have hp2 : ¬ inst_power s.config.wh_per_pulse (time_diff_ms W env.clock s.prev_ts)
          < s.config.max_power := by omega
      simp only [hp2, if_false]
      split_ifs <;> simp [hfirst, send_calls, Effect.is_emoncms_send]
  · by_cases hz : s.config.pulse_length = 0
    · simp only [pulse_rejected, effective_reference, hfirst, hz, ne_eq, not_false_eq_true,
        and_self, if_true, decide_False, Bool.false_and, Bool.or_false,
        Bool.not_eq_true'] at hrej
      simp only [effective_reference, hfirst, hz, ne_eq, not_false_eq_true, and_self,
        if_true]
      simp only [gpio_handler, hpin, hstarted, hfirst, hz]
      simp [hrej, hfirst, send_calls, Effect.is_emoncms_send]
    · simp only [pulse_rejected, effective_reference, hfirst, hz, ne_eq, not_false_eq_true,
        and_false, if_false, decide_False, Bool.false_and, Bool.or_false,
        Bool.not_eq_true'] at hrej
      simp only [effective_reference, hfirst, hz, ne_eq, not_false_eq_true, and_false,
        if_false]
      simp only [gpio_handler, hpin, hstarted, hfirst, hz]
      simp [hrej, hfirst, send_calls, Effect.is_emoncms_send]

/-- C22 (code bug): a rejected pulse leaves both counters, `first`, the report payload
and `ready_to_send` as they were and calls `emoncms_send` not at all; it leaves the
reference width `config.pulse_length` as it was whenever a reference is configured or
the pulse is not the first (with reference 100 ms a pulse of 80 ms is rejected and
changes nothing but `pulse_started`). But with no reference configured, a first pulse of
10 ms is rejected by the width check after its width has been stored as the reference:
`config.pulse_length` is 0 before the event and 10 after it. -/
theorem rejected_pulse_frame :
    (∀ (W : Nat) (env : GpioEnv) (s : State), env.pin ≠ LOW → s.pulse_started = 1 →
      pulse_rejected W env s = true →
      (gpio_handler W env s).state.pulse_count_daily = s.pulse_count_daily ∧
      (gpio_handler W env s).state.pulse_count_monthly = s.pulse_count_monthly ∧
      (gpio_handler W env s).state.first = s.first ∧
      (gpio_handler W env s).state.emon_data = s.emon_data ∧
      (gpio_handler W env s).state.ready_to_send = s.ready_to_send ∧
      send_calls (gpio_handler W env s).effects = 0 ∧
      ((s.first = 0 ∨ s.config.pulse_length ≠ 0) →
        (gpio_handler W env s).state.config = s.config)) ∧
    (pulse_rejected 64 (rising 10 80000000) (mid_pulse_state 100 0 ⟨5, 0⟩) = true ∧
      gpio_handler 64 (rising 10 80000000) (mid_pulse_state 100 0 ⟨5, 0⟩) =
        { state := { mid_pulse_state 100 0 ⟨5, 0⟩ with pulse_started := 0 },
          effects := [Effect.syslog (LogMsg.invalid_pulse 80)],
          fault := false }) ∧
    (autolearn_state.config.pulse_length = 0 ∧
      pulse_rejected 64 (rising 10 10000000)
        (gpio_handler 64 (falling 10 0) autolearn_state).state = true ∧
      (gpio_handler 64 (rising 10 10000000)
        (gpio_handler 64 (falling 10 0) autolearn_state).state).effects
        = [Effect.syslog (LogMsg.using_reference 10),
           Effect.syslog (LogMsg.invalid_pulse 10)] ∧
      (gpio_handler 64 (rising 10 10000000)
        (gpio_handler 64 (falling 10 0) autolearn_state).state).state.config.pulse_length
        = 10) := by
  refine ⟨?_, ⟨by decide, by decide⟩, by decide, by decide, by decide, by decide⟩
  intro W env s hpin hstarted hrej
  obtain ⟨h1, h2, h3, h4, h5, h6, h7⟩ := rejected_pulse_state W env s hpin hstarted hrej
  refine ⟨h1, h2, h3, h4, h5, h7, ?_⟩
  intro hcfg
  rw [h6]
  have : effective_reference s (time_diff_ms W env.clock s.pulse_start_ts)
      = s.config.pulse_length := by
    unfold effective_reference
    rcases hcfg with h | h
    · simp [h]
    · simp [h]
  rw [this]

/-! ## The time difference -/

theorem ulong_ms_cast (W : Nat) (a b : Int) :
    ((ulong_add W (ulong_mul W (int_to_ulong W a) 1000) (int_to_ulong W b) : Nat) : Int)
      = (a * 1000 + b) % 2 ^ W := by
  have hM : (0 : Int) < 2 ^ W := by positivity
  unfold ulong_add ulong_mul int_to_ulong
  push_cast
  rw [Int.toNat_of_nonneg (Int.emod_nonneg _ hM.ne'),
    Int.toNat_of_nonneg (Int.emod_nonneg _ hM.ne')]
  exact (((Int.mod_modEq _ _).trans ((Int.mod_modEq a _).mul_right 1000)).add
    (Int.mod_modEq b _))

theorem time_diff_ms_self (W : Nat) (t : Timespec) : time_diff_ms W t t = 0 := by
  have h : ((time_diff_ms W t t : Nat) : Int) = 0 := by
    simp only [time_diff_ms, gt_iff_lt, lt_self_iff_false, if_false]
    rw [ulong_ms_cast]
    have e : (1000000000 - t.tv_nsec + t.tv_nsec).tdiv 1000000 = 1000 := by
      have : 1000000000 - t.tv_nsec + t.tv_nsec = 1000000000 := by omega
      rw [this]
      decide
    rw [e]
    have : (t.tv_sec - t.tv_sec - 1) * 1000 + 1000 = 0 := by omega
    rw [this]
    simp
  exact_mod_cast h

/-- C23: for timestamps `prev_ts` not later than `now_ts`, with nanosecond fields in
`[0, 10^9)` and a difference in milliseconds that an `unsigned long` holds (below
`2 ^ W`), `time_diff_ms` returns the floor of
`((now.sec - prev.sec) * 10^9 + now.nsec - prev.nsec) / 10^6`, in the zero-crossing
branch `now.nsec <= prev.nsec` as in the other; and `time_diff_ms (t, t) = 0` for every
timestamp. -/
theorem time_diff_ms_floor (W : Nat) (now_ts prev_ts : Timespec)
    (hn0 : 0 ≤ now_ts.tv_nsec) (hn1 : now_ts.tv_nsec < 1000000000)
    (hp0 : 0 ≤ prev_ts.tv_nsec) (hp1 : prev_ts.tv_nsec < 1000000000)
    (hle : prev_ts.tv_sec < now_ts.tv_sec ∨
      (prev_ts.tv_sec = now_ts.tv_sec ∧ prev_ts.tv_nsec ≤ now_ts.tv_nsec))
    (hlim : ((now_ts.tv_sec - prev_ts.tv_sec) * 1000000000
        + now_ts.tv_nsec - prev_ts.tv_nsec) / 1000000 < 2 ^ W) :
    (time_diff_ms W now_ts prev_ts : Int)
      = ((now_ts.tv_sec - prev_ts.tv_sec) * 1000000000
          + now_ts.tv_nsec - prev_ts.tv_nsec) / 1000000 ∧
    (time_diff_ms W now_ts prev_ts : Int)
      = ⌊((((now_ts.tv_sec - prev_ts.tv_sec) * 1000000000
          + now_ts.tv_nsec - prev_ts.tv_nsec : Int) : ℚ) / ((1000000 : ℕ) : ℚ))⌋ ∧
    (∀ t : Timespec, time_diff_ms W t t = 0) := by
  have key : (time_diff_ms W now_ts prev_ts : Int)
      = ((now_ts.tv_sec - prev_ts.tv_sec) * 1000000000
          + now_ts.tv_nsec - prev_ts.tv_nsec) / 1000000 := by
    have hnn : 0 ≤ ((now_ts.tv_sec - prev_ts.tv_sec) * 1000000000
          + now_ts.tv_nsec - prev_ts.tv_nsec) / 1000000 := by omega
    unfold time_diff_ms
    split_ifs with hgt
    · rw [ulong_ms_cast, Int.tdiv_eq_ediv (by omega) (by decide)]
      have e : (now_ts.tv_sec - prev_ts.tv_sec) * 1000
            + (now_ts.tv_nsec - prev_ts.tv_nsec) / 1000000
          = ((now_ts.tv_sec - prev_ts.tv_sec) * 1000000000
            + now_ts.tv_nsec - prev_ts.tv_nsec) / 1000000 := by omega
      rw [e]
      exact Int.emod_eq_of_lt hnn hlim
    · rw [ulong_ms_cast, Int.tdiv_eq_ediv (by omega) (by decide)]
      have e : (now_ts.tv_sec - prev_ts.tv_sec - 1) * 1000
            + (1000000000 - prev_ts.tv_nsec + now_ts.tv_nsec) / 1000000
          = ((now_ts.tv_sec - prev_ts.tv_sec) * 1000000000
            + now_ts.tv_nsec - prev_ts.tv_nsec) / 1000000 := by omega
      rw [e]
      exact Int.emod_eq_of_lt hnn hlim
  refine ⟨key, ?_, time_diff_ms_self W⟩
  rw [key, Rat.floor_intCast_div_natCast]
  rfl

/-- Witness of C23: a zero crossing, from 10.9 s to 11.1 s. -/
theorem time_diff_ms_floor_witness :
    ((⟨11, 100000000⟩ : Timespec).tv_nsec ≤ (⟨10, 900000000⟩ : Timespec).tv_nsec) ∧
    (time_diff_ms 64 ⟨11, 100000000⟩ ⟨10, 900000000⟩ : Int) = 200 :=
  ⟨by decide,
   ((time_diff_ms_floor 64 ⟨11, 100000000⟩ ⟨10, 900000000⟩
      (by decide) (by decide) (by decide) (by decide) (Or.inl (by decide))
      (by decide)).1).trans (by decide)⟩

/-! ## The hourly save without a storage directory -/

/-- C24 (code bug): with `config.flash_dir` absent (`NULL`), a timer tick that re-arms
the timer in minute zero of an hour with `save_done` clear reaches
`strlen (config.flash_dir)` and stops at the null pointer: `write_flash` is not
called, but `save_done` is not set and the handler does not complete. At 01:00 the
state is left as it was and the run of the process ends at that tick. When the directory
is the empty string instead, the tick does what the claim says: no `write_flash`,
`save_done` set, normal completion. -/
theorem null_flash_dir_tick :
    (∀ (env : TimerEnv) (s : State), 0 ≤ env.setitimer_rc →
      env.full_hour_tm.tm_min = 0 → s.save_done = 0 → s.config.flash_dir = none →
      (timer_handler env s).fault = true ∧
      (timer_handler env s).state.save_done = 0 ∧
      write_flash_calls (timer_handler env s).effects = 0) ∧
    (no_dir_state.config.flash_dir = none ∧
      timer_handler (tick_at 1 0 15) no_dir_state
        = { state := no_dir_state, effects := [], fault := true } ∧
      run 64 (Event.tick (tick_at 1 0 15) :: full_hour_rest) no_dir_state
        = { state := no_dir_state, effects := [], fault := true }) ∧
    timer_handler (tick_at 1 0 15) empty_dir_state
      = { state := { empty_dir_state with save_done := 1 }, effects := [],
          fault := false } := by
  refine ⟨?_, ⟨by decide, by decide, by decide⟩, by decide⟩
  intro env s hrc hmin hsave hdir
  have hrc2 : ¬ env.setitimer_rc < 0 := by omega
  obtain ⟨h1, h2, h3⟩ := midnight_block_save_fields env s
  simp only [timer_handler, hrc2, if_false, is_full_hour, hmin, h1, hsave, h2, hdir]
  simp [h1, hsave, h3]

/-! ## A worker that cannot be started -/

theorem dispatch_run_append (a b : List DispatchEvent) (d : Dispatcher) :
    dispatch_run (a ++ b) d =
      ((dispatch_run b (dispatch_run a d).1).1,
       (dispatch_run a d).2 ++ (dispatch_run b (dispatch_run a d).1).2) := by
  induction a generalizing d with
  | nil => simp [dispatch_run]
  | cons ev a ih => simp [dispatch_run, ih, List.append_assoc]

/-- As long as `ready_to_send` is not 0 no worker runs, and never more than one does. -/
theorem dispatch_run_workers (evs : List DispatchEvent) (d : Dispatcher)
    (h1 : d.workers ≤ 1) (h2 : d.ready_to_send ≠ 0 → d.workers = 0) :
    (dispatch_run evs d).1.workers ≤ 1 ∧
    ((dispatch_run evs d).1.ready_to_send ≠ 0 → (dispatch_run evs d).1.workers = 0) := by
  induction evs generalizing d with
  | nil => exact ⟨h1, h2⟩
  | cons ev evs ih =>
    simp only [dispatch_run]
    apply ih
    · cases ev with
      | send rc =>
        simp only [dispatch_step, emoncms_send]
        split_ifs <;> simp_all
      | worker_end =>
        simp only [dispatch_step]
        split_ifs <;> simp <;> omega
    · cases ev with
      | send rc =>
        simp only [dispatch_step, emoncms_send]
        split_ifs <;> simp_all
      | worker_end =>
        simp only [dispatch_step]
        split_ifs <;> simp <;> omega

/-- With `ready_to_send` at 0 and no worker running, nothing changes any more and every
call returns -2. -/
theorem dispatch_run_stuck (evs : List DispatchEvent) (d : Dispatcher)
    (h1 : d.ready_to_send = 0) (h2 : d.workers = 0) :
    (dispatch_run evs d).1 = d ∧
    ∀ r ∈ (dispatch_run evs d).2, r.rc = -2 ∧ r.thread_started = false := by
  induction evs with
  | nil => simp [dispatch_run]
  | cons ev evs ih =>
    have hs : (dispatch_step ev d).1 = d ∧
        ∀ r ∈ (dispatch_step ev d).2, r.rc = -2 ∧ r.thread_started = false := by
      cases ev with
      | send rc =>
        cases d
        simp_all [dispatch_step, emoncms_send]
      | worker_end => simp [dispatch_step, h2]
    simp only [dispatch_run, hs.1]
    refine ⟨ih.1, ?_⟩
    intro r hr
    rcases List.mem_append.mp hr with h | h
    · exact hs.2 r h
    · exact ih.2 r h

/-- C25: whatever came before, a call of `emoncms_send` that finds `ready_to_send` set
and whose `pthread_create` fails returns -1 and leaves `ready_to_send` at 0 with no
worker running; from then on, whatever is called and however long one waits,
`ready_to_send` stays 0, every call of `emoncms_send` returns -2 and none starts a
thread. -/
theorem failed_start_blocks_dispatch (pre post : List DispatchEvent) (rc : Int)
    (hrc : rc ≠ 0)
    (hready : (dispatch_run pre dispatcher_start).1.ready_to_send ≠ 0) :
    emoncms_send rc (dispatch_run pre dispatcher_start).1.ready_to_send
      = { rc := -1, ready_to_send := 0, thread_started := false } ∧
    (dispatch_run (pre ++ [DispatchEvent.send rc]) dispatcher_start).1
      = { ready_to_send := 0, workers := 0 } ∧
    (dispatch_run (pre ++ DispatchEvent.send rc :: post) dispatcher_start).1.ready_to_send
      = 0 ∧
    (dispatch_run (pre ++ DispatchEvent.send rc :: post) dispatcher_start).2
      = (dispatch_run pre dispatcher_start).2 ++
          { rc := -1, ready_to_send := 0, thread_started := false } ::
            (dispatch_run post { ready_to_send := 0, workers := 0 }).2 ∧
    (∀ r ∈ (dispatch_run post { ready_to_send := 0, workers := 0 }).2,
      r.rc = -2 ∧ r.thread_started = false) := by
  obtain ⟨-, hw⟩ := dispatch_run_workers pre dispatcher_start (by decide) (by decide)
  have hw0 := hw hready
  have hsend : emoncms_send rc (dispatch_run pre dispatcher_start).1.ready_to_send
      = { rc := -1, ready_to_send := 0, thread_started := false } := by
    simp [emoncms_send, hready, hrc]
  have hstep : (dispatch_step (DispatchEvent.send rc) (dispatch_run pre dispatcher_start).1)
      = ({ ready_to_send := 0, workers := 0 },
         [{ rc := -1, ready_to_send := 0, thread_started := false }]) := by
    simp [dispatch_step, hsend, hw0]
  obtain ⟨hs1, hs2⟩ := dispatch_run_stuck post { ready_to_send := 0, workers := 0 } rfl rfl
  refine ⟨hsend, ?_, ?_, ?_, hs2⟩
  · rw [dispatch_run_append]
    simp [dispatch_run, hstep]
  · rw [dispatch_run_append]
    simp [dispatch_run, hstep, hs1]
  · rw [dispatch_run_append]
    simp [dispatch_run, hstep]

/-- Witness of C25: a report is sent and its worker ends; the next start fails with
`EAGAIN` (11); later calls are refused although no worker is running. -/
theorem failed_start_blocks_dispatch_witness :
    (dispatch_run [DispatchEvent.send 0, DispatchEvent.worker_end]
      dispatcher_start).1.ready_to_send ≠ 0 ∧
    (dispatch_run
      ([DispatchEvent.send 0, DispatchEvent.worker_end] ++
        DispatchEvent.send 11 ::
          [DispatchEvent.worker_end, DispatchEvent.send 0, DispatchEvent.send 0])
      dispatcher_start).1.ready_to_send = 0 :=
  ⟨by decide,
   (failed_start_blocks_dispatch [DispatchEvent.send 0, DispatchEvent.worker_end]
      [DispatchEvent.worker_end, DispatchEvent.send 0, DispatchEvent.send 0] 11
      (by decide) (by decide)).2.2.1⟩

/-! ## A counters file that ends early -/

theorem fgets_take_all (k : Nat) (cs : List Char) (hk : cs.length ≤ k)
    (hnl : ∀ c ∈ cs, c ≠ '\n') : fgets_take k cs = (cs, []) := by
  induction cs generalizing k with
  | nil => cases k <;> simp [fgets_take]
  | cons c cs ih =>
    cases k with
    | zero => simp at hk
    | succ k =>
      have hc : c ≠ '\n' := hnl c (by simp)
      have hi := ih k (by simpa using hk) (fun x hx => hnl x (by simp [hx]))
      simp only [fgets_take, hc, if_false, hi]

theorem read_flash_used_up (W : Nat) (fs : FileSys) (path filename file : String)
    (s : State) (content : List Char) (hfile : flash_file path filename = some file)
    (hfs : fs file = FopenRead.opened content) (hne : content ≠ [])
    (htake : fgets_take 15 content = (content, [])) :
    read_flash W fs path filename s
      = some (-2, { s with pulse_count_daily := int_to_ulong W (atoi W content) }) := by
  simp [read_flash, hfile, hfs, fgets, hne, BUFSIZE, htake]

/-- C26 (amended): `read_flash` is not atomic on error. When the counters file is
exactly one line of at most 15 characters, its newline included if it has one, it
returns -2 with `pulse_count_daily` already set to what `atoi` reads from that line (the
number itself for a decimal line of a value below `2 ^ 31`) and `pulse_count_monthly`
as it was; when the file is empty it returns -1 with both counters as they were. -/
theorem read_flash_not_atomic (W : Nat) (fs : FileSys) (path filename file : String)
    (s : State) (hfile : flash_file path filename = some file) :
    (∀ line, line.length ≤ 14 → (∀ c ∈ line, c ≠ '\n') →
      fs file = FopenRead.opened (line ++ ['\n']) →
      read_flash W fs path filename s
        = some (-2,
            { s with pulse_count_daily := int_to_ulong W (atoi W (line ++ ['\n'])) })) ∧
    (∀ line, line ≠ [] → line.length ≤ 15 → (∀ c ∈ line, c ≠ '\n') →
      fs file = FopenRead.opened line →
      read_flash W fs path filename s
        = some (-2, { s with pulse_count_daily := int_to_ulong W (atoi W line) })) ∧
    (∀ d, 32 ≤ W → d < 2 ^ 31 →
      fs file = FopenRead.opened (fmt_unsigned d ++ ['\n']) →
      read_flash W fs path filename s = some (-2, { s with pulse_count_daily := d })) ∧
    (fs file = FopenRead.opened [] → read_flash W fs path filename s = some (-1, s)) := by
  refine ⟨?_, ?_, ?_, ?_⟩
  · intro line hlen hnl hfs
    apply read_flash_used_up W fs path filename file s _ hfile hfs (by simp)
    have := fgets_take_line 15 line [] (by omega) hnl
    simpa using this
  · intro line hne hlen hnl hfs
    exact read_flash_used_up W fs path filename file s _ hfile hfs hne
      (fgets_take_all 15 line hlen hnl)
  · intro d hW hd hfs
    obtain ⟨hdig, -, -⟩ := fmt_unsigned_spec d
    have hlen := fmt_unsigned_length d hd
    have hM := two_pow_32_le_two_pow hW
    have htake := fgets_take_line 15 (fmt_unsigned d) [] (by omega)
      (fun c hc => (digit_not_special c (hdig c hc)).2.2.2)
    rw [read_flash_used_up W fs path filename file s _ hfile hfs (by simp)
      (by simpa using htake)]
    rw [atoi_fmt_unsigned W d [] hW hd, int_to_ulong_of_nat W d (by omega)]
  · intro hfs
    simp [read_flash, hfile, hfs, fgets]

/-- Witness of C26 (amended): the file holds the single line `7`; the daily counter
becomes 7, the monthly counter stays at 40. -/
theorem read_flash_not_atomic_witness :
    flash_file "/media/flash" NV_FILENAME = some "/media/flash/emond.dat" ∧
    read_flash 64 one_line_files "/media/flash" NV_FILENAME counted_state
      = some (-2, { counted_state with pulse_count_daily := 7 }) :=
  ⟨by decide,
   (read_flash_not_atomic 64 one_line_files "/media/flash" NV_FILENAME
      "/media/flash/emond.dat" counted_state (by decide)).2.2.1 7 (by decide) (by decide)
      (by decide)⟩

/-- C26 (counterexample): a counters file of exactly one line, `000000000000042`, is
read without error: the first `fgets` takes the fifteen digits, the second takes the
newline that is left, so `read_flash` returns 0 and sets the monthly counter, 40 before,
to 0. Such a file comes about when `write_flash` saves a daily counter of `10 ^ 14` and
its second `fprintf` fails. -/
theorem one_long_line_not_reported :
    long_line_files "/media/flash/emond.dat"
      = FopenRead.opened ("000000000000042".data ++ ['\n']) ∧
    '\n' ∉ "000000000000042".data ∧
    counted_state.pulse_count_monthly = 40 ∧
    read_flash 64 long_line_files "/media/flash" NV_FILENAME counted_state
      = some (0, { counted_state with pulse_count_daily := 42, pulse_count_monthly := 0 }) ∧
    ((write_flash write_daily_only no_files "/media/flash" NV_FILENAME huge_count_state).map
        fun w => (w.1, w.2 "/media/flash/emond.dat"))
      = some (-2, FopenRead.opened ("100000000000000".data ++ ['\n'])) ∧
    ((write_flash write_daily_only no_files "/media/flash" NV_FILENAME huge_count_state).bind
        fun w => (read_flash 64 w.2 "/media/flash" NV_FILENAME counted_state).map
          fun r => (r.1, r.2.pulse_count_monthly))
      = some (0, 0) := by
  refine ⟨by decide, by decide, by decide, by decide, by decide, by decide⟩

/-! ## The daily counter never exceeds the monthly counter -/

theorem gpio_handler_counters (W : Nat) (env : GpioEnv) (s : State) :
    ((gpio_handler W env s).state.pulse_count_daily = s.pulse_count_daily ∧
      (gpio_handler W env s).state.pulse_count_monthly = s.pulse_count_monthly) ∨
    ((gpio_handler W env s).state.pulse_count_daily = (s.pulse_count_daily + 1) % 2 ^ W ∧
      (gpio_handler W env s).state.pulse_count_monthly
        = (s.pulse_count_monthly + 1) % 2 ^ W) := by
  simp only [gpio_handler]
  split_ifs <;> simp [ulong_add]

theorem timer_handler_counters (env : TimerEnv) (s : State) :
    ((timer_handler env s).state.pulse_count_daily = s.pulse_count_daily ∧
      (timer_handler env s).state.pulse_count_monthly = s.pulse_count_monthly) ∨
    ((timer_handler env s).state.pulse_count_daily = 0 ∧
      ((timer_handler env s).state.pulse_count_monthly = s.pulse_count_monthly ∨
        (timer_handler env s).state.pulse_count_monthly = 0)) := by
  by_cases hrc : env.setitimer_rc < 0
  · simp [timer_handler, hrc]
  · obtain ⟨h1, h2, -⟩ := timer_handler_of_midnight_block env s (by omega)
    rw [h1, h2]
    simp only [midnight_block]
    split_ifs <;> simp

/-- An edge event that wraps no counter keeps the daily counter at or below the monthly
one, and both below `2 ^ W`. -/
theorem edge_keeps_order (W : Nat) (env : GpioEnv) (s : State)
    (hle : s.pulse_count_daily ≤ s.pulse_count_monthly)
    (hm : s.pulse_count_monthly < 2 ^ W) (hnw : edge_wraps W env s = false) :
    (gpio_handler W env s).state.pulse_count_daily
      ≤ (gpio_handler W env s).state.pulse_count_monthly ∧
    (gpio_handler W env s).state.pulse_count_monthly < 2 ^ W := by
  simp only [edge_wraps, Bool.or_eq_false_iff, decide_eq_false_iff_not, not_lt] at hnw
  obtain ⟨hd1, hm1⟩ := hnw
  rcases gpio_handler_counters W env s with ⟨h1, h2⟩ | ⟨h1, h2⟩
  · rw [h1, h2]
    exact ⟨hle, hm⟩
  · rw [h2] at hm1
    rw [h1, h2]
    have hpos : 0 < 2 ^ W := Nat.pos_pow_of_pos W (by decide)
    refine ⟨?_, Nat.mod_lt _ hpos⟩
    by_cases hlt : s.pulse_count_monthly + 1 < 2 ^ W
    · rw [Nat.mod_eq_of_lt hlt, Nat.mod_eq_of_lt (by omega)]
      omega
    · have heq : s.pulse_count_monthly + 1 = 2 ^ W := by omega
      rw [heq, Nat.mod_self] at hm1
      have hm0 : s.pulse_count_monthly = 0 := by omega
      have hd0 : s.pulse_count_daily = 0 := by omega
      rw [hm0, hd0]

theorem tick_keeps_order (W : Nat) (env : TimerEnv) (s : State)
    (hle : s.pulse_count_daily ≤ s.pulse_count_monthly)
    (hm : s.pulse_count_monthly < 2 ^ W) :
    (timer_handler env s).state.pulse_count_daily
      ≤ (timer_handler env s).state.pulse_count_monthly ∧
    (timer_handler env s).state.pulse_count_monthly < 2 ^ W := by
  rcases timer_handler_counters env s with ⟨h1, h2⟩ | ⟨h1, h2 | h2⟩ <;>
    rw [h1, h2] <;> omega

theorem run_tick_cons (W : Nat) (env : TimerEnv) (evs : List Event) (s : State) :
    run W (Event.tick env :: evs) s =
      if (timer_handler env s).fault then timer_handler env s
      else
        { state := (run W evs (timer_handler env s).state).state,
          effects := (timer_handler env s).effects
            ++ (run W evs (timer_handler env s).state).effects,
          fault := (run W evs (timer_handler env s).state).fault } := rfl

theorem run_keeps_order (W : Nat) (evs : List Event) (s : State)
    (hle : s.pulse_count_daily ≤ s.pulse_count_monthly)
    (hm : s.pulse_count_monthly < 2 ^ W) (hnw : no_wrap W evs s = true) :
    (run W evs s).state.pulse_count_daily ≤ (run W evs s).state.pulse_count_monthly := by
  induction evs generalizing s with
  | nil => exact hle
  | cons ev evs ih =>
    cases ev with
    | edge env =>
      simp only [no_wrap, Bool.and_eq_true, Bool.not_eq_true'] at hnw
      obtain ⟨h1, h2⟩ := edge_keeps_order W env s hle hm hnw.1
      rw [run_edge_cons]
      exact ih _ h1 h2 hnw.2
    | tick env =>
      obtain ⟨h1, h2⟩ := tick_keeps_order W env s hle hm
      rw [run_tick_cons]
      by_cases hf : (timer_handler env s).fault = true
      · simp only [hf, if_true]
        exact h1
      · simp only [no_wrap, hf, Bool.false_or, Bool.or_eq_true, false_or] at hnw
        simp only [hf, if_false, Bool.false_eq_true]
        exact ih _ h1 h2 hnw

/-- A run of fewer events than the counters have room for wraps no counter. -/
theorem short_run_no_wrap (W : Nat) (evs : List Event) (s : State) (k : Nat)
    (hd : s.pulse_count_daily ≤ k) (hm : s.pulse_count_monthly ≤ k)
    (hk : k + evs.length < 2 ^ W) : no_wrap W evs s = true := by
  induction evs generalizing s k with
  | nil => rfl
  | cons ev evs ih =>
    simp only [List.length_cons] at hk
    cases ev with
    | edge env =>
      simp only [no_wrap, Bool.and_eq_true, Bool.not_eq_true', edge_wraps,
        Bool.or_eq_false_iff, decide_eq_false_iff_not, not_lt]
      rcases gpio_handler_counters W env s with ⟨h1, h2⟩ | ⟨h1, h2⟩
      · rw [h1, h2]
        exact ⟨⟨le_refl _, le_refl _⟩, ih _ (k + 1) (by omega) (by omega) (by omega)⟩
      · rw [Nat.mod_eq_of_lt (by omega)] at h1 h2
        rw [h1, h2]
        exact ⟨⟨by omega, by omega⟩, ih _ (k + 1) (by omega) (by omega) (by omega)⟩
    | tick env =>
      simp only [no_wrap, Bool.or_eq_true]
      right
      rcases timer_handler_counters env s with ⟨h1, h2⟩ | ⟨h1, h2 | h2⟩ <;>
        exact ih _ (k + 1) (by omega) (by omega) (by omega)

/-- C27: starting with both counters at zero, after every finite sequence of edge
events and timer ticks in which no counter wraps around, `pulse_count_daily` is at most
`pulse_count_monthly`; and no counter wraps around in a sequence of fewer than `2 ^ W`
events. -/
theorem daily_le_monthly (W : Nat) (evs : List Event) (s : State)
    (hd : s.pulse_count_daily = 0) (hm : s.pulse_count_monthly = 0) :
    (no_wrap W evs s = true →
      (run W evs s).state.pulse_count_daily ≤ (run W evs s).state.pulse_count_monthly) ∧
    (evs.length < 2 ^ W → no_wrap W evs s = true) ∧
    (evs.length < 2 ^ W →
      (run W evs s).state.pulse_count_daily ≤ (run W evs s).state.pulse_count_monthly) := by
  have hpos : 0 < 2 ^ W := Nat.pos_pow_of_pos W (by decide)
  have h1 : no_wrap W evs s = true →
      (run W evs s).state.pulse_count_daily ≤ (run W evs s).state.pulse_count_monthly :=
    run_keeps_order W evs s (by omega) (by omega)
  have h2 : evs.length < 2 ^ W → no_wrap W evs s = true := fun h =>
    short_run_no_wrap W evs s 0 (by omega) (by omega) (by omega)
  exact ⟨h1, h2, fun h => h1 (h2 h)⟩

/-- Witness of C27: from start-up, two pulses and then the first tick of a first of the
month; the counters go from 0, 0 to 2, 2 and back to 0, 0. -/
theorem daily_le_monthly_witness :
    (sample_state.pulse_count_daily = 0 ∧ sample_state.pulse_count_monthly = 0 ∧
      (pulse_events two_pulses ++ [Event.tick (tick_at 0 0 1)]).length < 2 ^ 64) ∧
    (run 64 (pulse_events two_pulses ++ [Event.tick (tick_at 0 0 1)])
        sample_state).state.pulse_count_daily
      ≤ (run 64 (pulse_events two_pulses ++ [Event.tick (tick_at 0 0 1)])
        sample_state).state.pulse_count_monthly :=
  ⟨by decide,
   (daily_le_monthly 64 (pulse_events two_pulses ++ [Event.tick (tick_at 0 0 1)])
      sample_state (by decide) (by decide)).2.2 (by decide)⟩

/-! ## The save of the midnight minute -/

/-- C28: a timer tick that re-arms the timer in the midnight minute (hour 0, minute 0,
seen by all clock readings of the handler) with `reset_done` and `save_done` clear and
a non-empty storage directory applies the reset before the save: the reset is logged
first, then `write_flash` is called once, when the daily counter is 0 and the monthly
counter is 0 on the first day of the month and unchanged otherwise; if its calls succeed
`write_flash` writes the line `0` for the daily counter, whatever was counted that
day. -/
theorem midnight_save_after_reset (env : TimerEnv) (s : State) (dir : String)
    (hrc : 0 ≤ env.setitimer_rc)
    (hhour : env.midnight_tm.tm_hour = 0) (hmin : env.midnight_tm.tm_min = 0)
    (hfull : env.full_hour_tm.tm_min = 0)
    (hreset : s.reset_done = 0) (hsave : s.save_done = 0)
    (hdir : s.config.flash_dir = some dir) (hne : 0 < dir.length) :
    (timer_handler env s).effects =
      Effect.syslog (LogMsg.reset_daily s.pulse_count_daily) ::
        ((if env.first_dom_tm.tm_mday = 1 then
            [Effect.syslog (LogMsg.reset_monthly s.pulse_count_monthly)]
          else []) ++
          [Effect.write_flash dir NV_FILENAME 0
            (if env.first_dom_tm.tm_mday = 1 then 0 else s.pulse_count_monthly)]) ∧
    (timer_handler env s).effects.filter Effect.is_write_flash =
      [Effect.write_flash dir NV_FILENAME 0
        (if env.first_dom_tm.tm_mday = 1 then 0 else s.pulse_count_monthly)] ∧
    (timer_handler env s).state.pulse_count_daily = 0 ∧
    (timer_handler env s).state.pulse_count_monthly
      = (if env.first_dom_tm.tm_mday = 1 then 0 else s.pulse_count_monthly) ∧
    (timer_handler env s).state.reset_done = 1 ∧
    (timer_handler env s).state.save_done = 1 ∧
    (timer_handler env s).fault = false ∧
    (∀ (fs : FileSys) (file : String), flash_file dir NV_FILENAME = some file →
      write_flash write_ok fs dir NV_FILENAME (timer_handler env s).state
        = some (0, Function.update fs file
            (FopenRead.opened (['0', '\n'] ++
              fmt_unsigned (if env.first_dom_tm.tm_mday = 1 then 0
                else s.pulse_count_monthly) ++ ['\n'])))) := by
  have h : ¬ env.setitimer_rc < 0 := by omega
  by_cases hd : env.first_dom_tm.tm_mday = 1
  · simp only [timer_handler, midnight_block, is_midnight, is_first_dom, is_full_hour, h,
      hhour, hmin, hfull, hreset, hsave, hdir, hd]
    simp [hne, hsave, hdir, Effect.is_write_flash, write_flash, write_ok, fmt_unsigned]
    intro fs file hfile
    have h0 : Nat.toDigits 10 0 = ['0'] := by decide
    simp [hfile, h0]
  · simp only [timer_handler, midnight_block, is_midnight, is_first_dom, is_full_hour, h,
      hhour, hmin, hfull, hreset, hsave, hdir, hd]
    simp [hne, hsave, hdir, Effect.is_write_flash, write_flash, write_ok, fmt_unsigned]
    intro fs file hfile
    have h0 : Nat.toDigits 10 0 = ['0'] := by decide
    simp [hfile, h0]

/-- Witness of C28: the first tick of a day, not the first of the month, after 7 pulses
that day and 40 that month: the record handed to `write_flash` is 0 and 40. -/
theorem midnight_save_after_reset_witness :
    (counted_state.pulse_count_daily = 7 ∧ counted_state.reset_done = 0 ∧
      counted_state.save_done = 0) ∧
    (timer_handler (tick_at 0 0 15) counted_state).effects.filter Effect.is_write_flash
      = [Effect.write_flash "/media/flash" NV_FILENAME 0 40] :=
  ⟨by decide,
   (midnight_save_after_reset (tick_at 0 0 15) counted_state "/media/flash"
      (by decide) (by decide) (by decide) (by decide) (by decide) (by decide) (by decide)
      (by decide)).2.1⟩

/-! ## The length of the request -/

theorem fmt_signed_length (n : Nat) : (fmt_signed (to_int n)).length ≤ 11 := by
  have hr : -(2 ^ 31 : Int) ≤ to_int n ∧ to_int n < 2 ^ 31 := by
    unfold to_int
    omega
  generalize to_int n = z at hr ⊢
  have h1 : z.natAbs < 2 ^ 32 := by omega
  have h2 : z.toNat < 2 ^ 32 := by omega
  have l1 : (fmt_unsigned z.natAbs).length ≤ 10 := fmt_unsigned_length_uint z.natAbs h1
  have l2 : (fmt_unsigned z.toNat).length ≤ 10 := fmt_unsigned_length_uint z.toNat h2
  unfold fmt_signed
  split_ifs with hneg
  · rw [List.length_cons]
    exact Nat.succ_le_succ l1
  · have e : (10 : Nat) ≤ 11 := by norm_num
    exact le_trans l2 e

theorem json_fields_length (data : EmonData) (hp : data.inst_power < 2 ^ 32)
    (hd : data.energy_day < 2 ^ 32) (hm : data.energy_month < 2 ^ 32) :
    (json_fields data).length ≤ 63 := by
  have l1 := fmt_unsigned_length_uint _ hp
  have l2 := fmt_unsigned_length_uint _ hd
  have l3 := fmt_unsigned_length_uint _ hm
  rw [json_fields_eq data hp hd hm]
  split_ifs <;> simp <;> omega

theorem params_head_length (key : List Char) (node_number : Nat) (hkey : key.length ≤ 32) :
    (params_head key node_number).length
      = 20 + key.length + (fmt_signed (to_int node_number)).length := by
  have hn := fmt_signed_length node_number
  have e1 : "?apikey=".data.length = 8 := rfl
  have e2 : "&node=".data.length = 6 := rfl
  have e3 : "&json=".data.length = 6 := rfl
  unfold params_head
  rw [snprintf_of_short]
  · simp only [List.length_append, e1, e2, e3]
    generalize (fmt_signed (to_int node_number)).length = a at hn ⊢
    omega
  · simp only [List.length_append, e1, e2, e3]
    generalize (fmt_signed (to_int node_number)).length = a at hn ⊢
    omega

theorem url_head_default (data : EmonData) (hbase : data.api_base_uri = none) :
    url_head ((worker_defaults data).api_base_uri.getD EMONCMS_API_BASE_URI).data
      = "http://emoncms.org/input/post.json".data := by
  simp only [worker_defaults, hbase, Option.getD_none, Option.getD_some]
  decide

/-- The length of the URL the worker builds for the default base URI and an API key of
at most 32 characters: 55 characters around the key, the node number and the fields. -/
theorem request_url_length (key : List Char) (data : EmonData) (hkey : key.length ≤ 32)
    (hbase : data.api_base_uri = none) :
    (params_open key (worker_defaults data).node_number (worker_defaults data)).length
      = 21 + key.length
        + (fmt_signed (to_int (worker_defaults data).node_number)).length
        + (json_fields data).length ∧
    (request_url key (worker_defaults data)).length
      = 55 + key.length
        + (fmt_signed (to_int (worker_defaults data).node_number)).length
        + (json_fields data).length := by
  have hj : json_fields (worker_defaults data) = json_fields data := rfl
  have hhead := params_head_length key (worker_defaults data).node_number hkey
  have e4 : "http://emoncms.org/input/post.json".data.length = 34 := rfl
  have hopen : (params_open key (worker_defaults data).node_number
        (worker_defaults data)).length
      = 21 + key.length
        + (fmt_signed (to_int (worker_defaults data).node_number)).length
        + (json_fields data).length := by
    rw [params_open, hj, List.length_append, List.length_append, hhead,
      List.length_singleton]
    generalize (fmt_signed (to_int (worker_defaults data).node_number)).length = a
    generalize (json_fields data).length = b
    omega
  refine ⟨hopen, ?_⟩
  rw [request_url, url_head_default data hbase, request_params, List.length_append,
    List.length_append, List.length_dropLast, hopen, e4, List.length_singleton]
  generalize (fmt_signed (to_int (worker_defaults data).node_number)).length = a
  generalize (json_fields data).length = b
  omega

/-- C29 (code bug): the request URL does not always fit `urlbuf[128]`. For an API key of
32 characters, the default base URI, node number 1 and the payload 3600 W, 2000 Wh,
50000 Wh the URL is 134 characters long, and `strcat (urlbuf, params)` writes past the
buffer. For every API key of at most 32 characters, the default base URI and fields
within `unsigned int`, the query string fits `params[128]` (at most 127 characters), but
the URL is only bounded by 161 characters, a length it reaches; it fits `urlbuf` exactly
when key, node number and fields together take at most 72 characters. -/
theorem request_url_overruns :
    ("0123456789abcdef0123456789abcdef".length = 32 ∧
      long_key_data.api_base_uri = none ∧
      (request_url "0123456789abcdef0123456789abcdef".data
        (worker_defaults long_key_data)).length = 134 ∧
      request_overrun "0123456789abcdef0123456789abcdef".data
        (worker_defaults long_key_data) = true ∧
      (emoncms_send_thread 64 worker_ok long_key_data).fault = true ∧
      (emoncms_send_thread 64 worker_ok long_key_data).request = none) ∧
    (∀ (key : List Char) (data : EmonData), key.length ≤ 32 → data.api_base_uri = none →
      data.inst_power < 2 ^ 32 → data.energy_day < 2 ^ 32 → data.energy_month < 2 ^ 32 →
      (params_open key (worker_defaults data).node_number (worker_defaults data)).length
        ≤ 127 ∧
      (request_url key (worker_defaults data)).length ≤ 161 ∧
      ((request_url key (worker_defaults data)).length ≤ 127 ↔
        key.length + (fmt_signed (to_int (worker_defaults data).node_number)).length
          + (json_fields data).length ≤ 72)) ∧
    (request_url "0123456789abcdef0123456789abcdef".data
      (worker_defaults longest_data)).length = 161 := by
  set_option maxRecDepth 8000 in
  refine ⟨⟨by decide, by decide, by decide, by decide, by decide, by decide⟩, ?_,
    by decide⟩
  intro key data hkey hbase hp hd hm
  obtain ⟨h1, h2⟩ := request_url_length key data hkey hbase
  have hn := fmt_signed_length (worker_defaults data).node_number
  have hj := json_fields_length data hp hd hm
  rw [h1, h2]
  generalize (fmt_signed (to_int (worker_defaults data).node_number)).length = a at hn ⊢
  generalize (json_fields data).length = b at hj ⊢
  refine ⟨by omega, by omega, ?_⟩
  constructor <;> intro h <;> omega

end Emond
